import Mathlib

/-!
# USB Mass Storage Class device driver (Bulk-Only Transport)

A shallow embedding of `tinyusb/class/msc/msc_device.c`: `mscd_init`, `mscd_close`,
`mscd_control_request_subtask`, `mscd_xfer_cb` and `read10_write10_data_xfer`.

* Machine integers are natural numbers; every place where the C code narrows a
  value (`uint16_t` locals, 32-bit arithmetic) carries an explicit `%`.
* The module-level `mscd_data` and the function-local static
  `is_waiting_read10_write10` form the explicit state `mscd_state`.
* The application callbacks and the device controller driver are the fields of
  `Env`; every call made to them is recorded, in order, in a list of `Event`s.
* The one undefined operation of the file, the division
  `xfer_bytes / block_count` with a zero divisor, makes the embedding return
  `none`.
-/

namespace MscDevice

/-! ## Constants and types of the headers -/

/-- Modelled from the spec: the error enumeration of `tusb_errors.h` is not part of the
sources; only the enumerators used by `msc_device.c` are listed.  `TUSB_ERROR_NONE` is
the success value (the zero enumerator). -/
inductive tusb_error_t where
  | TUSB_ERROR_NONE
  | TUSB_ERROR_INVALID_PARA
  | TUSB_ERROR_NOT_SUPPORTED_YET
  | TUSB_ERROR_NOT_ENOUGH_MEMORY
  | TUSB_ERROR_DCD_EDPT_XFER
  | TUSB_ERROR_DCD_CONTROL_REQUEST_NOT_SUPPORT
  | TUSB_ERROR_MSC_UNSUPPORTED_PROTOCOL
  deriving DecidableEq, Repr

open tusb_error_t

/-- Modelled from the spec: the event enumeration of the device stack (header not part
of the sources); `mscd_xfer_cb` only compares against `TUSB_EVENT_XFER_COMPLETE`. -/
inductive tusb_event_t where
  | TUSB_EVENT_NONE
  | TUSB_EVENT_XFER_COMPLETE
  | TUSB_EVENT_XFER_ERROR
  | TUSB_EVENT_XFER_STALLED
  deriving DecidableEq, Repr

open tusb_event_t

/-- Modelled from the spec: signature of a valid CBW (`msc.h` is not part of the
sources), the ASCII bytes "USBC" read as a little-endian word. -/
def MSC_CBW_SIGNATURE : Nat := 0x43425355

/-- Modelled from the spec: signature of a CSW, the ASCII bytes "USBS". -/
def MSC_CSW_SIGNATURE : Nat := 0x53425355

/-- Modelled from the spec: CSW status byte, 0 = Passed. -/
def MSC_CSW_STATUS_PASSED : Nat := 0

/-- Modelled from the spec: CSW status byte, 1 = Failed. -/
def MSC_CSW_STATUS_FAILED : Nat := 1

/-- Modelled from the spec: CSW status byte, 2 = PhaseError. -/
def MSC_CSW_STATUS_PHASE_ERROR : Nat := 2

/-- Modelled from the spec: operation code of the SCSI command READ(10). -/
def SCSI_CMD_READ_10 : Nat := 0x28

/-- Modelled from the spec: operation code of the SCSI command WRITE(10). -/
def SCSI_CMD_WRITE_10 : Nat := 0x2A

/-- Modelled from the spec: `sizeof(msc_cmd_block_wrapper_t)`, a CBW is 31 bytes. -/
def sizeof_msc_cmd_block_wrapper_t : Nat := 31

/-- Modelled from the spec: `sizeof(msc_cmd_status_wrapper_t)`, a CSW is 13 bytes. -/
def sizeof_msc_cmd_status_wrapper_t : Nat := 13

/-- The size of the member `scsi_data` of `mscd_interface_t`: `uint8_t scsi_data[64]`. -/
def sizeof_scsi_data : Nat := 64

/-- Modelled from the spec: the macro `BIT_TEST_(x, n)` of the common header, true when
bit `n` of `x` is set. -/
def BIT_TEST_ (x n : Nat) : Bool := x / 2 ^ n % 2 == 1

/-- Modelled from the spec: `min16_of` of the common header, the smaller of two
`uint16_t` values. -/
def min16_of (x y : Nat) : Nat := if x < y then x else y

/-- Modelled from the spec: `__be2n`, big-endian to native conversion of a 32-bit word
(a byte swap on the little-endian targets of the stack). -/
def __be2n (x : Nat) : Nat :=
  (x % 256) * 2 ^ 24 + (x / 2 ^ 8 % 256) * 2 ^ 16 + (x / 2 ^ 16 % 256) * 2 ^ 8
    + (x / 2 ^ 24 % 256)

/-- Modelled from the spec: `__n2be`, native to big-endian conversion of a 32-bit word
(the same byte swap). -/
def __n2be (x : Nat) : Nat := __be2n x

/-- Modelled from the spec: `__be2n_16`, big-endian to native conversion of a 16-bit
word. -/
def __be2n_16 (x : Nat) : Nat := (x % 256) * 2 ^ 8 + (x / 2 ^ 8 % 256)

/-- Modelled from the spec: `__n2be_16`, native to big-endian conversion of a 16-bit
word. -/
def __n2be_16 (x : Nat) : Nat := __be2n_16 x

/-- Modelled from the spec: the 16-byte `command` array of the CBW seen through
`scsi_read10_t` (declared in `msc.h`, not part of the sources): operation code at byte
0, the big-endian 32-bit `lba` at bytes 2..5 and the big-endian 16-bit `block_count` at
bytes 7..8.  `lba` and `block_count` hold the raw words as the CPU loads them, so that
the code reads them through `__be2n` / `__be2n_16`.  `tail` is bytes 10..15. -/
structure scsi_read10_t where
  cmd_code : Nat
  reserved : Nat
  lba : Nat
  reserved2 : Nat
  block_count : Nat
  control : Nat
  tail : List Nat
  deriving DecidableEq, Repr

/-- Modelled from the spec: the Command Block Wrapper (`msc.h` is not part of the
sources).  `command[0]` of the C code is `command.cmd_code`. -/
structure msc_cmd_block_wrapper_t where
  signature : Nat
  tag : Nat
  xfer_bytes : Nat
  dir : Nat
  lun : Nat
  cmd_len : Nat
  command : scsi_read10_t
  deriving DecidableEq, Repr

/-- Modelled from the spec: the Command Status Wrapper (`msc.h` is not part of the
sources). -/
structure msc_cmd_status_wrapper_t where
  signature : Nat
  tag : Nat
  data_residue : Nat
  status : Nat
  deriving DecidableEq, Repr

/-- Modelled from the spec: `TUSB_REQ_TYPE_CLASS`, the value of the type field of
`bmRequestType` for a class request (standard 0, class 1, vendor 2). -/
def TUSB_REQ_TYPE_CLASS : Nat := 1

/-- Modelled from the spec: `MSC_REQUEST_GET_MAX_LUN`, the class request Get Max LUN
(request code 254). -/
def MSC_REQUEST_GET_MAX_LUN : Nat := 254

/-- Modelled from the spec: `MSC_REQUEST_RESET`, the class request Bulk-Only Mass
Storage Reset (request code 255). -/
def MSC_REQUEST_RESET : Nat := 255

/-- Modelled from the spec: the setup packet `tusb_control_request_t` (declared in the
core headers, not part of the sources); `bmRequestType_bit` is given by its three bit
fields. -/
structure tusb_control_request_t where
  bmRequestType_bit_recipient : Nat
  bmRequestType_bit_type : Nat
  bmRequestType_bit_direction : Nat
  bRequest : Nat
  wValue : Nat
  wIndex : Nat
  wLength : Nat
  deriving DecidableEq, Repr

/-- The struct `mscd_interface_t` of `msc_device.c`. -/
structure mscd_interface_t where
  scsi_data : List Nat
  cbw : msc_cmd_block_wrapper_t
  csw : msc_cmd_status_wrapper_t
  max_lun : Nat
  interface_number : Nat
  edpt_in : Nat
  edpt_out : Nat
  deriving DecidableEq, Repr

/-- The persistent state of the driver: the module-level `mscd_data` and the static
local `is_waiting_read10_write10` of `mscd_xfer_cb`. -/
structure mscd_state where
  mscd_data : mscd_interface_t
  is_waiting_read10_write10 : Bool
  deriving DecidableEq, Repr

/-! ## Collaborators -/

/-- The memory a transfer request points at. -/
inductive Buffer where
  | cbw
  | csw
  | scsi_data
  | app (p_buffer : Nat)
  deriving DecidableEq, Repr

/-- The calls `msc_device.c` makes to its collaborators, with their arguments. -/
inductive Event where
  | tud_msc_scsi_cb (port lun : Nat) (command : scsi_read10_t) (actual_length : Nat)
  | tud_msc_read10_cb (port lun lba block_count : Nat)
  | tud_msc_write10_cb (port lun lba block_count : Nat)
  | tusb_dcd_edpt_xfer (port edpt_addr : Nat) (buffer : Buffer) (total_bytes : Nat)
      (int_on_complete : Bool)
  | tusb_dcd_edpt_queue_xfer (port edpt_addr : Nat) (buffer : Buffer) (total_bytes : Nat)
  | tusb_dcd_edpt_stall (port edpt_addr : Nat)
  | usbd_control_status (port dir : Nat)
  | usbd_control_xfer_stask (port dir : Nat) (data : List Nat) (length : Nat)
  | usbd_control_stall (port : Nat)
  deriving DecidableEq, Repr

/-- What `tud_msc_scsi_cb` hands back: its return value and the two out-parameters.
`p_buffer = none` is the pointer left `NULL`, otherwise the bytes it points at. -/
structure scsi_cb_result where
  status : Nat
  p_buffer : Option (List Nat)
  actual_length : Nat
  deriving DecidableEq, Repr

/-- What `tud_msc_read10_cb` / `tud_msc_write10_cb` hand back: the out-parameter
`p_buffer` (an address in application memory, `0` for `NULL`) and the returned number
of blocks. -/
structure block_cb_result where
  p_buffer : Nat
  blocks : Nat
  deriving DecidableEq, Repr

/-- The collaborators of one invocation: the three application callbacks as functions
of their arguments, and the answer of the controller driver to each transfer request
(`tusb_dcd_edpt_xfer` and `tusb_dcd_edpt_queue_xfer` return `bool`). -/
structure Env where
  tud_msc_scsi_cb : Nat → Nat → scsi_read10_t → Nat → scsi_cb_result
  tud_msc_read10_cb : Nat → Nat → Nat → Nat → block_cb_result
  tud_msc_write10_cb : Nat → Nat → Nat → Nat → block_cb_result
  dcd_accepts : Event → Bool

/-- What one invocation of `mscd_xfer_cb` leaves behind: the returned error code, the
state, and the calls made to the collaborators, in order. -/
structure Outcome where
  err : tusb_error_t
  st : mscd_state
  trace : List Event
  deriving DecidableEq, Repr

/-! ## The functions of `msc_device.c` -/

/-- The C `memcpy(dst, src, n)` on byte lists: the first `n` bytes of `dst` are
replaced by the first `n` bytes of `src`. -/
def memcpy (dst src : List Nat) (n : Nat) : List Nat := src.take n ++ dst.drop n

/-- The C `memclr_(&mscd_data, sizeof(mscd_interface_t))`: every byte of the struct is
zero. -/
def mscd_interface_zero : mscd_interface_t :=
  { scsi_data := List.replicate 64 0
    cbw := { signature := 0, tag := 0, xfer_bytes := 0, dir := 0, lun := 0, cmd_len := 0
             command := { cmd_code := 0, reserved := 0, lba := 0, reserved2 := 0
                          block_count := 0, control := 0, tail := List.replicate 6 0 } }
    csw := { signature := 0, tag := 0, data_residue := 0, status := 0 }
    max_lun := 0
    interface_number := 0
    edpt_in := 0
    edpt_out := 0 }

/-- The function `mscd_init`: `mscd_data` is cleared.  The static local
`is_waiting_read10_write10` of `mscd_xfer_cb` is not part of `mscd_data`. -/
def mscd_init (s : mscd_state) : mscd_state := { s with mscd_data := mscd_interface_zero }

/-- The function `mscd_close`: the same clearing of `mscd_data`. -/
def mscd_close (s : mscd_state) (_port : Nat) : mscd_state :=
  { s with mscd_data := mscd_interface_zero }

/-- The function `mscd_control_request_subtask`, run to its end: the subtask macros
(`OSAL_SUBTASK_BEGIN`, `STASK_INVOKE`, `OSAL_SUBTASK_END`, not part of the sources) are a
straight-line call whose status is stored in the unused local `err`, and the function
ends with `TUSB_ERROR_NONE`.  The control transfer is recorded with the content of
`scsi_data` at the time of the call. -/
def mscd_control_request_subtask (s : mscd_state) (port : Nat)
    (p_request : tusb_control_request_t) : Outcome :=
  let p_msc := s.mscd_data
  if ¬ (p_request.bmRequestType_bit_type = TUSB_REQ_TYPE_CLASS) then
    ⟨TUSB_ERROR_DCD_CONTROL_REQUEST_NOT_SUPPORT, s, []⟩
  else if MSC_REQUEST_RESET = p_request.bRequest then
    ⟨TUSB_ERROR_NONE, s, [Event.usbd_control_status port p_request.bmRequestType_bit_direction]⟩
  else if MSC_REQUEST_GET_MAX_LUN = p_request.bRequest then
    let scsi_data := p_msc.scsi_data.set 0 p_msc.max_lun
    ⟨TUSB_ERROR_NONE, { s with mscd_data := { p_msc with scsi_data := scsi_data } },
      [Event.usbd_control_xfer_stask port p_request.bmRequestType_bit_direction scsi_data 1]⟩
  else
    ⟨TUSB_ERROR_NONE, s, [Event.usbd_control_stall port]⟩

/-- The function `read10_write10_data_xfer`: one step of the data phase of READ(10) /
WRITE(10).  Returns the `bool` result, the interface afterwards and the calls made.

A `TU_ASSERT(cond, TUSB_ERROR_DCD_EDPT_XFER)` that fails inside this `bool` function
returns the non-zero enumerator, that is `true`. -/
def read10_write10_data_xfer (env : Env) (port : Nat) (p_msc : mscd_interface_t) :
    Option (Bool × mscd_interface_t × List Event) :=
  let p_cbw := p_msc.cbw
  let p_csw := p_msc.csw
  let p_readwrite := p_cbw.command
  let edpt_addr := if BIT_TEST_ p_cbw.dir 7 then p_msc.edpt_in else p_msc.edpt_out
  let lba := __be2n p_readwrite.lba
  let block_count := __be2n_16 p_readwrite.block_count
  let r :=
    if SCSI_CMD_READ_10 = p_cbw.command.cmd_code
    then env.tud_msc_read10_cb port p_cbw.lun lba block_count
    else env.tud_msc_write10_cb port p_cbw.lun lba block_count
  let call :=
    if SCSI_CMD_READ_10 = p_cbw.command.cmd_code
    then Event.tud_msc_read10_cb port p_cbw.lun lba block_count
    else Event.tud_msc_write10_cb port p_cbw.lun lba block_count
  let p_buffer := r.p_buffer
  let xferred_block := min16_of r.blocks block_count
  if block_count = 0 then none
  else
    let xferred_byte := xferred_block * (p_cbw.xfer_bytes / block_count) % 2 ^ 32 % 2 ^ 16
    if 0 = xferred_block then
      some (true,
        { p_msc with csw := { p_csw with data_residue := p_cbw.xfer_bytes
                                         status := MSC_CSW_STATUS_FAILED } },
        [call, Event.tusb_dcd_edpt_stall port edpt_addr])
    else if xferred_block < block_count then
      let req := Event.tusb_dcd_edpt_xfer port edpt_addr (Buffer.app p_buffer) xferred_byte true
      if env.dcd_accepts req = false then some (true, p_msc, [call, req])
      else
        some (false,
          { p_msc with cbw := { p_cbw with
              command := { p_readwrite with
                lba := __n2be ((lba + xferred_block) % 2 ^ 32)
                block_count := __n2be_16 ((block_count - xferred_block) % 2 ^ 16) }
              xfer_bytes := (p_cbw.xfer_bytes + 2 ^ 32 - xferred_byte) % 2 ^ 32 } },
          [call, req])
    else
      let req := Event.tusb_dcd_edpt_queue_xfer port edpt_addr (Buffer.app p_buffer) xferred_byte
      let p_msc1 := { p_msc with csw := { p_csw with status := MSC_CSW_STATUS_PASSED } }
      if env.dcd_accepts req = false then some (true, p_msc1, [call, req])
      else some (true, p_msc1, [call, req])

/-- The section "Status Phase" of `mscd_xfer_cb`, up to its `return`. -/
def status_phase (env : Env) (port : Nat) (s : mscd_state) (tr : List Event) : Outcome :=
  let p_msc := s.mscd_data
  if s.is_waiting_read10_write10 = false then
    let csw_req := Event.tusb_dcd_edpt_xfer port p_msc.edpt_in Buffer.csw
      sizeof_msc_cmd_status_wrapper_t false
    if env.dcd_accepts csw_req = false then ⟨TUSB_ERROR_DCD_EDPT_XFER, s, tr ++ [csw_req]⟩
    else
      let cbw_req := Event.tusb_dcd_edpt_xfer port p_msc.edpt_out Buffer.cbw
        sizeof_msc_cmd_block_wrapper_t true
      if env.dcd_accepts cbw_req = false then
        ⟨TUSB_ERROR_DCD_EDPT_XFER, s, tr ++ [csw_req, cbw_req]⟩
      else ⟨TUSB_ERROR_NONE, s, tr ++ [csw_req, cbw_req]⟩
  else ⟨TUSB_ERROR_NONE, s, tr⟩

/-- The section "Data Phase For READ10 & WRITE10" of `mscd_xfer_cb`, followed by the
status phase. -/
def data_phase_read10_write10 (env : Env) (port : Nat) (s : mscd_state) (tr : List Event) :
    Option Outcome :=
  let p_cbw := s.mscd_data.cbw
  if SCSI_CMD_READ_10 = p_cbw.command.cmd_code ∨ SCSI_CMD_WRITE_10 = p_cbw.command.cmd_code then
    match read10_write10_data_xfer env port s.mscd_data with
    | none => none
    | some (done, p_msc, tr1) =>
      some (status_phase env port
        { mscd_data := p_msc, is_waiting_read10_write10 := !done } (tr ++ tr1))
  else some (status_phase env port s tr)

/-- The function `mscd_xfer_cb`: the handler of a bulk transfer completion.  `none` is
an execution that divides by zero. -/
def mscd_xfer_cb (env : Env) (s : mscd_state) (port edpt_addr : Nat) (event : tusb_event_t)
    (xferred_bytes : Nat) : Option Outcome :=
  let p_msc := s.mscd_data
  let p_cbw := p_msc.cbw
  let p_csw := p_msc.csw
  if ¬ (edpt_addr = p_msc.edpt_out ∨ edpt_addr = p_msc.edpt_in) then
    some ⟨TUSB_ERROR_INVALID_PARA, s, []⟩
  else if s.is_waiting_read10_write10 = false then
    if ¬ (edpt_addr = p_msc.edpt_out ∧ xferred_bytes = sizeof_msc_cmd_block_wrapper_t ∧
          event = TUSB_EVENT_XFER_COMPLETE ∧ p_cbw.signature = MSC_CBW_SIGNATURE) then
      some ⟨TUSB_ERROR_INVALID_PARA, s, []⟩
    else
      let p_csw1 := { p_csw with signature := MSC_CSW_SIGNATURE, tag := p_cbw.tag
                                 data_residue := 0 }
      let s1 : mscd_state := { s with mscd_data := { p_msc with csw := p_csw1 } }
      if SCSI_CMD_READ_10 ≠ p_cbw.command.cmd_code ∧ SCSI_CMD_WRITE_10 ≠ p_cbw.command.cmd_code then
        let actual_length0 := p_cbw.xfer_bytes % 2 ^ 16
        if p_cbw.xfer_bytes > 0 ∧ BIT_TEST_ p_cbw.dir 7 = false then
          some ⟨TUSB_ERROR_NOT_SUPPORTED_YET, s1, []⟩
        else
          let r := env.tud_msc_scsi_cb port p_cbw.lun p_cbw.command actual_length0
          let call := Event.tud_msc_scsi_cb port p_cbw.lun p_cbw.command actual_length0
          let p_buffer := r.p_buffer
          let actual_length := r.actual_length
          let p_csw2 := { p_csw1 with status := r.status }
          let s2 : mscd_state := { s with mscd_data := { p_msc with csw := p_csw2 } }
          if p_cbw.xfer_bytes ≠ 0 then
            if ¬ (p_cbw.xfer_bytes ≥ actual_length) then
              some ⟨TUSB_ERROR_INVALID_PARA, s2, [call]⟩
            else if ¬ (sizeof_scsi_data ≥ actual_length) then
              some ⟨TUSB_ERROR_NOT_ENOUGH_MEMORY, s2, [call]⟩
            else
              let edpt_data := if BIT_TEST_ p_cbw.dir 7 then p_msc.edpt_in else p_msc.edpt_out
              match p_buffer with
              | none =>
                data_phase_read10_write10 env port
                  { s with mscd_data :=
                      { p_msc with csw := { p_csw2 with status := MSC_CSW_STATUS_FAILED } } }
                  [call, Event.tusb_dcd_edpt_stall port edpt_data]
              | some bytes =>
                if actual_length = 0 then
                  data_phase_read10_write10 env port
                    { s with mscd_data :=
                        { p_msc with csw := { p_csw2 with status := MSC_CSW_STATUS_FAILED } } }
                    [call, Event.tusb_dcd_edpt_stall port edpt_data]
                else
                  let s3 : mscd_state :=
                    { s with mscd_data :=
                        { p_msc with csw := p_csw2
                                     scsi_data := memcpy p_msc.scsi_data bytes actual_length } }
                  let req := Event.tusb_dcd_edpt_queue_xfer port edpt_data Buffer.scsi_data
                    actual_length
                  if env.dcd_accepts req = false then
                    some ⟨TUSB_ERROR_DCD_EDPT_XFER, s3, [call, req]⟩
                  else data_phase_read10_write10 env port s3 [call, req]
          else data_phase_read10_write10 env port s2 [call]
      else data_phase_read10_write10 env port s1 []
  else data_phase_read10_write10 env port s []

/-! ## Vocabulary of the properties -/

/-- The opcode of the CBW is READ(10) or WRITE(10). -/
def is_read10_write10 (cbw : msc_cmd_block_wrapper_t) : Prop :=
  SCSI_CMD_READ_10 = cbw.command.cmd_code ∨ SCSI_CMD_WRITE_10 = cbw.command.cmd_code

instance (cbw : msc_cmd_block_wrapper_t) : Decidable (is_read10_write10 cbw) := by
  unfold is_read10_write10; infer_instance

/-- The block count requested by the CBW, as `read10_write10_data_xfer` decodes it. -/
def cbw_block_count (cbw : msc_cmd_block_wrapper_t) : Nat := __be2n_16 cbw.command.block_count

/-- The logical block address of the CBW, as `read10_write10_data_xfer` decodes it. -/
def cbw_lba (cbw : msc_cmd_block_wrapper_t) : Nat := __be2n cbw.command.lba

/-- The endpoint of the data phase: IN when bit 7 of the CBW direction is set, else
OUT. -/
def data_edpt (p_msc : mscd_interface_t) : Nat :=
  if BIT_TEST_ p_msc.cbw.dir 7 then p_msc.edpt_in else p_msc.edpt_out

/-- The answer of the application block callback selected by the opcode of the CBW
(read for READ(10), write otherwise) for the given address and count. -/
def block_cb (env : Env) (port : Nat) (cbw : msc_cmd_block_wrapper_t) (lba count : Nat) :
    block_cb_result :=
  if SCSI_CMD_READ_10 = cbw.command.cmd_code then env.tud_msc_read10_cb port cbw.lun lba count
  else env.tud_msc_write10_cb port cbw.lun lba count

/-- The record of the call to the application block callback selected by the opcode. -/
def block_cb_call (port : Nat) (cbw : msc_cmd_block_wrapper_t) (lba count : Nat) : Event :=
  if SCSI_CMD_READ_10 = cbw.command.cmd_code then Event.tud_msc_read10_cb port cbw.lun lba count
  else Event.tud_msc_write10_cb port cbw.lun lba count

/-- The driver accepts every transfer request. -/
def accepts_all (env : Env) : Prop := ∀ e, env.dcd_accepts e = true

/-- The event handed to `mscd_xfer_cb` is a CBW that the idle phase accepts: the
continuation flag is clear and the event is a completed transfer of `sizeof(CBW)` bytes
on the OUT endpoint with the CBW signature in place. -/
def cbw_accepted (s : mscd_state) (edpt_addr : Nat) (event : tusb_event_t)
    (xferred_bytes : Nat) : Prop :=
  s.is_waiting_read10_write10 = false ∧ edpt_addr = s.mscd_data.edpt_out ∧
    xferred_bytes = sizeof_msc_cmd_block_wrapper_t ∧ event = TUSB_EVENT_XFER_COMPLETE ∧
    s.mscd_data.cbw.signature = MSC_CBW_SIGNATURE

instance (s : mscd_state) (edpt_addr : Nat) (event : tusb_event_t) (xferred_bytes : Nat) :
    Decidable (cbw_accepted s edpt_addr event xferred_bytes) := by
  unfold cbw_accepted; infer_instance

/-- The request that queues the CSW on the IN endpoint. -/
def csw_request (port : Nat) (p_msc : mscd_interface_t) : Event :=
  Event.tusb_dcd_edpt_xfer port p_msc.edpt_in Buffer.csw sizeof_msc_cmd_status_wrapper_t false

/-- The request that queues the reception of the next CBW on the OUT endpoint. -/
def cbw_request (port : Nat) (p_msc : mscd_interface_t) : Event :=
  Event.tusb_dcd_edpt_xfer port p_msc.edpt_out Buffer.cbw sizeof_msc_cmd_block_wrapper_t true

/-- An environment for examples: the block callbacks answer `blocks` blocks from the
application buffer at address `p_buffer`, the SCSI callback answers `scsi`, and the
driver answers `accepts`. -/
def Env.sample (p_buffer blocks : Nat) (scsi : scsi_cb_result) (accepts : Event → Bool) : Env :=
  { tud_msc_scsi_cb := fun _ _ _ _ => scsi
    tud_msc_read10_cb := fun _ _ _ _ => ⟨p_buffer, blocks⟩
    tud_msc_write10_cb := fun _ _ _ _ => ⟨p_buffer, blocks⟩
    dcd_accepts := accepts }

/-- An interface for examples, configured with IN endpoint `0x81` and OUT endpoint
`0x01`, holding a CBW with tag `0x1234`, the given opcode, direction, declared length
and (host-order) address and block count, and a stale CSW. -/
def mscd_example (opcode dir xfer_bytes lba count : Nat) : mscd_interface_t :=
  { scsi_data := List.replicate 64 0
    cbw := { signature := MSC_CBW_SIGNATURE, tag := 0x1234, xfer_bytes := xfer_bytes
             dir := dir, lun := 0, cmd_len := 10
             command := { cmd_code := opcode, reserved := 0, lba := __n2be lba, reserved2 := 0
                          block_count := __n2be_16 count, control := 0
                          tail := List.replicate 6 0 } }
    csw := { signature := 0, tag := 0, data_residue := 7, status := MSC_CSW_STATUS_PHASE_ERROR }
    max_lun := 0
    interface_number := 0
    edpt_in := 0x81
    edpt_out := 0x01 }

/-- The number of blocks one call accounts for: the callback result clamped to the
remaining block count. -/
def xferred_block (env : Env) (port : Nat) (cbw : msc_cmd_block_wrapper_t) : Nat :=
  min16_of (block_cb env port cbw (cbw_lba cbw) (cbw_block_count cbw)).blocks (cbw_block_count cbw)

/-- The byte count one call hands to the driver, a `uint16_t`. -/
def xferred_byte (env : Env) (port : Nat) (cbw : msc_cmd_block_wrapper_t) : Nat :=
  xferred_block env port cbw * (cbw.xfer_bytes / cbw_block_count cbw) % 2 ^ 32 % 2 ^ 16

/-- The interface after a failed step: residue and status of the CSW are set. -/
def rw_failed (p_msc : mscd_interface_t) : mscd_interface_t :=
  { p_msc with csw := { p_msc.csw with data_residue := p_msc.cbw.xfer_bytes
                                       status := MSC_CSW_STATUS_FAILED } }

/-- The interface after a final step: the status of the CSW is Passed. -/
def rw_done (p_msc : mscd_interface_t) : mscd_interface_t :=
  { p_msc with csw := { p_msc.csw with status := MSC_CSW_STATUS_PASSED } }

/-- The interface after a continuing step that accounted for `b` blocks and `bytes`
bytes: address, block count and byte count of the CBW are rewritten. -/
def rw_continue (p_msc : mscd_interface_t) (b bytes : Nat) : mscd_interface_t :=
  { p_msc with cbw := { p_msc.cbw with
      command := { p_msc.cbw.command with
        lba := __n2be ((cbw_lba p_msc.cbw + b) % 2 ^ 32)
        block_count := __n2be_16 ((cbw_block_count p_msc.cbw - b) % 2 ^ 16) }
      xfer_bytes := (p_msc.cbw.xfer_bytes + 2 ^ 32 - bytes) % 2 ^ 32 } }

/-- The request of a continuing step. -/
def continue_request (env : Env) (port : Nat) (p_msc : mscd_interface_t) : Event :=
  Event.tusb_dcd_edpt_xfer port (data_edpt p_msc)
    (Buffer.app (block_cb env port p_msc.cbw (cbw_lba p_msc.cbw)
      (cbw_block_count p_msc.cbw)).p_buffer)
    (xferred_byte env port p_msc.cbw) true

/-- The request of a final step. -/
def final_request (env : Env) (port : Nat) (p_msc : mscd_interface_t) : Event :=
  Event.tusb_dcd_edpt_queue_xfer port (data_edpt p_msc)
    (Buffer.app (block_cb env port p_msc.cbw (cbw_lba p_msc.cbw)
      (cbw_block_count p_msc.cbw)).p_buffer)
    (xferred_byte env port p_msc.cbw)

/-- The record of the block callback call made for the CBW as it stands. -/
def current_call (port : Nat) (cbw : msc_cmd_block_wrapper_t) : Event :=
  block_cb_call port cbw (cbw_lba cbw) (cbw_block_count cbw)

/-- The state right after a CBW was accepted: the CSW carries the CSW signature, the tag
of the CBW and a zero residue. -/
def csw_initialised (s : mscd_state) : mscd_state :=
  { s with mscd_data := { s.mscd_data with csw :=
      { s.mscd_data.csw with signature := MSC_CSW_SIGNATURE, tag := s.mscd_data.cbw.tag
                             data_residue := 0 } } }

/-- A driver that accepts every request. -/
def accept_every (_e : Event) : Bool := true

/-- An application that answers no SCSI data: status Failed, pointer `NULL`, length 0. -/
def scsi_no_data : scsi_cb_result := ⟨MSC_CSW_STATUS_FAILED, none, 0⟩

/-- An application that does not support a generic SCSI command: its callback returns
Failed and writes neither out-parameter, so the pointer stays `NULL` and the length stays
at the value `mscd_xfer_cb` passed in.  The driver accepts every request. -/
def unsupported_scsi_command : Env :=
  { tud_msc_scsi_cb := fun _ _ _ actual_length => ⟨MSC_CSW_STATUS_FAILED, none, actual_length⟩
    tud_msc_read10_cb := fun _ _ _ _ => ⟨0, 0⟩
    tud_msc_write10_cb := fun _ _ _ _ => ⟨0, 0⟩
    dcd_accepts := accept_every }

/-- One completion event delivered to `mscd_xfer_cb`, together with the behaviour of the
collaborators while it is handled. -/
structure Invocation where
  env : Env
  port : Nat
  edpt_addr : Nat
  event : tusb_event_t
  xferred_bytes : Nat

/-- Successive invocations of `mscd_xfer_cb`, each starting from the state the previous
one left; the outcomes are listed in order. -/
def mscd_run (s : mscd_state) : List Invocation → Option (List Outcome)
  | [] => some []
  | i :: rest =>
    match mscd_xfer_cb i.env s i.port i.edpt_addr i.event i.xferred_bytes with
    | none => none
    | some o => (mscd_run o.st rest).map (List.cons o)

/-- The CSW an invocation leaves in the interface. -/
def Outcome.csw (o : Outcome) : msc_cmd_status_wrapper_t := o.st.mscd_data.csw

/-- The event is a request made to the endpoint driver: a transfer, a queued transfer
or a stall. -/
def Event.is_request : Event → Bool
  | Event.tusb_dcd_edpt_xfer _ _ _ _ _ => true
  | Event.tusb_dcd_edpt_queue_xfer _ _ _ _ => true
  | Event.tusb_dcd_edpt_stall _ _ => true
  | _ => false

/-- The requests made to the endpoint driver, in order. -/
def io_requests (tr : List Event) : List Event := tr.filter Event.is_request

/-- The event is a call of the generic SCSI callback. -/
def Event.is_scsi_cb : Event → Bool
  | Event.tud_msc_scsi_cb _ _ _ _ => true
  | _ => false

/-- The event is a transfer request on the CBW buffer. -/
def Event.uses_cbw_buffer : Event → Bool
  | Event.tusb_dcd_edpt_xfer _ _ Buffer.cbw _ _ => true
  | Event.tusb_dcd_edpt_queue_xfer _ _ Buffer.cbw _ => true
  | _ => false

/-- The answer of the generic SCSI callback for the CBW held by the interface; the
length passed in is the declared transfer length narrowed to `uint16_t`. -/
def scsi_result (env : Env) (port : Nat) (cbw : msc_cmd_block_wrapper_t) : scsi_cb_result :=
  env.tud_msc_scsi_cb port cbw.lun cbw.command (cbw.xfer_bytes % 2 ^ 16)

/-- The record of the call of the generic SCSI callback. -/
def scsi_call (port : Nat) (cbw : msc_cmd_block_wrapper_t) : Event :=
  Event.tud_msc_scsi_cb port cbw.lun cbw.command (cbw.xfer_bytes % 2 ^ 16)

/-- The state after the generic SCSI callback returned `status`: the CSW is initialised
and carries that status. -/
def scsi_answered (s : mscd_state) (status : Nat) : mscd_state :=
  { s with mscd_data := { s.mscd_data with csw :=
      { signature := MSC_CSW_SIGNATURE, tag := s.mscd_data.cbw.tag, data_residue := 0
        status := status } } }

/-- The state after the answer of the generic SCSI callback was copied into the scratch
buffer. -/
def scsi_staged (s : mscd_state) (r : scsi_cb_result) (bytes : List Nat) : mscd_state :=
  { s with mscd_data := { s.mscd_data with
      csw := { signature := MSC_CSW_SIGNATURE, tag := s.mscd_data.cbw.tag, data_residue := 0
               status := r.status }
      scsi_data := memcpy s.mscd_data.scsi_data bytes r.actual_length } }

/-- The request that queues the scratch buffer on the data-phase endpoint. -/
def scsi_data_request (port : Nat) (p_msc : mscd_interface_t) (length : Nat) : Event :=
  Event.tusb_dcd_edpt_queue_xfer port (data_edpt p_msc) Buffer.scsi_data length

/-- A driver that refuses every transfer from or to an application buffer and accepts
all other requests. -/
def refuse_app_buffer : Event → Bool
  | Event.tusb_dcd_edpt_xfer _ _ (Buffer.app _) _ _ => false
  | Event.tusb_dcd_edpt_queue_xfer _ _ (Buffer.app _) _ => false
  | _ => true

/-- The invocations of `mscd_xfer_cb` for one command: each invocation starts from the
state the previous one left; the run stops after the first invocation that leaves the
continuation flag clear. -/
def command_run (s : mscd_state) : List Invocation → Option (List Outcome)
  | [] => some []
  | i :: rest =>
    match mscd_xfer_cb i.env s i.port i.edpt_addr i.event i.xferred_bytes with
    | none => none
    | some o =>
      if o.st.is_waiting_read10_write10 = true then (command_run o.st rest).map (List.cons o)
      else some [o]

/-- The endpoint of the event is one of the two endpoints of the interface. -/
def Invocation.on_endpoint_of (i : Invocation) (p_msc : mscd_interface_t) : Prop :=
  i.edpt_addr = p_msc.edpt_out ∨ i.edpt_addr = p_msc.edpt_in

/-- The invocation reaches the READ(10)/WRITE(10) data phase of the command held by the
state: either it is the event that makes the idle phase accept the CBW, or the
continuation flag is set and the event is on an endpoint of the interface. -/
def Invocation.starts (i : Invocation) (s : mscd_state) : Prop :=
  cbw_accepted s i.edpt_addr i.event i.xferred_bytes ∨
    (s.is_waiting_read10_write10 = true ∧ i.on_endpoint_of s.mscd_data)

/-- The byte count of a data-phase transfer request (a transfer from or to a buffer of
the application or the scratch buffer); 0 for every other call. -/
def Event.data_bytes : Event → Nat
  | Event.tusb_dcd_edpt_xfer _ _ (Buffer.app _) n _ => n
  | Event.tusb_dcd_edpt_queue_xfer _ _ (Buffer.app _) n => n
  | Event.tusb_dcd_edpt_queue_xfer _ _ Buffer.scsi_data n => n
  | _ => 0

/-- The bytes of the data-phase transfers requested in a list of calls. -/
def queued_bytes (tr : List Event) : Nat := (tr.map Event.data_bytes).sum

/-- The bytes of the data-phase transfers requested over successive invocations. -/
def total_queued (os : List Outcome) : Nat := (os.map (fun o => queued_bytes o.trace)).sum

/-- The `xfer_bytes` the CBW holds after an invocation. -/
def Outcome.xfer_bytes (o : Outcome) : Nat := o.st.mscd_data.cbw.xfer_bytes

/-- The block count the CBW holds after an invocation. -/
def Outcome.block_count (o : Outcome) : Nat := cbw_block_count o.st.mscd_data.cbw

/-- Whatever CBW the callback of the invocation is asked about, an answer of fewer
blocks than remain, counted at `k` bytes per block, stays below 2^16 bytes. -/
def Invocation.chunk_fits (j : Invocation) (k : Nat) : Prop :=
  ∀ cbw : msc_cmd_block_wrapper_t,
    xferred_block j.env j.port cbw < cbw_block_count cbw →
    xferred_block j.env j.port cbw * k < 2 ^ 16

/-! ## Theorems -/

theorem be2n_bytes (a b c d : Nat) (ha : a < 256) (hb : b < 256) (hc : c < 256)
    (hd : d < 256) :
    __be2n (a * 2 ^ 24 + b * 2 ^ 16 + c * 2 ^ 8 + d)
      = d * 2 ^ 24 + c * 2 ^ 16 + b * 2 ^ 8 + a := by
  unfold __be2n
  have h1 : (a * 2 ^ 24 + b * 2 ^ 16 + c * 2 ^ 8 + d) % 256 = d := by omega
  have h2 : (a * 2 ^ 24 + b * 2 ^ 16 + c * 2 ^ 8 + d) / 2 ^ 8 % 256 = c := by omega
  have h3 : (a * 2 ^ 24 + b * 2 ^ 16 + c * 2 ^ 8 + d) / 2 ^ 16 % 256 = b := by omega
  have h4 : (a * 2 ^ 24 + b * 2 ^ 16 + c * 2 ^ 8 + d) / 2 ^ 24 % 256 = a := by omega
  rw [h1, h2, h3, h4]

theorem be2n_n2be (v : Nat) (h : v < 2 ^ 32) : __be2n (__n2be v) = v := by
  have e : __n2be v = (v % 256) * 2 ^ 24 + (v / 2 ^ 8 % 256) * 2 ^ 16
      + (v / 2 ^ 16 % 256) * 2 ^ 8 + (v / 2 ^ 24 % 256) := rfl
  rw [e, be2n_bytes _ _ _ _ (by omega) (by omega) (by omega) (by omega)]
  have h16 : v / 2 ^ 16 = v / 2 ^ 8 / 2 ^ 8 := by rw [Nat.div_div_eq_div_mul]; norm_num
  have h24 : v / 2 ^ 24 = v / 2 ^ 16 / 2 ^ 8 := by rw [Nat.div_div_eq_div_mul]; norm_num
  omega

theorem be2n_16_n2be_16 (v : Nat) (h : v < 2 ^ 16) : __be2n_16 (__n2be_16 v) = v := by
  unfold __n2be_16 __be2n_16
  generalize hx : v % 256 * 2 ^ 8 + v / 2 ^ 8 % 256 = x
  have h1 : x / 2 ^ 8 = v % 256 := by omega
  have h2 : x % 256 = v / 2 ^ 8 := by omega
  omega

theorem be2n_16_lt (x : Nat) : __be2n_16 x < 2 ^ 16 := by
  unfold __be2n_16
  omega

theorem min16_of_self (n : Nat) : min16_of n n = n := by
  simp [min16_of]

theorem read10_write10_zero_divisor (env : Env) (port : Nat) (p_msc : mscd_interface_t)
    (hn : cbw_block_count p_msc.cbw = 0) :
    read10_write10_data_xfer env port p_msc = none := by
  unfold cbw_block_count at hn
  simp [read10_write10_data_xfer, hn]

theorem read10_write10_failed (env : Env) (port : Nat) (p_msc : mscd_interface_t)
    (hn : cbw_block_count p_msc.cbw ≠ 0) (hz : xferred_block env port p_msc.cbw = 0) :
    read10_write10_data_xfer env port p_msc
      = some (true, rw_failed p_msc,
          [current_call port p_msc.cbw, Event.tusb_dcd_edpt_stall port (data_edpt p_msc)]) := by
  unfold xferred_block block_cb cbw_lba cbw_block_count at hz
  unfold cbw_block_count at hn
  simp only [read10_write10_data_xfer, hn, hz, if_false, if_true]
  rfl

theorem read10_write10_continue (env : Env) (port : Nat) (p_msc : mscd_interface_t)
    (hpos : 0 < xferred_block env port p_msc.cbw)
    (hlt : xferred_block env port p_msc.cbw < cbw_block_count p_msc.cbw)
    (hacc : env.dcd_accepts (continue_request env port p_msc) = true) :
    read10_write10_data_xfer env port p_msc
      = some (false,
          rw_continue p_msc (xferred_block env port p_msc.cbw) (xferred_byte env port p_msc.cbw),
          [current_call port p_msc.cbw, continue_request env port p_msc]) := by
  have hn : __be2n_16 p_msc.cbw.command.block_count ≠ 0 := by
    unfold cbw_block_count at hlt; omega
  have hz : ¬ (0 = xferred_block env port p_msc.cbw) := by omega
  unfold continue_request xferred_byte data_edpt at hacc
  unfold xferred_block block_cb cbw_lba cbw_block_count at hz hlt hacc
  simp only [read10_write10_data_xfer, hn, hz, hlt, hacc, if_false, if_true]
  rfl

theorem read10_write10_refused (env : Env) (port : Nat) (p_msc : mscd_interface_t)
    (hpos : 0 < xferred_block env port p_msc.cbw)
    (hlt : xferred_block env port p_msc.cbw < cbw_block_count p_msc.cbw)
    (hacc : env.dcd_accepts (continue_request env port p_msc) = false) :
    read10_write10_data_xfer env port p_msc
      = some (true, p_msc, [current_call port p_msc.cbw, continue_request env port p_msc]) := by
  have hn : __be2n_16 p_msc.cbw.command.block_count ≠ 0 := by
    unfold cbw_block_count at hlt; omega
  have hz : ¬ (0 = xferred_block env port p_msc.cbw) := by omega
  unfold continue_request xferred_byte data_edpt at hacc
  unfold xferred_block block_cb cbw_lba cbw_block_count at hz hlt hacc
  simp only [read10_write10_data_xfer, hn, hz, hlt, hacc, if_false, if_true]
  rfl

theorem read10_write10_done (env : Env) (port : Nat) (p_msc : mscd_interface_t)
    (hn : cbw_block_count p_msc.cbw ≠ 0)
    (hge : cbw_block_count p_msc.cbw ≤ xferred_block env port p_msc.cbw) :
    read10_write10_data_xfer env port p_msc
      = some (true, rw_done p_msc,
          [current_call port p_msc.cbw, final_request env port p_msc]) := by
  have hz : ¬ (0 = xferred_block env port p_msc.cbw) := by omega
  have hlt : ¬ (xferred_block env port p_msc.cbw < cbw_block_count p_msc.cbw) := by omega
  unfold xferred_block block_cb cbw_lba cbw_block_count at hz hlt
  unfold cbw_block_count at hn
  simp only [read10_write10_data_xfer, hn, hz, hlt, if_false, ite_self]
  rfl

theorem status_phase_accepting (env : Env) (port : Nat) (s : mscd_state) (tr : List Event)
    (hdrv : accepts_all env) (hflag : s.is_waiting_read10_write10 = false) :
    status_phase env port s tr
      = ⟨TUSB_ERROR_NONE, s, tr ++ [csw_request port s.mscd_data, cbw_request port s.mscd_data]⟩ := by
  simp [status_phase, hflag, hdrv _, csw_request, cbw_request]

theorem status_phase_waiting (env : Env) (port : Nat) (s : mscd_state) (tr : List Event)
    (hflag : s.is_waiting_read10_write10 = true) :
    status_phase env port s tr = ⟨TUSB_ERROR_NONE, s, tr⟩ := by
  simp [status_phase, hflag]

theorem data_phase_of_read10_write10 (env : Env) (port : Nat) (s : mscd_state)
    (tr : List Event) (hrw : is_read10_write10 s.mscd_data.cbw) :
    data_phase_read10_write10 env port s tr
      = (read10_write10_data_xfer env port s.mscd_data).map (fun r =>
          status_phase env port
            { mscd_data := r.2.1, is_waiting_read10_write10 := !r.1 } (tr ++ r.2.2)) := by
  unfold is_read10_write10 at hrw
  simp only [data_phase_read10_write10, hrw, if_true]
  cases read10_write10_data_xfer env port s.mscd_data with
  | none => rfl
  | some r => rfl

theorem data_phase_of_other (env : Env) (port : Nat) (s : mscd_state)
    (tr : List Event) (hrw : ¬ is_read10_write10 s.mscd_data.cbw) :
    data_phase_read10_write10 env port s tr = some (status_phase env port s tr) := by
  unfold is_read10_write10 at hrw
  simp only [data_phase_read10_write10, hrw, if_false]

theorem mscd_xfer_cb_new_read10_write10 (env : Env) (s : mscd_state) (port edpt_addr : Nat)
    (event : tusb_event_t) (xferred_bytes : Nat)
    (hcbw : cbw_accepted s edpt_addr event xferred_bytes)
    (hrw : is_read10_write10 s.mscd_data.cbw) :
    mscd_xfer_cb env s port edpt_addr event xferred_bytes
      = data_phase_read10_write10 env port (csw_initialised s) [] := by
  obtain ⟨h1, h2, h3, h4, h5⟩ := hcbw
  have hrw' : ¬ (SCSI_CMD_READ_10 ≠ s.mscd_data.cbw.command.cmd_code ∧
      SCSI_CMD_WRITE_10 ≠ s.mscd_data.cbw.command.cmd_code) := by
    unfold is_read10_write10 at hrw; tauto
  simp [mscd_xfer_cb, h1, h2, h3, h4, h5, hrw', csw_initialised]

theorem mscd_xfer_cb_waiting (env : Env) (s : mscd_state) (port edpt_addr : Nat)
    (event : tusb_event_t) (xferred_bytes : Nat)
    (hep : edpt_addr = s.mscd_data.edpt_out ∨ edpt_addr = s.mscd_data.edpt_in)
    (hflag : s.is_waiting_read10_write10 = true) :
    mscd_xfer_cb env s port edpt_addr event xferred_bytes
      = data_phase_read10_write10 env port s [] := by
  simp [mscd_xfer_cb, hep, hflag]

/-! ## Single-call READ(10) / WRITE(10) -/

/-- C1 (as amended): for every READ(10)/WRITE(10) CBW with a block count of at least one
that `mscd_xfer_cb` accepts in the idle phase, if the application block callback returns
the full requested block count and the driver accepts every request, the invocation
returns `TUSB_ERROR_NONE`, makes exactly the calls: the block callback, one data transfer
queued on the data-phase endpoint, the CSW queued on the IN endpoint, the reception of
the next CBW; and the CSW carries the CSW signature, the tag of the CBW, status Passed
and residue 0. -/
theorem read10_write10_single_call (env : Env) (s : mscd_state) (port edpt_addr : Nat)
    (event : tusb_event_t) (xferred_bytes : Nat)
    (hdrv : accepts_all env)
    (hcbw : cbw_accepted s edpt_addr event xferred_bytes)
    (hrw : is_read10_write10 s.mscd_data.cbw)
    (hn : 1 ≤ cbw_block_count s.mscd_data.cbw)
    (hfull : (block_cb env port s.mscd_data.cbw (cbw_lba s.mscd_data.cbw)
        (cbw_block_count s.mscd_data.cbw)).blocks = cbw_block_count s.mscd_data.cbw) :
    ∃ o, mscd_xfer_cb env s port edpt_addr event xferred_bytes = some o ∧
      o.err = TUSB_ERROR_NONE ∧
      o.trace =
        [ block_cb_call port s.mscd_data.cbw (cbw_lba s.mscd_data.cbw)
            (cbw_block_count s.mscd_data.cbw),
          Event.tusb_dcd_edpt_queue_xfer port (data_edpt s.mscd_data)
            (Buffer.app (block_cb env port s.mscd_data.cbw (cbw_lba s.mscd_data.cbw)
              (cbw_block_count s.mscd_data.cbw)).p_buffer)
            (cbw_block_count s.mscd_data.cbw *
              (s.mscd_data.cbw.xfer_bytes / cbw_block_count s.mscd_data.cbw) % 2 ^ 32 % 2 ^ 16),
          csw_request port s.mscd_data,
          cbw_request port s.mscd_data ] ∧
      o.st.mscd_data.csw.signature = MSC_CSW_SIGNATURE ∧
      o.st.mscd_data.csw.tag = s.mscd_data.cbw.tag ∧
      o.st.mscd_data.csw.status = MSC_CSW_STATUS_PASSED ∧
      o.st.mscd_data.csw.data_residue = 0 ∧
      o.st.is_waiting_read10_write10 = false := by
  have hxb : xferred_block env port (csw_initialised s).mscd_data.cbw
      = cbw_block_count s.mscd_data.cbw := by
    show min16_of _ _ = _
    rw [show (csw_initialised s).mscd_data.cbw = s.mscd_data.cbw from rfl, hfull, min16_of_self]
  have hdone := read10_write10_done env port (csw_initialised s).mscd_data
    (by show cbw_block_count s.mscd_data.cbw ≠ 0; omega)
    (by rw [hxb]; exact Nat.le_refl _)
  rw [mscd_xfer_cb_new_read10_write10 env s port edpt_addr event xferred_bytes hcbw hrw,
    data_phase_of_read10_write10 env port (csw_initialised s) [] hrw, hdone]
  simp only [Option.map_some', Bool.not_true]
  rw [status_phase_accepting env port _ _ hdrv rfl]
  refine ⟨_, rfl, rfl, ?_, rfl, rfl, rfl, rfl, rfl⟩
  simp only [List.nil_append, List.cons_append, current_call, final_request, xferred_byte, hxb]
  rfl

/-- C1, witness: the example of the specification, READ(10) of one block of 512 bytes
at address 0, answered in full by the application. -/
theorem read10_write10_single_call_witness :
    accepts_all (Env.sample 4096 1 scsi_no_data accept_every) ∧
    cbw_accepted ⟨mscd_example SCSI_CMD_READ_10 0x80 512 0 1, false⟩ 0x01
      TUSB_EVENT_XFER_COMPLETE 31 ∧
    ∃ o, mscd_xfer_cb (Env.sample 4096 1 scsi_no_data accept_every)
        ⟨mscd_example SCSI_CMD_READ_10 0x80 512 0 1, false⟩ 0 0x01
        TUSB_EVENT_XFER_COMPLETE 31 = some o ∧
      o.err = TUSB_ERROR_NONE ∧
      o.trace =
        [ Event.tud_msc_read10_cb 0 0 0 1,
          Event.tusb_dcd_edpt_queue_xfer 0 0x81 (Buffer.app 4096) 512,
          Event.tusb_dcd_edpt_xfer 0 0x81 Buffer.csw 13 false,
          Event.tusb_dcd_edpt_xfer 0 0x01 Buffer.cbw 31 true ] ∧
      o.st.mscd_data.csw.signature = MSC_CSW_SIGNATURE ∧
      o.st.mscd_data.csw.tag = 0x1234 ∧
      o.st.mscd_data.csw.status = MSC_CSW_STATUS_PASSED ∧
      o.st.mscd_data.csw.data_residue = 0 ∧
      o.st.is_waiting_read10_write10 = false :=
  ⟨fun _ => rfl, by decide,
    read10_write10_single_call (Env.sample 4096 1 scsi_no_data accept_every)
      ⟨mscd_example SCSI_CMD_READ_10 0x80 512 0 1, false⟩ 0 0x01 TUSB_EVENT_XFER_COMPLETE 31
      (fun _ => rfl) (by decide) (by decide) (by decide) (by decide)⟩

/-- C1, counterexample to the claim as stated: a READ(10) CBW asking for zero blocks is
accepted and the application returns the full requested count, zero.  The invocation
divides `xfer_bytes` by the zero block count (whatever that yields, the test for zero
transferred blocks comes before the test for completion), so it does not end with one
data transfer and a Passed CSW. -/
theorem read10_write10_single_call_zero_blocks :
    accepts_all (Env.sample 4096 0 scsi_no_data accept_every) ∧
    cbw_accepted ⟨mscd_example SCSI_CMD_READ_10 0x80 512 0 0, false⟩ 0x01
      TUSB_EVENT_XFER_COMPLETE 31 ∧
    is_read10_write10 (mscd_example SCSI_CMD_READ_10 0x80 512 0 0).cbw ∧
    (block_cb (Env.sample 4096 0 scsi_no_data accept_every) 0
        (mscd_example SCSI_CMD_READ_10 0x80 512 0 0).cbw
        (cbw_lba (mscd_example SCSI_CMD_READ_10 0x80 512 0 0).cbw)
        (cbw_block_count (mscd_example SCSI_CMD_READ_10 0x80 512 0 0).cbw)).blocks
      = cbw_block_count (mscd_example SCSI_CMD_READ_10 0x80 512 0 0).cbw ∧
    mscd_xfer_cb (Env.sample 4096 0 scsi_no_data accept_every)
      ⟨mscd_example SCSI_CMD_READ_10 0x80 512 0 0, false⟩ 0 0x01
      TUSB_EVENT_XFER_COMPLETE 31 = none :=
  ⟨fun _ => rfl, by decide, by decide, by decide, by decide⟩

/-! ## The rewritten CBW of a continuing step -/

theorem cbw_block_count_rw_continue (p_msc : mscd_interface_t) (b bytes : Nat) :
    cbw_block_count (rw_continue p_msc b bytes).cbw = cbw_block_count p_msc.cbw - b := by
  have h := be2n_16_lt p_msc.cbw.command.block_count
  show __be2n_16 (__n2be_16 ((cbw_block_count p_msc.cbw - b) % 2 ^ 16)) = _
  rw [be2n_16_n2be_16 _ (Nat.mod_lt _ (by norm_num))]
  unfold cbw_block_count
  omega

theorem cbw_lba_rw_continue (p_msc : mscd_interface_t) (b bytes : Nat) :
    cbw_lba (rw_continue p_msc b bytes).cbw = (cbw_lba p_msc.cbw + b) % 2 ^ 32 := by
  show __be2n (__n2be ((cbw_lba p_msc.cbw + b) % 2 ^ 32)) = _
  rw [be2n_n2be _ (Nat.mod_lt _ (by norm_num))]

theorem block_cb_rw_continue (env : Env) (port : Nat) (p_msc : mscd_interface_t)
    (b bytes lba count : Nat) :
    block_cb env port (rw_continue p_msc b bytes).cbw lba count
      = block_cb env port p_msc.cbw lba count := rfl

theorem block_cb_call_rw_continue (port : Nat) (p_msc : mscd_interface_t)
    (b bytes lba count : Nat) :
    block_cb_call port (rw_continue p_msc b bytes).cbw lba count
      = block_cb_call port p_msc.cbw lba count := rfl

/-! ## READ(10) / WRITE(10) in two calls -/

/-- C2 (as amended): for every READ(10)/WRITE(10) CBW accepted in the idle phase whose
declared transfer length is an exact multiple of its block count, if
the application block callback returns at least one but fewer blocks than requested on
the first call and the full remainder on the second call, the byte count of neither
chunk (blocks times bytes per block) reaching 2^16 (driver accepting), then the first
invocation of `mscd_xfer_cb` makes only the callback call and one data transfer request
on the data-phase endpoint and sets the continuation flag without touching the CSW
queue; the second invocation, for any completion event on a valid endpoint, makes the
callback call for the advanced address and remaining count, queues the second data
transfer, then the CSW and the next CBW reception; the two byte counts sum to the
declared transfer length. -/
theorem read10_write10_two_calls (env1 env2 : Env) (s : mscd_state)
    (port edpt_addr edpt_addr2 : Nat) (event event2 : tusb_event_t)
    (xferred_bytes xferred_bytes2 : Nat)
    (hdrv1 : accepts_all env1) (hdrv2 : accepts_all env2)
    (hcbw : cbw_accepted s edpt_addr event xferred_bytes)
    (hrw : is_read10_write10 s.mscd_data.cbw)
    (hpos : 0 < (block_cb env1 port s.mscd_data.cbw (cbw_lba s.mscd_data.cbw)
        (cbw_block_count s.mscd_data.cbw)).blocks)
    (hlt : (block_cb env1 port s.mscd_data.cbw (cbw_lba s.mscd_data.cbw)
        (cbw_block_count s.mscd_data.cbw)).blocks < cbw_block_count s.mscd_data.cbw)
    (hdvd : cbw_block_count s.mscd_data.cbw ∣ s.mscd_data.cbw.xfer_bytes)
    (hfit1 : (block_cb env1 port s.mscd_data.cbw (cbw_lba s.mscd_data.cbw)
        (cbw_block_count s.mscd_data.cbw)).blocks
      * (s.mscd_data.cbw.xfer_bytes / cbw_block_count s.mscd_data.cbw) < 2 ^ 16)
    (hfit2 : (cbw_block_count s.mscd_data.cbw - (block_cb env1 port s.mscd_data.cbw
        (cbw_lba s.mscd_data.cbw) (cbw_block_count s.mscd_data.cbw)).blocks)
      * (s.mscd_data.cbw.xfer_bytes / cbw_block_count s.mscd_data.cbw) < 2 ^ 16)
    (hep2 : edpt_addr2 = s.mscd_data.edpt_out ∨ edpt_addr2 = s.mscd_data.edpt_in)
    (hrest : (block_cb env2 port s.mscd_data.cbw
        ((cbw_lba s.mscd_data.cbw + (block_cb env1 port s.mscd_data.cbw
          (cbw_lba s.mscd_data.cbw) (cbw_block_count s.mscd_data.cbw)).blocks) % 2 ^ 32)
        (cbw_block_count s.mscd_data.cbw - (block_cb env1 port s.mscd_data.cbw
          (cbw_lba s.mscd_data.cbw) (cbw_block_count s.mscd_data.cbw)).blocks)).blocks
      = cbw_block_count s.mscd_data.cbw - (block_cb env1 port s.mscd_data.cbw
          (cbw_lba s.mscd_data.cbw) (cbw_block_count s.mscd_data.cbw)).blocks) :
    ∃ o1 o2 len1 len2,
      mscd_xfer_cb env1 s port edpt_addr event xferred_bytes = some o1 ∧
      mscd_xfer_cb env2 o1.st port edpt_addr2 event2 xferred_bytes2 = some o2 ∧
      o1.err = TUSB_ERROR_NONE ∧
      o1.trace =
        [ block_cb_call port s.mscd_data.cbw (cbw_lba s.mscd_data.cbw)
            (cbw_block_count s.mscd_data.cbw),
          Event.tusb_dcd_edpt_xfer port (data_edpt s.mscd_data)
            (Buffer.app (block_cb env1 port s.mscd_data.cbw (cbw_lba s.mscd_data.cbw)
              (cbw_block_count s.mscd_data.cbw)).p_buffer) len1 true ] ∧
      o1.st.is_waiting_read10_write10 = true ∧
      o2.err = TUSB_ERROR_NONE ∧
      o2.trace =
        [ block_cb_call port s.mscd_data.cbw
            ((cbw_lba s.mscd_data.cbw + (block_cb env1 port s.mscd_data.cbw
              (cbw_lba s.mscd_data.cbw) (cbw_block_count s.mscd_data.cbw)).blocks) % 2 ^ 32)
            (cbw_block_count s.mscd_data.cbw - (block_cb env1 port s.mscd_data.cbw
              (cbw_lba s.mscd_data.cbw) (cbw_block_count s.mscd_data.cbw)).blocks),
          Event.tusb_dcd_edpt_queue_xfer port (data_edpt s.mscd_data)
            (Buffer.app (block_cb env2 port s.mscd_data.cbw
              ((cbw_lba s.mscd_data.cbw + (block_cb env1 port s.mscd_data.cbw
                (cbw_lba s.mscd_data.cbw) (cbw_block_count s.mscd_data.cbw)).blocks) % 2 ^ 32)
              (cbw_block_count s.mscd_data.cbw - (block_cb env1 port s.mscd_data.cbw
                (cbw_lba s.mscd_data.cbw) (cbw_block_count s.mscd_data.cbw)).blocks)).p_buffer)
            len2,
          csw_request port s.mscd_data,
          cbw_request port s.mscd_data ] ∧
      o2.st.is_waiting_read10_write10 = false ∧
      len1 + len2 = s.mscd_data.cbw.xfer_bytes ∧
      o2.st.mscd_data.csw.tag = s.mscd_data.cbw.tag ∧
      o2.st.mscd_data.csw.status = MSC_CSW_STATUS_PASSED ∧
      o2.st.mscd_data.csw.data_residue = 0 := by
  obtain ⟨k, hk⟩ := hdvd
  generalize hb1 : (block_cb env1 port s.mscd_data.cbw (cbw_lba s.mscd_data.cbw)
    (cbw_block_count s.mscd_data.cbw)).blocks = b1 at hpos hlt hrest hfit1 hfit2 ⊢
  generalize hn : cbw_block_count s.mscd_data.cbw = n at hpos hlt hrest hk hb1 hfit1 hfit2 ⊢
  generalize hX0 : s.mscd_data.cbw.xfer_bytes = X at hk hfit1 hfit2 ⊢
  have hq : X / n = k := by rw [hk]; exact Nat.mul_div_cancel_left k (by omega)
  rw [hq] at hfit1 hfit2
  have hle : b1 * k ≤ n * k := Nat.mul_le_mul_right k (Nat.le_of_lt hlt)
  have hsub : (n - b1) * k = n * k - b1 * k := Nat.sub_mul n b1 k
  -- first invocation
  have hxb1 : xferred_block env1 port (csw_initialised s).mscd_data.cbw = b1 := by
    show min16_of (block_cb env1 port s.mscd_data.cbw (cbw_lba s.mscd_data.cbw)
      (cbw_block_count s.mscd_data.cbw)).blocks (cbw_block_count s.mscd_data.cbw) = b1
    rw [hn, hb1]
    simp [min16_of, hlt]
  have hbyte1 : xferred_byte env1 port (csw_initialised s).mscd_data.cbw = b1 * k := by
    show xferred_block env1 port (csw_initialised s).mscd_data.cbw
      * (s.mscd_data.cbw.xfer_bytes / cbw_block_count s.mscd_data.cbw) % 2 ^ 32 % 2 ^ 16 = b1 * k
    rw [hxb1, hn, hX0, hq]
    omega
  have step1 := read10_write10_continue env1 port (csw_initialised s).mscd_data
    (by rw [hxb1]; exact hpos)
    (by rw [hxb1]; show b1 < cbw_block_count s.mscd_data.cbw; rw [hn]; exact hlt) (hdrv1 _)
  rw [hxb1, hbyte1] at step1
  have inv1 : mscd_xfer_cb env1 s port edpt_addr event xferred_bytes
      = some ⟨TUSB_ERROR_NONE,
          ⟨rw_continue (csw_initialised s).mscd_data b1 (b1 * k), true⟩,
          [current_call port (csw_initialised s).mscd_data.cbw,
            continue_request env1 port (csw_initialised s).mscd_data]⟩ := by
    rw [mscd_xfer_cb_new_read10_write10 env1 s port edpt_addr event xferred_bytes hcbw hrw,
      data_phase_of_read10_write10 env1 port (csw_initialised s) [] hrw, step1]
    simp only [Option.map_some', Bool.not_false]
    rw [status_phase_waiting env1 port _ _ rfl]
    rfl
  -- second invocation
  have hn1 : cbw_block_count (rw_continue (csw_initialised s).mscd_data b1 (b1 * k)).cbw
      = n - b1 := by
    rw [cbw_block_count_rw_continue]
    show cbw_block_count s.mscd_data.cbw - b1 = n - b1
    rw [hn]
  have hlba1 : cbw_lba (rw_continue (csw_initialised s).mscd_data b1 (b1 * k)).cbw
      = (cbw_lba s.mscd_data.cbw + b1) % 2 ^ 32 := by
    rw [cbw_lba_rw_continue]
    rfl
  have hX1 : (rw_continue (csw_initialised s).mscd_data b1 (b1 * k)).cbw.xfer_bytes
      = (n - b1) * k := by
    show (s.mscd_data.cbw.xfer_bytes + 2 ^ 32 - b1 * k) % 2 ^ 32 = (n - b1) * k
    rw [hX0]
    omega
  have hxb2 : xferred_block env2 port
      (rw_continue (csw_initialised s).mscd_data b1 (b1 * k)).cbw = n - b1 := by
    unfold xferred_block
    rw [hn1, hlba1, block_cb_rw_continue]
    show min16_of (block_cb env2 port s.mscd_data.cbw _ _).blocks (n - b1) = n - b1
    rw [hrest, min16_of_self]
  have hbyte2 : xferred_byte env2 port
      (rw_continue (csw_initialised s).mscd_data b1 (b1 * k)).cbw = (n - b1) * k := by
    unfold xferred_byte
    rw [hxb2, hX1, hn1, Nat.mul_div_cancel_left k (by omega : 0 < n - b1)]
    omega
  have step2 := read10_write10_done env2 port
    (rw_continue (csw_initialised s).mscd_data b1 (b1 * k))
    (by rw [hn1]; omega) (by rw [hxb2, hn1])
  have hrw1 : is_read10_write10
      (⟨rw_continue (csw_initialised s).mscd_data b1 (b1 * k), true⟩ : mscd_state).mscd_data.cbw :=
    hrw
  have inv2 : mscd_xfer_cb env2 ⟨rw_continue (csw_initialised s).mscd_data b1 (b1 * k), true⟩
      port edpt_addr2 event2 xferred_bytes2
      = some ⟨TUSB_ERROR_NONE,
          ⟨rw_done (rw_continue (csw_initialised s).mscd_data b1 (b1 * k)), false⟩,
          [current_call port (rw_continue (csw_initialised s).mscd_data b1 (b1 * k)).cbw,
            final_request env2 port (rw_continue (csw_initialised s).mscd_data b1 (b1 * k)),
            csw_request port s.mscd_data, cbw_request port s.mscd_data]⟩ := by
    rw [mscd_xfer_cb_waiting env2
        ⟨rw_continue (csw_initialised s).mscd_data b1 (b1 * k), true⟩ port edpt_addr2 event2
        xferred_bytes2 hep2 rfl,
      data_phase_of_read10_write10 env2 port
        ⟨rw_continue (csw_initialised s).mscd_data b1 (b1 * k), true⟩ [] hrw1, step2]
    simp only [Option.map_some', Bool.not_true]
    rw [status_phase_accepting env2 port _ _ hdrv2 rfl]
    rfl
  refine ⟨_, _, b1 * k, (n - b1) * k, inv1, inv2, rfl, ?_, rfl, rfl, ?_, rfl, ?_, rfl, rfl, rfl⟩
  · show [current_call port s.mscd_data.cbw, continue_request env1 port
      (csw_initialised s).mscd_data] = _
    unfold current_call continue_request
    rw [hbyte1, hn]
    show [_, Event.tusb_dcd_edpt_xfer port (data_edpt s.mscd_data)
      (Buffer.app (block_cb env1 port s.mscd_data.cbw (cbw_lba s.mscd_data.cbw)
        (cbw_block_count s.mscd_data.cbw)).p_buffer) (b1 * k) true] = _
    rw [hn]
  · unfold current_call final_request
    rw [hbyte2, hn1, hlba1]
    rfl
  · omega

/-- C2, witness: READ(10) of two blocks, 1024 bytes, answered one block at a time. -/
theorem read10_write10_two_calls_witness :
    cbw_accepted ⟨mscd_example SCSI_CMD_READ_10 0x80 1024 0 2, false⟩ 0x01
      TUSB_EVENT_XFER_COMPLETE 31 ∧
    ∃ o1 o2 len1 len2,
      mscd_xfer_cb (Env.sample 4096 1 scsi_no_data accept_every)
        ⟨mscd_example SCSI_CMD_READ_10 0x80 1024 0 2, false⟩ 0 0x01
        TUSB_EVENT_XFER_COMPLETE 31 = some o1 ∧
      mscd_xfer_cb (Env.sample 8192 1 scsi_no_data accept_every) o1.st 0 0x81
        TUSB_EVENT_XFER_COMPLETE 512 = some o2 ∧
      o1.err = TUSB_ERROR_NONE ∧
      o1.trace =
        [ Event.tud_msc_read10_cb 0 0 0 2,
          Event.tusb_dcd_edpt_xfer 0 0x81 (Buffer.app 4096) len1 true ] ∧
      o1.st.is_waiting_read10_write10 = true ∧
      o2.err = TUSB_ERROR_NONE ∧
      o2.trace =
        [ Event.tud_msc_read10_cb 0 0 1 1,
          Event.tusb_dcd_edpt_queue_xfer 0 0x81 (Buffer.app 8192) len2,
          Event.tusb_dcd_edpt_xfer 0 0x81 Buffer.csw 13 false,
          Event.tusb_dcd_edpt_xfer 0 0x01 Buffer.cbw 31 true ] ∧
      o2.st.is_waiting_read10_write10 = false ∧
      len1 + len2 = 1024 ∧
      o2.st.mscd_data.csw.tag = 0x1234 ∧
      o2.st.mscd_data.csw.status = MSC_CSW_STATUS_PASSED ∧
      o2.st.mscd_data.csw.data_residue = 0 :=
  ⟨by decide,
    read10_write10_two_calls (Env.sample 4096 1 scsi_no_data accept_every)
      (Env.sample 8192 1 scsi_no_data accept_every)
      ⟨mscd_example SCSI_CMD_READ_10 0x80 1024 0 2, false⟩ 0 0x01 0x81
      TUSB_EVENT_XFER_COMPLETE TUSB_EVENT_XFER_COMPLETE 31 512
      (fun _ => rfl) (fun _ => rfl) (by decide) (by decide) (by decide) (by decide)
      (by decide) (by decide) (by decide) (by decide) (by decide)⟩

/-- C2, counterexample to the claim as stated, at two inputs.  First: READ(10) of 3
blocks declaring 1000 bytes, answered with 1 block then the remaining 2; the two data
transfers carry 333 and 666 bytes, 999 in all.  Second: READ(10) of 129 blocks of 512
bytes (66048 bytes), answered with 1 block then the remaining 128; the second byte count
wraps in its `uint16_t` and the transfers carry 512 and 0 bytes. -/
theorem read10_write10_two_calls_short_sum :
    (Option.map (List.map Outcome.trace)
        (mscd_run ⟨mscd_example SCSI_CMD_READ_10 0x80 1000 5 3, false⟩
          [ ⟨Env.sample 4096 1 scsi_no_data accept_every, 0, 0x01, TUSB_EVENT_XFER_COMPLETE, 31⟩,
            ⟨Env.sample 8192 2 scsi_no_data accept_every, 0, 0x81, TUSB_EVENT_XFER_COMPLETE, 333⟩ ])
      = some
        [ [ Event.tud_msc_read10_cb 0 0 5 3,
            Event.tusb_dcd_edpt_xfer 0 0x81 (Buffer.app 4096) 333 true ],
          [ Event.tud_msc_read10_cb 0 0 6 2,
            Event.tusb_dcd_edpt_queue_xfer 0 0x81 (Buffer.app 8192) 666,
            Event.tusb_dcd_edpt_xfer 0 0x81 Buffer.csw 13 false,
            Event.tusb_dcd_edpt_xfer 0 0x01 Buffer.cbw 31 true ] ] ∧
      333 + 666 ≠ 1000) ∧
    (Option.map (List.map Outcome.trace)
        (mscd_run ⟨mscd_example SCSI_CMD_READ_10 0x80 66048 0 129, false⟩
          [ ⟨Env.sample 4096 1 scsi_no_data accept_every, 0, 0x01, TUSB_EVENT_XFER_COMPLETE, 31⟩,
            ⟨Env.sample 8192 128 scsi_no_data accept_every, 0, 0x81, TUSB_EVENT_XFER_COMPLETE, 512⟩ ])
      = some
        [ [ Event.tud_msc_read10_cb 0 0 0 129,
            Event.tusb_dcd_edpt_xfer 0 0x81 (Buffer.app 4096) 512 true ],
          [ Event.tud_msc_read10_cb 0 0 1 128,
            Event.tusb_dcd_edpt_queue_xfer 0 0x81 (Buffer.app 8192) 0,
            Event.tusb_dcd_edpt_xfer 0 0x81 Buffer.csw 13 false,
            Event.tusb_dcd_edpt_xfer 0 0x01 Buffer.cbw 31 true ] ] ∧
      512 + 0 ≠ 66048) :=
  ⟨⟨by decide, by decide⟩, ⟨by decide, by decide⟩⟩

/-! ## Zero blocks transferred -/

/-- C3 (as amended): for every READ(10)/WRITE(10) command with a (remaining) block count
of at least one, on the call that accepts its CBW as well as on a continuation call,
whenever the application block callback returns zero blocks (driver accepting), the
invocation stalls the data-phase endpoint selected by the direction bit, queues no data
transfer, sets the CSW status to Failed and the CSW residue to the byte count the CBW
holds at that call (the declared count on the first call, the remaining count after
earlier chunks), and performs the status phase in the same invocation. -/
theorem read10_write10_zero_blocks (env : Env) (s : mscd_state) (port edpt_addr : Nat)
    (event : tusb_event_t) (xferred_bytes : Nat)
    (hdrv : accepts_all env)
    (hstart : cbw_accepted s edpt_addr event xferred_bytes ∨
      (s.is_waiting_read10_write10 = true ∧
        (edpt_addr = s.mscd_data.edpt_out ∨ edpt_addr = s.mscd_data.edpt_in)))
    (hrw : is_read10_write10 s.mscd_data.cbw)
    (hn : 1 ≤ cbw_block_count s.mscd_data.cbw)
    (hzero : (block_cb env port s.mscd_data.cbw (cbw_lba s.mscd_data.cbw)
        (cbw_block_count s.mscd_data.cbw)).blocks = 0) :
    ∃ o, mscd_xfer_cb env s port edpt_addr event xferred_bytes = some o ∧
      o.err = TUSB_ERROR_NONE ∧
      o.trace =
        [ block_cb_call port s.mscd_data.cbw (cbw_lba s.mscd_data.cbw)
            (cbw_block_count s.mscd_data.cbw),
          Event.tusb_dcd_edpt_stall port (data_edpt s.mscd_data),
          csw_request port s.mscd_data,
          cbw_request port s.mscd_data ] ∧
      o.st.mscd_data.csw.status = MSC_CSW_STATUS_FAILED ∧
      o.st.mscd_data.csw.data_residue = s.mscd_data.cbw.xfer_bytes ∧
      o.st.is_waiting_read10_write10 = false := by
  have key : ∀ s0 : mscd_state, s0.mscd_data.cbw = s.mscd_data.cbw →
      read10_write10_data_xfer env port s0.mscd_data
        = some (true, rw_failed s0.mscd_data,
            [current_call port s0.mscd_data.cbw,
              Event.tusb_dcd_edpt_stall port (data_edpt s0.mscd_data)]) := by
    intro s0 h0
    apply read10_write10_failed
    · rw [h0]; omega
    · unfold xferred_block
      rw [h0, hzero]
      simp [min16_of]
  rcases hstart with hcbw | ⟨hflag, hep⟩
  · rw [mscd_xfer_cb_new_read10_write10 env s port edpt_addr event xferred_bytes hcbw hrw,
      data_phase_of_read10_write10 env port (csw_initialised s) [] hrw,
      key (csw_initialised s) rfl]
    simp only [Option.map_some', Bool.not_true]
    rw [status_phase_accepting env port _ _ hdrv rfl]
    exact ⟨_, rfl, rfl, rfl, rfl, rfl, rfl⟩
  · rw [mscd_xfer_cb_waiting env s port edpt_addr event xferred_bytes hep hflag,
      data_phase_of_read10_write10 env port s [] hrw, key s rfl]
    simp only [Option.map_some', Bool.not_true]
    rw [status_phase_accepting env port _ _ hdrv rfl]
    exact ⟨_, rfl, rfl, rfl, rfl, rfl, rfl⟩

/-- C3, witness: the example of the specification, READ(10) of one block of 512 bytes
for which the application returns no block. -/
theorem read10_write10_zero_blocks_witness :
    cbw_accepted ⟨mscd_example SCSI_CMD_READ_10 0x80 512 0 1, false⟩ 0x01
      TUSB_EVENT_XFER_COMPLETE 31 ∧
    ∃ o, mscd_xfer_cb (Env.sample 4096 0 scsi_no_data accept_every)
        ⟨mscd_example SCSI_CMD_READ_10 0x80 512 0 1, false⟩ 0 0x01
        TUSB_EVENT_XFER_COMPLETE 31 = some o ∧
      o.err = TUSB_ERROR_NONE ∧
      o.trace =
        [ Event.tud_msc_read10_cb 0 0 0 1,
          Event.tusb_dcd_edpt_stall 0 0x81,
          Event.tusb_dcd_edpt_xfer 0 0x81 Buffer.csw 13 false,
          Event.tusb_dcd_edpt_xfer 0 0x01 Buffer.cbw 31 true ] ∧
      o.st.mscd_data.csw.status = MSC_CSW_STATUS_FAILED ∧
      o.st.mscd_data.csw.data_residue = 512 ∧
      o.st.is_waiting_read10_write10 = false :=
  ⟨by decide,
    read10_write10_zero_blocks (Env.sample 4096 0 scsi_no_data accept_every)
      ⟨mscd_example SCSI_CMD_READ_10 0x80 512 0 1, false⟩ 0 0x01 TUSB_EVENT_XFER_COMPLETE 31
      (fun _ => rfl) (Or.inl (by decide)) (by decide) (by decide) (by decide)⟩

/-- C3, counterexample to the claim as stated: READ(10) of two blocks declaring 1024
bytes; the application returns one block on the first call and zero blocks on the
second.  The CSW of the second invocation is Failed with residue 512, the remaining byte
count, not the 1024 bytes originally declared. -/
theorem read10_write10_zero_blocks_later_call :
    Option.map (List.map Outcome.trace)
        (mscd_run ⟨mscd_example SCSI_CMD_READ_10 0x80 1024 0 2, false⟩
          [ ⟨Env.sample 4096 1 scsi_no_data accept_every, 0, 0x01, TUSB_EVENT_XFER_COMPLETE, 31⟩,
            ⟨Env.sample 8192 0 scsi_no_data accept_every, 0, 0x81, TUSB_EVENT_XFER_COMPLETE, 512⟩ ])
      = some
        [ [ Event.tud_msc_read10_cb 0 0 0 2,
            Event.tusb_dcd_edpt_xfer 0 0x81 (Buffer.app 4096) 512 true ],
          [ Event.tud_msc_read10_cb 0 0 1 1,
            Event.tusb_dcd_edpt_stall 0 0x81,
            Event.tusb_dcd_edpt_xfer 0 0x81 Buffer.csw 13 false,
            Event.tusb_dcd_edpt_xfer 0 0x01 Buffer.cbw 31 true ] ] ∧
    Option.map (List.map Outcome.csw)
        (mscd_run ⟨mscd_example SCSI_CMD_READ_10 0x80 1024 0 2, false⟩
          [ ⟨Env.sample 4096 1 scsi_no_data accept_every, 0, 0x01, TUSB_EVENT_XFER_COMPLETE, 31⟩,
            ⟨Env.sample 8192 0 scsi_no_data accept_every, 0, 0x81, TUSB_EVENT_XFER_COMPLETE, 512⟩ ])
      = some
        [ ⟨MSC_CSW_SIGNATURE, 0x1234, 0, MSC_CSW_STATUS_PHASE_ERROR⟩,
          ⟨MSC_CSW_SIGNATURE, 0x1234, 512, MSC_CSW_STATUS_FAILED⟩ ] ∧
    (mscd_example SCSI_CMD_READ_10 0x80 1024 0 2).cbw.xfer_bytes = 1024 ∧
    512 ≠ 1024 :=
  ⟨by decide, by decide, by decide, by decide⟩

/-! ## Generic SCSI commands -/

/-- C4: for every valid CBW accepted in the idle phase whose opcode is neither READ(10)
nor WRITE(10) and whose declared transfer length is zero (driver accepting),
`mscd_xfer_cb` calls the generic SCSI callback once, queues no data transfer and stalls
no endpoint, queues the CSW and the next CBW reception, and returns `TUSB_ERROR_NONE`;
the CSW has the CSW signature, the tag of the CBW, residue 0 and the status returned by
the callback. -/
theorem scsi_command_without_data (env : Env) (s : mscd_state) (port edpt_addr : Nat)
    (event : tusb_event_t) (xferred_bytes : Nat)
    (hdrv : accepts_all env)
    (hcbw : cbw_accepted s edpt_addr event xferred_bytes)
    (hrw : ¬ is_read10_write10 s.mscd_data.cbw)
    (hlen : s.mscd_data.cbw.xfer_bytes = 0) :
    ∃ o, mscd_xfer_cb env s port edpt_addr event xferred_bytes = some o ∧
      o.err = TUSB_ERROR_NONE ∧
      o.trace =
        [ Event.tud_msc_scsi_cb port s.mscd_data.cbw.lun s.mscd_data.cbw.command 0,
          csw_request port s.mscd_data,
          cbw_request port s.mscd_data ] ∧
      o.st.mscd_data.csw =
        { signature := MSC_CSW_SIGNATURE
          tag := s.mscd_data.cbw.tag
          data_residue := 0
          status := (env.tud_msc_scsi_cb port s.mscd_data.cbw.lun s.mscd_data.cbw.command
            0).status } ∧
      o.st.is_waiting_read10_write10 = false := by
  obtain ⟨h1, h2, h3, h4, h5⟩ := hcbw
  have hrw' : SCSI_CMD_READ_10 ≠ s.mscd_data.cbw.command.cmd_code ∧
      SCSI_CMD_WRITE_10 ≠ s.mscd_data.cbw.command.cmd_code := by
    unfold is_read10_write10 at hrw; tauto
  unfold is_read10_write10 at hrw
  simp [mscd_xfer_cb, h1, h2, h3, h4, h5, hrw', hlen, data_phase_read10_write10, hrw,
    status_phase, hdrv _, csw_request, cbw_request]

/-- C4, witness: TEST UNIT READY (opcode 0) with no data phase, the application
answering Passed. -/
theorem scsi_command_without_data_witness :
    cbw_accepted ⟨mscd_example 0x00 0x00 0 0 0, false⟩ 0x01 TUSB_EVENT_XFER_COMPLETE 31 ∧
    ∃ o, mscd_xfer_cb (Env.sample 0 0 ⟨MSC_CSW_STATUS_PASSED, none, 0⟩ accept_every)
        ⟨mscd_example 0x00 0x00 0 0 0, false⟩ 0 0x01 TUSB_EVENT_XFER_COMPLETE 31 = some o ∧
      o.err = TUSB_ERROR_NONE ∧
      o.trace =
        [ Event.tud_msc_scsi_cb 0 0 (mscd_example 0x00 0x00 0 0 0).cbw.command 0,
          Event.tusb_dcd_edpt_xfer 0 0x81 Buffer.csw 13 false,
          Event.tusb_dcd_edpt_xfer 0 0x01 Buffer.cbw 31 true ] ∧
      o.st.mscd_data.csw =
        { signature := MSC_CSW_SIGNATURE, tag := 0x1234, data_residue := 0
          status := MSC_CSW_STATUS_PASSED } ∧
      o.st.is_waiting_read10_write10 = false :=
  ⟨by decide,
    scsi_command_without_data (Env.sample 0 0 ⟨MSC_CSW_STATUS_PASSED, none, 0⟩ accept_every)
      ⟨mscd_example 0x00 0x00 0 0 0, false⟩ 0 0x01 TUSB_EVENT_XFER_COMPLETE 31
      (fun _ => rfl) (by decide) (by decide) (by decide)⟩

/-! ## Rejected events -/

/-- C5: `mscd_xfer_cb` returns `TUSB_ERROR_INVALID_PARA` without any effect (no call to
a collaborator, state unchanged) whenever the endpoint address is neither the IN nor the
OUT endpoint of the interface, in any phase, or the continuation flag is clear and the
event is not a completed transfer of `sizeof(CBW)` bytes on the OUT endpoint with the
CBW signature in the CBW buffer. -/
theorem mscd_xfer_cb_rejects (env : Env) (s : mscd_state) (port edpt_addr : Nat)
    (event : tusb_event_t) (xferred_bytes : Nat)
    (h : (edpt_addr ≠ s.mscd_data.edpt_out ∧ edpt_addr ≠ s.mscd_data.edpt_in) ∨
      (s.is_waiting_read10_write10 = false ∧
        ¬ (edpt_addr = s.mscd_data.edpt_out ∧
            xferred_bytes = sizeof_msc_cmd_block_wrapper_t ∧
            event = TUSB_EVENT_XFER_COMPLETE ∧
            s.mscd_data.cbw.signature = MSC_CBW_SIGNATURE))) :
    mscd_xfer_cb env s port edpt_addr event xferred_bytes
      = some ⟨TUSB_ERROR_INVALID_PARA, s, []⟩ := by
  rcases h with ⟨h1, h2⟩ | ⟨hflag, hbad⟩
  · simp [mscd_xfer_cb, h1, h2]
  · by_cases hep : edpt_addr = s.mscd_data.edpt_out ∨ edpt_addr = s.mscd_data.edpt_in
    · simp only [mscd_xfer_cb, hep, not_true_eq_false, if_false, hflag, if_true, hbad,
        not_false_eq_true]
    · simp only [mscd_xfer_cb, hep, not_false_eq_true, if_true]

/-- C5, witness: in the idle phase, a completed OUT transfer of 31 bytes whose CBW
signature is wrong, and a transfer on a foreign endpoint during a continuation. -/
theorem mscd_xfer_cb_rejects_witness :
    mscd_xfer_cb (Env.sample 4096 1 scsi_no_data accept_every)
        ⟨{ mscd_example SCSI_CMD_READ_10 0x80 512 0 1 with
            cbw := { (mscd_example SCSI_CMD_READ_10 0x80 512 0 1).cbw with signature := 0 } },
          false⟩ 0 0x01 TUSB_EVENT_XFER_COMPLETE 31
      = some ⟨TUSB_ERROR_INVALID_PARA,
          ⟨{ mscd_example SCSI_CMD_READ_10 0x80 512 0 1 with
            cbw := { (mscd_example SCSI_CMD_READ_10 0x80 512 0 1).cbw with signature := 0 } },
          false⟩, []⟩ ∧
    mscd_xfer_cb (Env.sample 4096 1 scsi_no_data accept_every)
        ⟨mscd_example SCSI_CMD_READ_10 0x80 512 0 1, true⟩ 0 0x02 TUSB_EVENT_XFER_COMPLETE 31
      = some ⟨TUSB_ERROR_INVALID_PARA, ⟨mscd_example SCSI_CMD_READ_10 0x80 512 0 1, true⟩, []⟩ :=
  ⟨mscd_xfer_cb_rejects _ _ 0 0x01 TUSB_EVENT_XFER_COMPLETE 31 (Or.inr (by decide)),
    mscd_xfer_cb_rejects _ _ 0 0x02 TUSB_EVENT_XFER_COMPLETE 31 (Or.inl (by decide))⟩

/-! ## Every outcome of one chunker step -/

theorem read10_write10_cases (env : Env) (port : Nat) (p_msc : mscd_interface_t) :
    (cbw_block_count p_msc.cbw = 0 ∧ read10_write10_data_xfer env port p_msc = none) ∨
    (cbw_block_count p_msc.cbw ≠ 0 ∧ xferred_block env port p_msc.cbw = 0 ∧
      read10_write10_data_xfer env port p_msc
        = some (true, rw_failed p_msc,
            [current_call port p_msc.cbw,
              Event.tusb_dcd_edpt_stall port (data_edpt p_msc)])) ∨
    (0 < xferred_block env port p_msc.cbw ∧
      xferred_block env port p_msc.cbw < cbw_block_count p_msc.cbw ∧
      env.dcd_accepts (continue_request env port p_msc) = true ∧
      read10_write10_data_xfer env port p_msc
        = some (false,
            rw_continue p_msc (xferred_block env port p_msc.cbw)
              (xferred_byte env port p_msc.cbw),
            [current_call port p_msc.cbw, continue_request env port p_msc])) ∨
    (0 < xferred_block env port p_msc.cbw ∧
      xferred_block env port p_msc.cbw < cbw_block_count p_msc.cbw ∧
      env.dcd_accepts (continue_request env port p_msc) = false ∧
      read10_write10_data_xfer env port p_msc
        = some (true, p_msc,
            [current_call port p_msc.cbw, continue_request env port p_msc])) ∨
    (cbw_block_count p_msc.cbw ≠ 0 ∧
      cbw_block_count p_msc.cbw ≤ xferred_block env port p_msc.cbw ∧
      read10_write10_data_xfer env port p_msc
        = some (true, rw_done p_msc,
            [current_call port p_msc.cbw, final_request env port p_msc])) := by
  by_cases hn : cbw_block_count p_msc.cbw = 0
  · exact Or.inl ⟨hn, read10_write10_zero_divisor env port p_msc hn⟩
  · by_cases hz : xferred_block env port p_msc.cbw = 0
    · exact Or.inr (Or.inl ⟨hn, hz, read10_write10_failed env port p_msc hn hz⟩)
    · by_cases hlt : xferred_block env port p_msc.cbw < cbw_block_count p_msc.cbw
      · cases hacc : env.dcd_accepts (continue_request env port p_msc) with
        | true =>
          exact Or.inr (Or.inr (Or.inl ⟨Nat.pos_of_ne_zero hz, hlt, rfl,
            read10_write10_continue env port p_msc (Nat.pos_of_ne_zero hz) hlt hacc⟩))
        | false =>
          exact Or.inr (Or.inr (Or.inr (Or.inl ⟨Nat.pos_of_ne_zero hz, hlt, rfl,
            read10_write10_refused env port p_msc (Nat.pos_of_ne_zero hz) hlt hacc⟩)))
      · exact Or.inr (Or.inr (Or.inr (Or.inr ⟨hn, Nat.le_of_not_lt hlt,
          read10_write10_done env port p_msc hn (Nat.le_of_not_lt hlt)⟩)))

/-! ## Shape of the status phase and of the recorded calls -/

theorem status_phase_st (env : Env) (port : Nat) (s : mscd_state) (tr : List Event) :
    (status_phase env port s tr).st = s := by
  simp only [status_phase]
  split_ifs <;> rfl

theorem status_phase_trace_mem (env : Env) (port : Nat) (s : mscd_state) (tr : List Event)
    (e : Event) (he : e ∈ (status_phase env port s tr).trace) :
    e ∈ tr ∨ e = csw_request port s.mscd_data ∨ e = cbw_request port s.mscd_data := by
  simp only [status_phase] at he
  unfold csw_request cbw_request
  split_ifs at he <;> simp at he <;> tauto

theorem current_call_not_scsi_cb (port : Nat) (cbw : msc_cmd_block_wrapper_t) :
    (current_call port cbw).is_scsi_cb = false := by
  unfold current_call block_cb_call
  split <;> rfl

theorem current_call_not_on_cbw_buffer (port : Nat) (cbw : msc_cmd_block_wrapper_t) :
    (current_call port cbw).uses_cbw_buffer = false := by
  unfold current_call block_cb_call
  split <;> rfl

theorem current_call_not_request (port : Nat) (cbw : msc_cmd_block_wrapper_t) :
    (current_call port cbw).is_request = false := by
  unfold current_call block_cb_call
  split <;> rfl

theorem read10_write10_trace_no_scsi_cb (env : Env) (port : Nat) (p_msc : mscd_interface_t)
    (r : Bool × mscd_interface_t × List Event)
    (h : read10_write10_data_xfer env port p_msc = some r) :
    ∀ e ∈ r.2.2, e.is_scsi_cb = false := by
  rcases read10_write10_cases env port p_msc with
    ⟨_, h'⟩ | ⟨_, _, h'⟩ | ⟨_, _, _, h'⟩ | ⟨_, _, _, h'⟩ | ⟨_, _, h'⟩
  all_goals rw [h'] at h
  · exact absurd h (by simp)
  all_goals
    simp only [Option.some.injEq] at h
    subst h
    intro e he
    simp only [List.mem_cons, List.mem_singleton, List.not_mem_nil, or_false] at he
    rcases he with rfl | rfl
    · exact current_call_not_scsi_cb port p_msc.cbw
    · rfl

theorem read10_write10_csw_header (env : Env) (port : Nat) (p_msc : mscd_interface_t)
    (r : Bool × mscd_interface_t × List Event)
    (h : read10_write10_data_xfer env port p_msc = some r) :
    r.2.1.csw.signature = p_msc.csw.signature ∧ r.2.1.csw.tag = p_msc.csw.tag ∧
      r.2.1.edpt_in = p_msc.edpt_in ∧ r.2.1.edpt_out = p_msc.edpt_out := by
  rcases read10_write10_cases env port p_msc with
    ⟨_, h'⟩ | ⟨_, _, h'⟩ | ⟨_, _, _, h'⟩ | ⟨_, _, _, h'⟩ | ⟨_, _, h'⟩
  all_goals rw [h'] at h
  · exact absurd h (by simp)
  all_goals
    simp only [Option.some.injEq] at h
    subst h
    exact ⟨rfl, rfl, rfl, rfl⟩

theorem read10_write10_not_done_trace (env : Env) (port : Nat) (p_msc : mscd_interface_t)
    (p_msc1 : mscd_interface_t) (tr : List Event)
    (h : read10_write10_data_xfer env port p_msc = some (false, p_msc1, tr)) :
    tr = [current_call port p_msc.cbw, continue_request env port p_msc] := by
  rcases read10_write10_cases env port p_msc with
    ⟨_, h'⟩ | ⟨_, _, h'⟩ | ⟨_, _, _, h'⟩ | ⟨_, _, _, h'⟩ | ⟨_, _, h'⟩
  all_goals rw [h'] at h
  all_goals simp at h
  exact h.2.symm

/-! ## No CBW is accepted during a continuation -/

/-- C6: for every invocation of `mscd_xfer_cb` made while the continuation flag is set,
on a valid endpoint and with any event and byte count, the invocation is exactly the
READ(10)/WRITE(10) data phase followed by the status gate: the CBW is not validated and
the CSW is not initialised.  Whatever it produces, the CSW keeps its signature and tag,
the generic SCSI callback is not called, and when the flag is still set afterwards no
transfer on the CBW buffer was requested.  Unless the stored command is a READ(10) /
WRITE(10) with a zero block count, the invocation does produce an outcome. -/
theorem no_cbw_while_waiting (env : Env) (s : mscd_state) (port edpt_addr : Nat)
    (event : tusb_event_t) (xferred_bytes : Nat)
    (hflag : s.is_waiting_read10_write10 = true)
    (hep : edpt_addr = s.mscd_data.edpt_out ∨ edpt_addr = s.mscd_data.edpt_in) :
    mscd_xfer_cb env s port edpt_addr event xferred_bytes
      = data_phase_read10_write10 env port s [] ∧
    (∀ o, mscd_xfer_cb env s port edpt_addr event xferred_bytes = some o →
      o.st.mscd_data.csw.signature = s.mscd_data.csw.signature ∧
      o.st.mscd_data.csw.tag = s.mscd_data.csw.tag ∧
      (∀ e ∈ o.trace, e.is_scsi_cb = false) ∧
      (o.st.is_waiting_read10_write10 = true → ∀ e ∈ o.trace, e.uses_cbw_buffer = false)) ∧
    ((¬ is_read10_write10 s.mscd_data.cbw ∨ 1 ≤ cbw_block_count s.mscd_data.cbw) →
      ∃ o, mscd_xfer_cb env s port edpt_addr event xferred_bytes = some o) := by
  refine ⟨mscd_xfer_cb_waiting env s port edpt_addr event xferred_bytes hep hflag, ?_, ?_⟩
  · intro o ho
    rw [mscd_xfer_cb_waiting env s port edpt_addr event xferred_bytes hep hflag] at ho
    by_cases hrw : is_read10_write10 s.mscd_data.cbw
    · rw [data_phase_of_read10_write10 env port s [] hrw] at ho
      cases hr : read10_write10_data_xfer env port s.mscd_data with
      | none => rw [hr] at ho; exact absurd ho (by simp)
      | some r =>
        obtain ⟨done, p_msc1, tr1⟩ := r
        rw [hr] at ho
        simp only [Option.map_some', Option.some.injEq, List.nil_append] at ho
        subst ho
        have hhdr := read10_write10_csw_header env port s.mscd_data _ hr
        have hscsi := read10_write10_trace_no_scsi_cb env port s.mscd_data _ hr
        rw [status_phase_st]
        refine ⟨hhdr.1, hhdr.2.1, ?_, ?_⟩
        · intro e he
          rcases status_phase_trace_mem env port _ _ e he with h | rfl | rfl
          · exact hscsi e h
          · rfl
          · rfl
        · intro hw e he
          have hd : done = false := by simpa using hw
          subst hd
          rw [status_phase_waiting env port _ _ rfl,
            read10_write10_not_done_trace env port s.mscd_data p_msc1 tr1 hr] at he
          simp only [List.mem_cons, List.mem_singleton, List.not_mem_nil, or_false] at he
          rcases he with rfl | rfl
          · exact current_call_not_on_cbw_buffer port s.mscd_data.cbw
          · rfl
    · rw [data_phase_of_other env port s [] hrw, status_phase_waiting env port s [] hflag] at ho
      simp only [Option.some.injEq] at ho
      subst ho
      simp
  · intro h
    rw [mscd_xfer_cb_waiting env s port edpt_addr event xferred_bytes hep hflag]
    by_cases hrw : is_read10_write10 s.mscd_data.cbw
    · rw [data_phase_of_read10_write10 env port s [] hrw]
      rcases read10_write10_cases env port s.mscd_data with
        ⟨h0, _⟩ | ⟨_, _, h'⟩ | ⟨_, _, _, h'⟩ | ⟨_, _, _, h'⟩ | ⟨_, _, h'⟩
      · rcases h with h | h
        · exact absurd hrw h
        · omega
      all_goals rw [h']; exact ⟨_, rfl⟩
    · rw [data_phase_of_other env port s [] hrw]
      exact ⟨_, rfl⟩

/-! ## The paths of a generic SCSI command -/

theorem generic_data_out_unsupported (env : Env) (s : mscd_state) (port edpt_addr : Nat)
    (event : tusb_event_t) (xferred_bytes : Nat)
    (hcbw : cbw_accepted s edpt_addr event xferred_bytes)
    (hrw : ¬ is_read10_write10 s.mscd_data.cbw)
    (hout : s.mscd_data.cbw.xfer_bytes > 0 ∧ BIT_TEST_ s.mscd_data.cbw.dir 7 = false) :
    mscd_xfer_cb env s port edpt_addr event xferred_bytes
      = some ⟨TUSB_ERROR_NOT_SUPPORTED_YET, csw_initialised s, []⟩ := by
  obtain ⟨h1, h2, h3, h4, h5⟩ := hcbw
  subst h2 h3 h4
  have hrw' : SCSI_CMD_READ_10 ≠ s.mscd_data.cbw.command.cmd_code ∧
      SCSI_CMD_WRITE_10 ≠ s.mscd_data.cbw.command.cmd_code := by
    unfold is_read10_write10 at hrw; tauto
  simp [mscd_xfer_cb, h1, h5, hrw', hout, csw_initialised]

theorem generic_no_data_phase (env : Env) (s : mscd_state) (port edpt_addr : Nat)
    (event : tusb_event_t) (xferred_bytes : Nat)
    (hcbw : cbw_accepted s edpt_addr event xferred_bytes)
    (hrw : ¬ is_read10_write10 s.mscd_data.cbw)
    (hlen : s.mscd_data.cbw.xfer_bytes = 0) :
    mscd_xfer_cb env s port edpt_addr event xferred_bytes
      = some (status_phase env port
          (scsi_answered s (scsi_result env port s.mscd_data.cbw).status)
          [scsi_call port s.mscd_data.cbw]) := by
  obtain ⟨h1, h2, h3, h4, h5⟩ := hcbw
  subst h2 h3 h4
  have hrw' : SCSI_CMD_READ_10 ≠ s.mscd_data.cbw.command.cmd_code ∧
      SCSI_CMD_WRITE_10 ≠ s.mscd_data.cbw.command.cmd_code := by
    unfold is_read10_write10 at hrw; tauto
  unfold is_read10_write10 at hrw
  simp [mscd_xfer_cb, h1, h5, hrw', hlen, data_phase_read10_write10, hrw, scsi_answered,
    scsi_result, scsi_call]

theorem generic_length_rejected (env : Env) (s : mscd_state) (port edpt_addr : Nat)
    (event : tusb_event_t) (xferred_bytes : Nat)
    (hcbw : cbw_accepted s edpt_addr event xferred_bytes)
    (hrw : ¬ is_read10_write10 s.mscd_data.cbw)
    (hlen : s.mscd_data.cbw.xfer_bytes ≠ 0)
    (hin : BIT_TEST_ s.mscd_data.cbw.dir 7 = true)
    (hbad : s.mscd_data.cbw.xfer_bytes < (scsi_result env port s.mscd_data.cbw).actual_length ∨
      sizeof_scsi_data < (scsi_result env port s.mscd_data.cbw).actual_length) :
    mscd_xfer_cb env s port edpt_addr event xferred_bytes
      = some ⟨if s.mscd_data.cbw.xfer_bytes < (scsi_result env port s.mscd_data.cbw).actual_length
              then TUSB_ERROR_INVALID_PARA else TUSB_ERROR_NOT_ENOUGH_MEMORY,
          scsi_answered s (scsi_result env port s.mscd_data.cbw).status,
          [scsi_call port s.mscd_data.cbw]⟩ := by
  obtain ⟨h1, h2, h3, h4, h5⟩ := hcbw
  subst h2 h3 h4
  have hrw' : SCSI_CMD_READ_10 ≠ s.mscd_data.cbw.command.cmd_code ∧
      SCSI_CMD_WRITE_10 ≠ s.mscd_data.cbw.command.cmd_code := by
    unfold is_read10_write10 at hrw; tauto
  simp only [scsi_result, show (2 : Nat) ^ 16 = 65536 from rfl] at hbad ⊢
  by_cases hlt : s.mscd_data.cbw.xfer_bytes
      < (env.tud_msc_scsi_cb port s.mscd_data.cbw.lun s.mscd_data.cbw.command
          (s.mscd_data.cbw.xfer_bytes % 65536)).actual_length
  · simp [mscd_xfer_cb, h1, h5, hrw', hlen, hin, hlt, scsi_answered, scsi_call]
  · have h64 : sizeof_scsi_data
        < (env.tud_msc_scsi_cb port s.mscd_data.cbw.lun s.mscd_data.cbw.command
            (s.mscd_data.cbw.xfer_bytes % 65536)).actual_length := by tauto
    simp [mscd_xfer_cb, h1, h5, hrw', hlen, hin, hlt, h64, scsi_answered, scsi_call]

theorem generic_no_data_provided (env : Env) (s : mscd_state) (port edpt_addr : Nat)
    (event : tusb_event_t) (xferred_bytes : Nat)
    (hcbw : cbw_accepted s edpt_addr event xferred_bytes)
    (hrw : ¬ is_read10_write10 s.mscd_data.cbw)
    (hlen : s.mscd_data.cbw.xfer_bytes ≠ 0)
    (hin : BIT_TEST_ s.mscd_data.cbw.dir 7 = true)
    (hle : (scsi_result env port s.mscd_data.cbw).actual_length ≤ s.mscd_data.cbw.xfer_bytes)
    (h64 : (scsi_result env port s.mscd_data.cbw).actual_length ≤ sizeof_scsi_data)
    (hnone : (scsi_result env port s.mscd_data.cbw).p_buffer = none ∨
      (scsi_result env port s.mscd_data.cbw).actual_length = 0) :
    mscd_xfer_cb env s port edpt_addr event xferred_bytes
      = some (status_phase env port (scsi_answered s MSC_CSW_STATUS_FAILED)
          [scsi_call port s.mscd_data.cbw,
            Event.tusb_dcd_edpt_stall port (data_edpt s.mscd_data)]) := by
  obtain ⟨h1, h2, h3, h4, h5⟩ := hcbw
  subst h2 h3 h4
  have hrw' : SCSI_CMD_READ_10 ≠ s.mscd_data.cbw.command.cmd_code ∧
      SCSI_CMD_WRITE_10 ≠ s.mscd_data.cbw.command.cmd_code := by
    unfold is_read10_write10 at hrw; tauto
  unfold is_read10_write10 at hrw
  simp only [scsi_result, show (2 : Nat) ^ 16 = 65536 from rfl] at hle h64 hnone
  have hle' := Nat.not_lt.mpr hle
  have h64' := Nat.not_lt.mpr h64
  cases hb : (env.tud_msc_scsi_cb port s.mscd_data.cbw.lun s.mscd_data.cbw.command
      (s.mscd_data.cbw.xfer_bytes % 65536)).p_buffer with
  | none =>
    simp [mscd_xfer_cb, h1, h5, hrw', hlen, hin, hle, h64, hb, data_phase_read10_write10, hrw,
      scsi_answered, scsi_call, data_edpt]
  | some bytes =>
    have hz : (env.tud_msc_scsi_cb port s.mscd_data.cbw.lun s.mscd_data.cbw.command
        (s.mscd_data.cbw.xfer_bytes % 65536)).actual_length = 0 := by
      rcases hnone with h | h
      · rw [hb] at h; exact absurd h (by simp)
      · exact h
    simp [mscd_xfer_cb, h1, h5, hrw', hlen, hin, hz, hb, data_phase_read10_write10, hrw,
      scsi_answered, scsi_call, data_edpt]

theorem generic_data_provided (env : Env) (s : mscd_state) (port edpt_addr : Nat)
    (event : tusb_event_t) (xferred_bytes : Nat) (bytes : List Nat)
    (hcbw : cbw_accepted s edpt_addr event xferred_bytes)
    (hrw : ¬ is_read10_write10 s.mscd_data.cbw)
    (hlen : s.mscd_data.cbw.xfer_bytes ≠ 0)
    (hin : BIT_TEST_ s.mscd_data.cbw.dir 7 = true)
    (hle : (scsi_result env port s.mscd_data.cbw).actual_length ≤ s.mscd_data.cbw.xfer_bytes)
    (h64 : (scsi_result env port s.mscd_data.cbw).actual_length ≤ sizeof_scsi_data)
    (hsome : (scsi_result env port s.mscd_data.cbw).p_buffer = some bytes)
    (hpos : (scsi_result env port s.mscd_data.cbw).actual_length ≠ 0) :
    mscd_xfer_cb env s port edpt_addr event xferred_bytes
      = if env.dcd_accepts (scsi_data_request port s.mscd_data
            (scsi_result env port s.mscd_data.cbw).actual_length) = false
        then some ⟨TUSB_ERROR_DCD_EDPT_XFER,
          scsi_staged s (scsi_result env port s.mscd_data.cbw) bytes,
          [scsi_call port s.mscd_data.cbw,
            scsi_data_request port s.mscd_data
              (scsi_result env port s.mscd_data.cbw).actual_length]⟩
        else some (status_phase env port
          (scsi_staged s (scsi_result env port s.mscd_data.cbw) bytes)
          [scsi_call port s.mscd_data.cbw,
            scsi_data_request port s.mscd_data
              (scsi_result env port s.mscd_data.cbw).actual_length]) := by
  obtain ⟨h1, h2, h3, h4, h5⟩ := hcbw
  subst h2 h3 h4
  have hrw' : SCSI_CMD_READ_10 ≠ s.mscd_data.cbw.command.cmd_code ∧
      SCSI_CMD_WRITE_10 ≠ s.mscd_data.cbw.command.cmd_code := by
    unfold is_read10_write10 at hrw; tauto
  unfold is_read10_write10 at hrw
  simp only [scsi_result, show (2 : Nat) ^ 16 = 65536 from rfl] at hle h64 hsome hpos ⊢
  simp [mscd_xfer_cb, h1, h5, hrw', hlen, hin, hle, h64, hsome, hpos,
    data_phase_read10_write10, hrw, scsi_staged, scsi_call, scsi_data_request, data_edpt,
    scsi_result]

/-- C6, witness: a READ(10) in continuation; an error event of zero bytes on the IN
endpoint is handled as the next step of the command. -/
theorem no_cbw_while_waiting_witness :
    (⟨mscd_example SCSI_CMD_READ_10 0x80 512 7 1, true⟩ : mscd_state).is_waiting_read10_write10
      = true ∧
    mscd_xfer_cb (Env.sample 4096 1 scsi_no_data accept_every)
        ⟨mscd_example SCSI_CMD_READ_10 0x80 512 7 1, true⟩ 0 0x81 TUSB_EVENT_XFER_ERROR 0
      = data_phase_read10_write10 (Env.sample 4096 1 scsi_no_data accept_every) 0
          ⟨mscd_example SCSI_CMD_READ_10 0x80 512 7 1, true⟩ [] ∧
    ∃ o, mscd_xfer_cb (Env.sample 4096 1 scsi_no_data accept_every)
        ⟨mscd_example SCSI_CMD_READ_10 0x80 512 7 1, true⟩ 0 0x81 TUSB_EVENT_XFER_ERROR 0
      = some o :=
  ⟨rfl,
    (no_cbw_while_waiting (Env.sample 4096 1 scsi_no_data accept_every)
      ⟨mscd_example SCSI_CMD_READ_10 0x80 512 7 1, true⟩ 0 0x81 TUSB_EVENT_XFER_ERROR 0
      rfl (Or.inr rfl)).1,
    (no_cbw_while_waiting (Env.sample 4096 1 scsi_no_data accept_every)
      ⟨mscd_example SCSI_CMD_READ_10 0x80 512 7 1, true⟩ 0 0x81 TUSB_EVENT_XFER_ERROR 0
      rfl (Or.inr rfl)).2.2 (Or.inr (by decide))⟩

/-! ## The status-phase gate -/

theorem mscd_xfer_cb_success_cases (env : Env) (s : mscd_state) (port edpt_addr : Nat)
    (event : tusb_event_t) (xferred_bytes : Nat) (o : Outcome)
    (ho : mscd_xfer_cb env s port edpt_addr event xferred_bytes = some o)
    (herr : o.err = TUSB_ERROR_NONE) :
    (∃ s1 tr, o = status_phase env port s1 tr ∧ s1.is_waiting_read10_write10 = false ∧
      s1.mscd_data.edpt_in = s.mscd_data.edpt_in ∧
      s1.mscd_data.edpt_out = s.mscd_data.edpt_out) ∨
    (∃ s1, data_phase_read10_write10 env port s1 [] = some o ∧
      is_read10_write10 s1.mscd_data.cbw ∧
      s1.mscd_data.edpt_in = s.mscd_data.edpt_in ∧
      s1.mscd_data.edpt_out = s.mscd_data.edpt_out ∧
      s1.mscd_data.cbw = s.mscd_data.cbw) ∨
    (s.is_waiting_read10_write10 = true ∧ ¬ is_read10_write10 s.mscd_data.cbw ∧
      o = ⟨TUSB_ERROR_NONE, s, []⟩) := by
  by_cases hep : edpt_addr = s.mscd_data.edpt_out ∨ edpt_addr = s.mscd_data.edpt_in
  swap
  · simp only [mscd_xfer_cb, hep, not_false_eq_true, if_true, Option.some.injEq] at ho
    subst ho
    cases herr
  cases hflag : s.is_waiting_read10_write10
  swap
  · rw [mscd_xfer_cb_waiting env s port edpt_addr event xferred_bytes hep hflag] at ho
    by_cases hrw : is_read10_write10 s.mscd_data.cbw
    · exact Or.inr (Or.inl ⟨s, ho, hrw, rfl, rfl, rfl⟩)
    · rw [data_phase_of_other env port s [] hrw, status_phase_waiting env port s [] hflag] at ho
      exact Or.inr (Or.inr ⟨rfl, hrw, (Option.some.inj ho).symm⟩)
  by_cases hcbw : cbw_accepted s edpt_addr event xferred_bytes
  swap
  · have hbad : ¬ (edpt_addr = s.mscd_data.edpt_out ∧
        xferred_bytes = sizeof_msc_cmd_block_wrapper_t ∧
        event = TUSB_EVENT_XFER_COMPLETE ∧ s.mscd_data.cbw.signature = MSC_CBW_SIGNATURE) :=
      fun h => hcbw ⟨hflag, h⟩
    simp only [mscd_xfer_cb, hep, not_true_eq_false, if_false, hflag, if_true, hbad,
      not_false_eq_true, Option.some.injEq] at ho
    subst ho
    cases herr
  by_cases hrw : is_read10_write10 s.mscd_data.cbw
  · rw [mscd_xfer_cb_new_read10_write10 env s port edpt_addr event xferred_bytes hcbw hrw] at ho
    exact Or.inr (Or.inl ⟨csw_initialised s, ho, hrw, rfl, rfl, rfl⟩)
  by_cases hout : s.mscd_data.cbw.xfer_bytes > 0 ∧ BIT_TEST_ s.mscd_data.cbw.dir 7 = false
  · rw [generic_data_out_unsupported env s port edpt_addr event xferred_bytes hcbw hrw hout] at ho
    simp only [Option.some.injEq] at ho
    subst ho
    cases herr
  by_cases hlen : s.mscd_data.cbw.xfer_bytes = 0
  · rw [generic_no_data_phase env s port edpt_addr event xferred_bytes hcbw hrw hlen] at ho
    exact Or.inl ⟨_, _, (Option.some.inj ho).symm, hflag, rfl, rfl⟩
  have hin : BIT_TEST_ s.mscd_data.cbw.dir 7 = true := by
    cases hb : BIT_TEST_ s.mscd_data.cbw.dir 7 with
    | true => rfl
    | false => exact absurd ⟨Nat.pos_of_ne_zero hlen, hb⟩ hout
  by_cases hbad : s.mscd_data.cbw.xfer_bytes < (scsi_result env port s.mscd_data.cbw).actual_length ∨
      sizeof_scsi_data < (scsi_result env port s.mscd_data.cbw).actual_length
  · rw [generic_length_rejected env s port edpt_addr event xferred_bytes hcbw hrw hlen hin
      hbad] at ho
    simp only [Option.some.injEq] at ho
    subst ho
    simp only at herr
    split_ifs at herr
  have hle : (scsi_result env port s.mscd_data.cbw).actual_length ≤ s.mscd_data.cbw.xfer_bytes := by
    by_contra h; exact hbad (Or.inl (Nat.lt_of_not_le h))
  have h64 : (scsi_result env port s.mscd_data.cbw).actual_length ≤ sizeof_scsi_data := by
    by_contra h; exact hbad (Or.inr (Nat.lt_of_not_le h))
  by_cases hnone : (scsi_result env port s.mscd_data.cbw).p_buffer = none ∨
      (scsi_result env port s.mscd_data.cbw).actual_length = 0
  · rw [generic_no_data_provided env s port edpt_addr event xferred_bytes hcbw hrw hlen hin
      hle h64 hnone] at ho
    exact Or.inl ⟨_, _, (Option.some.inj ho).symm, hflag, rfl, rfl⟩
  · cases hb : (scsi_result env port s.mscd_data.cbw).p_buffer with
    | none => exact absurd (Or.inl hb) hnone
    | some bytes =>
      have hpos : (scsi_result env port s.mscd_data.cbw).actual_length ≠ 0 :=
        fun h => hnone (Or.inr h)
      rw [generic_data_provided env s port edpt_addr event xferred_bytes bytes hcbw hrw hlen
        hin hle h64 hb hpos] at ho
      split_ifs at ho
      · simp only [Option.some.injEq] at ho
        subst ho
        cases herr
      · exact Or.inl ⟨_, _, (Option.some.inj ho).symm, hflag, rfl, rfl⟩

theorem io_requests_status_gate (tr : List Event) (port : Nat) (p_msc : mscd_interface_t) :
    io_requests (tr ++ [csw_request port p_msc, cbw_request port p_msc])
      = io_requests tr ++ [csw_request port p_msc, cbw_request port p_msc] := by
  simp [io_requests, List.filter_append, csw_request, cbw_request, Event.is_request]

theorem status_gate_requests_eq (port : Nat) (p q : mscd_interface_t)
    (hin : p.edpt_in = q.edpt_in) (hout : p.edpt_out = q.edpt_out) :
    csw_request port p = csw_request port q ∧ cbw_request port p = cbw_request port q := by
  unfold csw_request cbw_request
  rw [hin, hout]
  exact ⟨rfl, rfl⟩

/-- C7: for every invocation of `mscd_xfer_cb` that returns `TUSB_ERROR_NONE` with the
driver accepting every request, the continuation flag is clear afterwards if and only
if the last two requests made to the endpoint driver are, in this order, the CSW
(`sizeof(CSW)` bytes) on the IN endpoint and the reception of `sizeof(CBW)` bytes into
the CBW buffer on the OUT endpoint; when the flag is set afterwards, neither of the two
was requested. -/
theorem status_phase_gate (env : Env) (s : mscd_state) (port edpt_addr : Nat)
    (event : tusb_event_t) (xferred_bytes : Nat) (o : Outcome)
    (hdrv : accepts_all env)
    (ho : mscd_xfer_cb env s port edpt_addr event xferred_bytes = some o)
    (herr : o.err = TUSB_ERROR_NONE) :
    (o.st.is_waiting_read10_write10 = false ↔
      ∃ pre, io_requests o.trace
        = pre ++ [csw_request port s.mscd_data, cbw_request port s.mscd_data]) ∧
    (o.st.is_waiting_read10_write10 = true →
      csw_request port s.mscd_data ∉ o.trace ∧ cbw_request port s.mscd_data ∉ o.trace) := by
  have gate : ∀ (s1 : mscd_state) (tr : List Event),
      s1.is_waiting_read10_write10 = false →
      s1.mscd_data.edpt_in = s.mscd_data.edpt_in →
      s1.mscd_data.edpt_out = s.mscd_data.edpt_out →
      o = status_phase env port s1 tr →
      (o.st.is_waiting_read10_write10 = false ↔
        ∃ pre, io_requests o.trace
          = pre ++ [csw_request port s.mscd_data, cbw_request port s.mscd_data]) ∧
      (o.st.is_waiting_read10_write10 = true →
        csw_request port s.mscd_data ∉ o.trace ∧ cbw_request port s.mscd_data ∉ o.trace) := by
    intro s1 tr hf hin hout h
    rw [status_phase_accepting env port s1 tr hdrv hf] at h
    subst h
    obtain ⟨e1, e2⟩ := status_gate_requests_eq port s1.mscd_data s.mscd_data hin hout
    refine ⟨⟨fun _ => ⟨io_requests tr, ?_⟩, fun _ => hf⟩, fun h => ?_⟩
    · show io_requests (tr ++ _) = _
      rw [io_requests_status_gate, e1, e2]
    · exact absurd (hf.symm.trans h) (by simp)
  rcases mscd_xfer_cb_success_cases env s port edpt_addr event xferred_bytes o ho herr with
    ⟨s1, tr, h, hf, hin, hout⟩ | ⟨s1, h, hrw, hin, hout, hcbw⟩ | ⟨hf, _, h⟩
  · exact gate s1 tr hf hin hout h
  · rw [data_phase_of_read10_write10 env port s1 [] hrw] at h
    cases hr : read10_write10_data_xfer env port s1.mscd_data with
    | none => rw [hr] at h; exact absurd h (by simp)
    | some r =>
      obtain ⟨done, p1, tr1⟩ := r
      rw [hr] at h
      simp only [Option.map_some', Option.some.injEq, List.nil_append] at h
      have hhdr := read10_write10_csw_header env port s1.mscd_data _ hr
      cases done with
      | true =>
        exact gate ⟨p1, false⟩ tr1 rfl (hhdr.2.2.1.trans hin) (hhdr.2.2.2.trans hout) h.symm
      | false =>
        rw [status_phase_waiting env port _ _ rfl,
          read10_write10_not_done_trace env port s1.mscd_data p1 tr1 hr] at h
        subst h
        have hio : io_requests [current_call port s1.mscd_data.cbw,
            continue_request env port s1.mscd_data] = [continue_request env port s1.mscd_data] := by
          have h1 := current_call_not_request port s1.mscd_data.cbw
          have h2 : (continue_request env port s1.mscd_data).is_request = true := rfl
          simp only [io_requests, List.filter, h1, h2]
        refine ⟨⟨fun h => absurd h (by simp), fun ⟨pre, hpre⟩ => ?_⟩, fun _ => ⟨?_, ?_⟩⟩
        · exfalso
          rw [show io_requests _ = [continue_request env port s1.mscd_data] from hio] at hpre
          have hl := congrArg List.length hpre
          simp at hl
        · intro hmem
          simp only [List.mem_cons, List.mem_singleton, List.not_mem_nil, or_false] at hmem
          rcases hmem with h | h
          · have := current_call_not_request port s1.mscd_data.cbw
            rw [← h] at this
            exact absurd this (by simp [csw_request, Event.is_request])
          · simp [csw_request, continue_request] at h
        · intro hmem
          simp only [List.mem_cons, List.mem_singleton, List.not_mem_nil, or_false] at hmem
          rcases hmem with h | h
          · have := current_call_not_request port s1.mscd_data.cbw
            rw [← h] at this
            exact absurd this (by simp [cbw_request, Event.is_request])
          · simp [cbw_request, continue_request] at h
  · subst h
    refine ⟨⟨fun h => absurd (hf.symm.trans h) (by simp), fun ⟨pre, hpre⟩ => ?_⟩, fun _ => ?_⟩
    · have hl := congrArg List.length hpre
      simp [io_requests] at hl
    · simp

/-- C7, witness: the accepted READ(10) of one block answered in full; the invocation
ends with the flag clear, its requests ending with the CSW and the CBW reception. -/
theorem status_phase_gate_witness :
    accepts_all (Env.sample 4096 1 scsi_no_data accept_every) ∧
    (((⟨mscd_example SCSI_CMD_READ_10 0x80 512 0 1, false⟩ : mscd_state).is_waiting_read10_write10
        = false ↔
      ∃ pre, io_requests
          [ Event.tud_msc_read10_cb 0 0 0 1,
            Event.tusb_dcd_edpt_queue_xfer 0 0x81 (Buffer.app 4096) 512,
            Event.tusb_dcd_edpt_xfer 0 0x81 Buffer.csw 13 false,
            Event.tusb_dcd_edpt_xfer 0 0x01 Buffer.cbw 31 true ]
        = pre ++ [ Event.tusb_dcd_edpt_xfer 0 0x81 Buffer.csw 13 false,
                   Event.tusb_dcd_edpt_xfer 0 0x01 Buffer.cbw 31 true ]) ∧
      ((⟨mscd_example SCSI_CMD_READ_10 0x80 512 0 1, false⟩ : mscd_state).is_waiting_read10_write10
        = true →
        Event.tusb_dcd_edpt_xfer 0 0x81 Buffer.csw 13 false ∉
          [ Event.tud_msc_read10_cb 0 0 0 1,
            Event.tusb_dcd_edpt_queue_xfer 0 0x81 (Buffer.app 4096) 512,
            Event.tusb_dcd_edpt_xfer 0 0x81 Buffer.csw 13 false,
            Event.tusb_dcd_edpt_xfer 0 0x01 Buffer.cbw 31 true ] ∧
        Event.tusb_dcd_edpt_xfer 0 0x01 Buffer.cbw 31 true ∉
          [ Event.tud_msc_read10_cb 0 0 0 1,
            Event.tusb_dcd_edpt_queue_xfer 0 0x81 (Buffer.app 4096) 512,
            Event.tusb_dcd_edpt_xfer 0 0x81 Buffer.csw 13 false,
            Event.tusb_dcd_edpt_xfer 0 0x01 Buffer.cbw 31 true ])) :=
  ⟨fun _ => rfl,
    status_phase_gate (Env.sample 4096 1 scsi_no_data accept_every)
      ⟨mscd_example SCSI_CMD_READ_10 0x80 512 0 1, false⟩ 0 0x01 TUSB_EVENT_XFER_COMPLETE 31
      ⟨TUSB_ERROR_NONE,
        ⟨rw_done (csw_initialised ⟨mscd_example SCSI_CMD_READ_10 0x80 512 0 1, false⟩).mscd_data,
          false⟩,
        [ Event.tud_msc_read10_cb 0 0 0 1,
          Event.tusb_dcd_edpt_queue_xfer 0 0x81 (Buffer.app 4096) 512,
          Event.tusb_dcd_edpt_xfer 0 0x81 Buffer.csw 13 false,
          Event.tusb_dcd_edpt_xfer 0 0x01 Buffer.cbw 31 true ]⟩
      (fun _ => rfl) (by decide) rfl⟩

/-! ## The residue reported for a generic command -/

/-- C8, the code at the failing inputs: an INQUIRY (opcode 0x12) declaring 36 bytes
device-to-host.  When the application provides no data the data phase is stalled, no
byte is transferred, and the queued CSW reports residue 0 instead of 36; when the
application answers 8 bytes, 8 bytes are queued and the CSW reports residue 0 instead
of 28.  The residue of a generic command stays at the 0 written when the CBW was
accepted, whereas the failed READ(10)/WRITE(10) path stores the untransferred count. -/
theorem generic_command_residue_stays_zero :
    (Option.map Outcome.trace
        (mscd_xfer_cb (Env.sample 0 0 scsi_no_data accept_every)
          ⟨mscd_example 0x12 0x80 36 0 0, false⟩ 0 0x01 TUSB_EVENT_XFER_COMPLETE 31)
      = some
        [ Event.tud_msc_scsi_cb 0 0 (mscd_example 0x12 0x80 36 0 0).cbw.command 36,
          Event.tusb_dcd_edpt_stall 0 0x81,
          Event.tusb_dcd_edpt_xfer 0 0x81 Buffer.csw 13 false,
          Event.tusb_dcd_edpt_xfer 0 0x01 Buffer.cbw 31 true ] ∧
      Option.map Outcome.csw
        (mscd_xfer_cb (Env.sample 0 0 scsi_no_data accept_every)
          ⟨mscd_example 0x12 0x80 36 0 0, false⟩ 0 0x01 TUSB_EVENT_XFER_COMPLETE 31)
      = some ⟨MSC_CSW_SIGNATURE, 0x1234, 0, MSC_CSW_STATUS_FAILED⟩) ∧
    (Option.map Outcome.trace
        (mscd_xfer_cb
          (Env.sample 0 0 ⟨MSC_CSW_STATUS_PASSED, some [0, 0x80, 2, 2, 31, 0, 0, 0], 8⟩
            accept_every)
          ⟨mscd_example 0x12 0x80 36 0 0, false⟩ 0 0x01 TUSB_EVENT_XFER_COMPLETE 31)
      = some
        [ Event.tud_msc_scsi_cb 0 0 (mscd_example 0x12 0x80 36 0 0).cbw.command 36,
          Event.tusb_dcd_edpt_queue_xfer 0 0x81 Buffer.scsi_data 8,
          Event.tusb_dcd_edpt_xfer 0 0x81 Buffer.csw 13 false,
          Event.tusb_dcd_edpt_xfer 0 0x01 Buffer.cbw 31 true ] ∧
      Option.map Outcome.csw
        (mscd_xfer_cb
          (Env.sample 0 0 ⟨MSC_CSW_STATUS_PASSED, some [0, 0x80, 2, 2, 31, 0, 0, 0], 8⟩
            accept_every)
          ⟨mscd_example 0x12 0x80 36 0 0, false⟩ 0 0x01 TUSB_EVENT_XFER_COMPLETE 31)
      = some ⟨MSC_CSW_SIGNATURE, 0x1234, 0, MSC_CSW_STATUS_PASSED⟩) :=
  ⟨⟨by decide, by decide⟩, ⟨by decide, by decide⟩⟩

/-! ## A generic command without data from the application -/

/-- The no-data branch of the generic path, when it is reached: for every valid CBW
accepted in the idle phase with an opcode other than READ(10)/WRITE(10), device-to-host
direction and nonzero declared transfer length, if the generic SCSI callback provides no
data (pointer left `NULL`, or length 0) and the length it leaves passes the two length
checks placed before the branch (not above the declared transfer length, not above the
64 bytes of the scratch buffer), then (driver accepting) `mscd_xfer_cb` stalls the IN
endpoint, queues no data transfer, forces the CSW status to Failed whatever the callback
returned, queues the CSW and the next CBW reception, and returns `TUSB_ERROR_NONE`. -/
theorem no_data_branch_stalls (env : Env) (s : mscd_state) (port edpt_addr : Nat)
    (event : tusb_event_t) (xferred_bytes : Nat)
    (hdrv : accepts_all env)
    (hcbw : cbw_accepted s edpt_addr event xferred_bytes)
    (hrw : ¬ is_read10_write10 s.mscd_data.cbw)
    (hlen : s.mscd_data.cbw.xfer_bytes ≠ 0)
    (hin : BIT_TEST_ s.mscd_data.cbw.dir 7 = true)
    (hnone : (scsi_result env port s.mscd_data.cbw).p_buffer = none ∨
      (scsi_result env port s.mscd_data.cbw).actual_length = 0)
    (hle : (scsi_result env port s.mscd_data.cbw).actual_length ≤ s.mscd_data.cbw.xfer_bytes)
    (h64 : (scsi_result env port s.mscd_data.cbw).actual_length ≤ sizeof_scsi_data) :
    ∃ o, mscd_xfer_cb env s port edpt_addr event xferred_bytes = some o ∧
      o.err = TUSB_ERROR_NONE ∧
      o.trace =
        [ scsi_call port s.mscd_data.cbw,
          Event.tusb_dcd_edpt_stall port s.mscd_data.edpt_in,
          csw_request port s.mscd_data,
          cbw_request port s.mscd_data ] ∧
      o.st.mscd_data.csw =
        { signature := MSC_CSW_SIGNATURE, tag := s.mscd_data.cbw.tag, data_residue := 0
          status := MSC_CSW_STATUS_FAILED } ∧
      o.st.is_waiting_read10_write10 = false := by
  rw [generic_no_data_provided env s port edpt_addr event xferred_bytes hcbw hrw hlen hin hle
    h64 hnone, status_phase_accepting env port (scsi_answered s MSC_CSW_STATUS_FAILED) _ hdrv
      hcbw.1]
  refine ⟨_, rfl, rfl, ?_, rfl, hcbw.1⟩
  simp only [data_edpt, hin, if_true]
  rfl

/-- The no-data branch at a concrete input: an INQUIRY declaring 36 bytes for which the
application sets the pointer to `NULL` and the length to 0, returning Passed all the
same. -/
theorem no_data_branch_stalls_witness :
    cbw_accepted ⟨mscd_example 0x12 0x80 36 0 0, false⟩ 0x01 TUSB_EVENT_XFER_COMPLETE 31 ∧
    ∃ o, mscd_xfer_cb (Env.sample 0 0 ⟨MSC_CSW_STATUS_PASSED, none, 0⟩ accept_every)
        ⟨mscd_example 0x12 0x80 36 0 0, false⟩ 0 0x01 TUSB_EVENT_XFER_COMPLETE 31 = some o ∧
      o.err = TUSB_ERROR_NONE ∧
      o.trace =
        [ Event.tud_msc_scsi_cb 0 0 (mscd_example 0x12 0x80 36 0 0).cbw.command 36,
          Event.tusb_dcd_edpt_stall 0 0x81,
          Event.tusb_dcd_edpt_xfer 0 0x81 Buffer.csw 13 false,
          Event.tusb_dcd_edpt_xfer 0 0x01 Buffer.cbw 31 true ] ∧
      o.st.mscd_data.csw =
        { signature := MSC_CSW_SIGNATURE, tag := 0x1234, data_residue := 0
          status := MSC_CSW_STATUS_FAILED } ∧
      o.st.is_waiting_read10_write10 = false :=
  ⟨by decide,
    no_data_branch_stalls (Env.sample 0 0 ⟨MSC_CSW_STATUS_PASSED, none, 0⟩ accept_every)
      ⟨mscd_example 0x12 0x80 36 0 0, false⟩ 0 0x01 TUSB_EVENT_XFER_COMPLETE 31
      (fun _ => rfl) (by decide) (by decide) (by decide) (by decide) (by decide) (by decide)
      (by decide)⟩

/-- C9, the code at the failing input: a MODE SENSE(6) (opcode 0x1A) declaring 192 bytes
device-to-host, accepted in the idle phase, which the application does not support: its
callback returns Failed and leaves the pointer at the `NULL` and the length at the 192
that `mscd_xfer_cb` stored before the call.  The check of the length against the 64-byte
scratch buffer, which protects the `memcpy` of the other branch, runs before the test
for "no data": `mscd_xfer_cb` returns `TUSB_ERROR_NOT_ENOUGH_MEMORY` right after the
callback, with no stall, no CSW and no CBW reception, so the host is never told that
the command failed.  The same answer to the same command declaring 64 bytes does reach
the no-data branch: the IN endpoint is stalled, the CSW is sent with status Failed, the
next CBW reception is queued and `TUSB_ERROR_NONE` is returned. -/
theorem scsi_command_no_data_long_length :
    accepts_all unsupported_scsi_command ∧
    cbw_accepted ⟨mscd_example 0x1A 0x80 192 0 0, false⟩ 0x01 TUSB_EVENT_XFER_COMPLETE 31 ∧
    ¬ is_read10_write10 (mscd_example 0x1A 0x80 192 0 0).cbw ∧
    (mscd_example 0x1A 0x80 192 0 0).cbw.xfer_bytes ≠ 0 ∧
    BIT_TEST_ (mscd_example 0x1A 0x80 192 0 0).cbw.dir 7 = true ∧
    scsi_result unsupported_scsi_command 0 (mscd_example 0x1A 0x80 192 0 0).cbw
      = ⟨MSC_CSW_STATUS_FAILED, none, 192⟩ ∧
    Option.map Outcome.err
        (mscd_xfer_cb unsupported_scsi_command
          ⟨mscd_example 0x1A 0x80 192 0 0, false⟩ 0 0x01 TUSB_EVENT_XFER_COMPLETE 31)
      = some TUSB_ERROR_NOT_ENOUGH_MEMORY ∧
    Option.map Outcome.trace
        (mscd_xfer_cb unsupported_scsi_command
          ⟨mscd_example 0x1A 0x80 192 0 0, false⟩ 0 0x01 TUSB_EVENT_XFER_COMPLETE 31)
      = some [Event.tud_msc_scsi_cb 0 0 (mscd_example 0x1A 0x80 192 0 0).cbw.command 192] ∧
    scsi_result unsupported_scsi_command 0 (mscd_example 0x1A 0x80 64 0 0).cbw
      = ⟨MSC_CSW_STATUS_FAILED, none, 64⟩ ∧
    Option.map Outcome.err
        (mscd_xfer_cb unsupported_scsi_command
          ⟨mscd_example 0x1A 0x80 64 0 0, false⟩ 0 0x01 TUSB_EVENT_XFER_COMPLETE 31)
      = some TUSB_ERROR_NONE ∧
    Option.map Outcome.trace
        (mscd_xfer_cb unsupported_scsi_command
          ⟨mscd_example 0x1A 0x80 64 0 0, false⟩ 0 0x01 TUSB_EVENT_XFER_COMPLETE 31)
      = some [ Event.tud_msc_scsi_cb 0 0 (mscd_example 0x1A 0x80 64 0 0).cbw.command 64,
               Event.tusb_dcd_edpt_stall 0 0x81,
               Event.tusb_dcd_edpt_xfer 0 0x81 Buffer.csw 13 false,
               Event.tusb_dcd_edpt_xfer 0 0x01 Buffer.cbw 31 true ] ∧
    Option.map Outcome.csw
        (mscd_xfer_cb unsupported_scsi_command
          ⟨mscd_example 0x1A 0x80 64 0 0, false⟩ 0 0x01 TUSB_EVENT_XFER_COMPLETE 31)
      = some { signature := MSC_CSW_SIGNATURE, tag := 0x1234, data_residue := 0
               status := MSC_CSW_STATUS_FAILED } :=
  ⟨fun _ => rfl, by decide, by decide, by decide, by decide, by decide, by decide, by decide,
    by decide, by decide, by decide, by decide⟩

/-! ## A transfer refused by the driver -/

theorem status_phase_refused (env : Env) (port : Nat) (s : mscd_state) (tr : List Event)
    (hflag : s.is_waiting_read10_write10 = false)
    (href : env.dcd_accepts (csw_request port s.mscd_data) = false ∨
      env.dcd_accepts (cbw_request port s.mscd_data) = false) :
    (status_phase env port s tr).err = TUSB_ERROR_DCD_EDPT_XFER := by
  unfold csw_request cbw_request at href
  simp only [status_phase, hflag, if_true]
  split_ifs with h1 h2
  · rfl
  · rfl
  · rcases href with h | h
    · exact absurd h h1
    · exact absurd h h2

/-- C10, the code at the failing inputs: the driver refuses the data transfer that
`read10_write10_data_xfer` requests and accepts everything else.  For a READ(10) of one
block answered in full, and for a READ(10) of two blocks answered with one, the refused
request is followed by the CSW and the CBW reception and `mscd_xfer_cb` returns
`TUSB_ERROR_NONE`: the error code returned inside the `bool` function is read as "data
phase complete". -/
theorem refused_chunk_returns_none :
    (refuse_app_buffer (Event.tusb_dcd_edpt_queue_xfer 0 0x81 (Buffer.app 4096) 512) = false ∧
      Option.map Outcome.err
        (mscd_xfer_cb (Env.sample 4096 1 scsi_no_data refuse_app_buffer)
          ⟨mscd_example SCSI_CMD_READ_10 0x80 512 0 1, false⟩ 0 0x01
          TUSB_EVENT_XFER_COMPLETE 31)
      = some TUSB_ERROR_NONE ∧
      Option.map Outcome.trace
        (mscd_xfer_cb (Env.sample 4096 1 scsi_no_data refuse_app_buffer)
          ⟨mscd_example SCSI_CMD_READ_10 0x80 512 0 1, false⟩ 0 0x01
          TUSB_EVENT_XFER_COMPLETE 31)
      = some
        [ Event.tud_msc_read10_cb 0 0 0 1,
          Event.tusb_dcd_edpt_queue_xfer 0 0x81 (Buffer.app 4096) 512,
          Event.tusb_dcd_edpt_xfer 0 0x81 Buffer.csw 13 false,
          Event.tusb_dcd_edpt_xfer 0 0x01 Buffer.cbw 31 true ]) ∧
    (refuse_app_buffer (Event.tusb_dcd_edpt_xfer 0 0x81 (Buffer.app 4096) 512 true) = false ∧
      Option.map Outcome.err
        (mscd_xfer_cb (Env.sample 4096 1 scsi_no_data refuse_app_buffer)
          ⟨mscd_example SCSI_CMD_READ_10 0x80 1024 0 2, false⟩ 0 0x01
          TUSB_EVENT_XFER_COMPLETE 31)
      = some TUSB_ERROR_NONE ∧
      Option.map Outcome.trace
        (mscd_xfer_cb (Env.sample 4096 1 scsi_no_data refuse_app_buffer)
          ⟨mscd_example SCSI_CMD_READ_10 0x80 1024 0 2, false⟩ 0 0x01
          TUSB_EVENT_XFER_COMPLETE 31)
      = some
        [ Event.tud_msc_read10_cb 0 0 0 2,
          Event.tusb_dcd_edpt_xfer 0 0x81 (Buffer.app 4096) 512 true,
          Event.tusb_dcd_edpt_xfer 0 0x81 Buffer.csw 13 false,
          Event.tusb_dcd_edpt_xfer 0 0x01 Buffer.cbw 31 true ]) :=
  ⟨⟨by decide, by decide, by decide⟩, ⟨by decide, by decide, by decide⟩⟩

/-! ## Host-to-device data of a generic command -/

/-- C11: for every valid CBW accepted in the idle phase with an opcode other than
READ(10)/WRITE(10), a nonzero declared transfer length and bit 7 of the direction clear,
`mscd_xfer_cb` returns `TUSB_ERROR_NOT_SUPPORTED_YET` without any call to a collaborator:
the generic SCSI callback is not invoked, no transfer is queued (neither the CSW nor the
next CBW reception) and no endpoint is stalled; CBW, scratch buffer and continuation
flag are unchanged. -/
theorem scsi_data_out_rejected (env : Env) (s : mscd_state) (port edpt_addr : Nat)
    (event : tusb_event_t) (xferred_bytes : Nat)
    (hcbw : cbw_accepted s edpt_addr event xferred_bytes)
    (hrw : ¬ is_read10_write10 s.mscd_data.cbw)
    (hlen : s.mscd_data.cbw.xfer_bytes ≠ 0)
    (hout : BIT_TEST_ s.mscd_data.cbw.dir 7 = false) :
    ∃ o, mscd_xfer_cb env s port edpt_addr event xferred_bytes = some o ∧
      o.err = TUSB_ERROR_NOT_SUPPORTED_YET ∧
      o.trace = [] ∧
      o.st.mscd_data.cbw = s.mscd_data.cbw ∧
      o.st.mscd_data.scsi_data = s.mscd_data.scsi_data ∧
      o.st.is_waiting_read10_write10 = false :=
  ⟨_, generic_data_out_unsupported env s port edpt_addr event xferred_bytes hcbw hrw
      ⟨Nat.pos_of_ne_zero hlen, hout⟩, rfl, rfl, rfl, rfl, hcbw.1⟩

/-- C11, witness: a MODE SELECT(6) (opcode 0x15) declaring 12 bytes host-to-device. -/
theorem scsi_data_out_rejected_witness :
    cbw_accepted ⟨mscd_example 0x15 0x00 12 0 0, false⟩ 0x01 TUSB_EVENT_XFER_COMPLETE 31 ∧
    ∃ o, mscd_xfer_cb (Env.sample 0 0 ⟨MSC_CSW_STATUS_PASSED, none, 0⟩ accept_every)
        ⟨mscd_example 0x15 0x00 12 0 0, false⟩ 0 0x01 TUSB_EVENT_XFER_COMPLETE 31 = some o ∧
      o.err = TUSB_ERROR_NOT_SUPPORTED_YET ∧
      o.trace = [] ∧
      o.st.mscd_data.cbw = (mscd_example 0x15 0x00 12 0 0).cbw ∧
      o.st.mscd_data.scsi_data = (mscd_example 0x15 0x00 12 0 0).scsi_data ∧
      o.st.is_waiting_read10_write10 = false :=
  ⟨by decide,
    scsi_data_out_rejected (Env.sample 0 0 ⟨MSC_CSW_STATUS_PASSED, none, 0⟩ accept_every)
      ⟨mscd_example 0x15 0x00 12 0 0, false⟩ 0 0x01 TUSB_EVENT_XFER_COMPLETE 31
      (by decide) (by decide) (by decide) (by decide)⟩

/-! ## Class-specific control requests -/

/-- C12: `mscd_control_request_subtask` refuses a request whose type is not class with
`TUSB_ERROR_DCD_CONTROL_REQUEST_NOT_SUPPORT` and without effect.  For a class request:
Mass Storage Reset makes only the control status call and leaves the whole state, the
continuation flag included, unchanged; Get Max LUN makes one control transfer of length
1 from the scratch buffer, whose first byte is `max_lun`, and changes nothing but the
scratch buffer; any other request makes only the control stall call and leaves the state
unchanged. -/
theorem control_request_cases (s : mscd_state) (port : Nat) (p_request : tusb_control_request_t) :
    (p_request.bmRequestType_bit_type ≠ TUSB_REQ_TYPE_CLASS →
      mscd_control_request_subtask s port p_request
        = ⟨TUSB_ERROR_DCD_CONTROL_REQUEST_NOT_SUPPORT, s, []⟩) ∧
    (p_request.bmRequestType_bit_type = TUSB_REQ_TYPE_CLASS →
      p_request.bRequest = MSC_REQUEST_RESET →
      mscd_control_request_subtask s port p_request
        = ⟨TUSB_ERROR_NONE, s,
            [Event.usbd_control_status port p_request.bmRequestType_bit_direction]⟩) ∧
    (p_request.bmRequestType_bit_type = TUSB_REQ_TYPE_CLASS →
      p_request.bRequest = MSC_REQUEST_GET_MAX_LUN →
      ∃ data,
        mscd_control_request_subtask s port p_request
          = ⟨TUSB_ERROR_NONE, { s with mscd_data := { s.mscd_data with scsi_data := data } },
              [Event.usbd_control_xfer_stask port p_request.bmRequestType_bit_direction
                data 1]⟩ ∧
        data.length = s.mscd_data.scsi_data.length ∧
        (0 < s.mscd_data.scsi_data.length → data.take 1 = [s.mscd_data.max_lun])) ∧
    (p_request.bmRequestType_bit_type = TUSB_REQ_TYPE_CLASS →
      p_request.bRequest ≠ MSC_REQUEST_RESET →
      p_request.bRequest ≠ MSC_REQUEST_GET_MAX_LUN →
      mscd_control_request_subtask s port p_request
        = ⟨TUSB_ERROR_NONE, s, [Event.usbd_control_stall port]⟩) := by
  refine ⟨?_, ?_, ?_, ?_⟩
  · intro h
    simp [mscd_control_request_subtask, h]
  · intro h1 h2
    simp [mscd_control_request_subtask, h1, h2]
  · intro h1 h2
    refine ⟨s.mscd_data.scsi_data.set 0 s.mscd_data.max_lun, ?_, ?_, ?_⟩
    · have hne : MSC_REQUEST_RESET ≠ MSC_REQUEST_GET_MAX_LUN := by decide
      simp [mscd_control_request_subtask, h1, h2, hne]
    · simp
    · intro hpos
      cases hd : s.mscd_data.scsi_data with
      | nil => rw [hd] at hpos; exact absurd hpos (by simp)
      | cons a l => simp
  · intro h1 h2 h3
    simp [mscd_control_request_subtask, h1, Ne.symm h2, Ne.symm h3]

/-- C12, witness: Get Max LUN on an interface with `max_lun = 3`, and a reset in the
middle of a READ(10) continuation. -/
theorem control_request_cases_witness :
    (∃ data,
      mscd_control_request_subtask
          ⟨{ mscd_example SCSI_CMD_READ_10 0x80 512 1 1 with max_lun := 3 }, true⟩ 0
          ⟨1, TUSB_REQ_TYPE_CLASS, 1, MSC_REQUEST_GET_MAX_LUN, 0, 0, 1⟩
        = ⟨TUSB_ERROR_NONE,
            ⟨{ mscd_example SCSI_CMD_READ_10 0x80 512 1 1 with max_lun := 3, scsi_data := data },
              true⟩,
            [Event.usbd_control_xfer_stask 0 1 data 1]⟩ ∧
      data.length = 64 ∧
      (0 < 64 → data.take 1 = [3])) ∧
    mscd_control_request_subtask ⟨mscd_example SCSI_CMD_READ_10 0x80 512 1 1, true⟩ 0
        ⟨1, TUSB_REQ_TYPE_CLASS, 0, MSC_REQUEST_RESET, 0, 0, 0⟩
      = ⟨TUSB_ERROR_NONE, ⟨mscd_example SCSI_CMD_READ_10 0x80 512 1 1, true⟩,
          [Event.usbd_control_status 0 0]⟩ :=
  ⟨(control_request_cases
      ⟨{ mscd_example SCSI_CMD_READ_10 0x80 512 1 1 with max_lun := 3 }, true⟩ 0
      ⟨1, TUSB_REQ_TYPE_CLASS, 1, MSC_REQUEST_GET_MAX_LUN, 0, 0, 1⟩).2.2.1 rfl rfl,
    (control_request_cases ⟨mscd_example SCSI_CMD_READ_10 0x80 512 1 1, true⟩ 0
      ⟨1, TUSB_REQ_TYPE_CLASS, 0, MSC_REQUEST_RESET, 0, 0, 0⟩).2.1 rfl rfl⟩

/-! ## Initialisation and closing -/

theorem mscd_init_clears_data_only (s : mscd_state) :
    (mscd_init s).mscd_data = mscd_interface_zero ∧
      (mscd_init s).is_waiting_read10_write10 = s.is_waiting_read10_write10 :=
  ⟨rfl, rfl⟩

theorem mscd_close_clears_data_only (s : mscd_state) (port : Nat) :
    (mscd_close s port).mscd_data = mscd_interface_zero ∧
      (mscd_close s port).is_waiting_read10_write10 = s.is_waiting_read10_write10 :=
  ⟨rfl, rfl⟩

/-- C13, the code at the failing input.  A READ(10) of two blocks answered with one
block leaves the continuation flag set; `mscd_close` (and `mscd_init`) called in that
state clears `mscd_data` but the flag, a static local of `mscd_xfer_cb`, stays set.
Once the interface is configured again and a valid INQUIRY CBW has been received, the
completion event is not treated as a new CBW: `mscd_xfer_cb` returns `TUSB_ERROR_NONE`
without calling the application and without queuing a CSW or a CBW reception. -/
theorem close_keeps_continuation_flag :
    mscd_xfer_cb (Env.sample 4096 1 scsi_no_data accept_every)
        ⟨mscd_example SCSI_CMD_READ_10 0x80 1024 0 2, false⟩ 0 0x01 TUSB_EVENT_XFER_COMPLETE 31
      = some ⟨TUSB_ERROR_NONE,
          ⟨rw_continue
            (csw_initialised ⟨mscd_example SCSI_CMD_READ_10 0x80 1024 0 2, false⟩).mscd_data
            1 512, true⟩,
          [ Event.tud_msc_read10_cb 0 0 0 2,
            Event.tusb_dcd_edpt_xfer 0 0x81 (Buffer.app 4096) 512 true ]⟩ ∧
    mscd_close
        ⟨rw_continue
          (csw_initialised ⟨mscd_example SCSI_CMD_READ_10 0x80 1024 0 2, false⟩).mscd_data
          1 512, true⟩ 0
      = ⟨mscd_interface_zero, true⟩ ∧
    mscd_init
        ⟨rw_continue
          (csw_initialised ⟨mscd_example SCSI_CMD_READ_10 0x80 1024 0 2, false⟩).mscd_data
          1 512, true⟩
      = ⟨mscd_interface_zero, true⟩ ∧
    cbw_accepted ⟨mscd_example 0x12 0x80 36 0 0, false⟩ 0x01 TUSB_EVENT_XFER_COMPLETE 31 ∧
    mscd_xfer_cb (Env.sample 0 0 ⟨MSC_CSW_STATUS_PASSED, some [0, 0x80, 2, 2], 4⟩ accept_every)
        ⟨mscd_example 0x12 0x80 36 0 0, true⟩ 0 0x01 TUSB_EVENT_XFER_COMPLETE 31
      = some ⟨TUSB_ERROR_NONE, ⟨mscd_example 0x12 0x80 36 0 0, true⟩, []⟩ :=
  ⟨by decide, by decide, by decide, by decide, by decide⟩

/-! ## The continuing step -/

/-- C15: for every interface whose CBW holds a remaining block count `n`, a callback
result above `n` makes `read10_write10_data_xfer` behave exactly as a callback result of
`n` with the same buffer does: same calls, same interface afterwards, same return value.
In every call the number of blocks accounted for is at most `n`. -/
theorem callback_result_clamped (env env1 : Env) (port : Nat) (p_msc : mscd_interface_t) :
    (cbw_block_count p_msc.cbw
        < (block_cb env port p_msc.cbw (cbw_lba p_msc.cbw) (cbw_block_count p_msc.cbw)).blocks →
      block_cb env1 port p_msc.cbw (cbw_lba p_msc.cbw) (cbw_block_count p_msc.cbw)
        = ⟨(block_cb env port p_msc.cbw (cbw_lba p_msc.cbw)
            (cbw_block_count p_msc.cbw)).p_buffer, cbw_block_count p_msc.cbw⟩ →
      read10_write10_data_xfer env port p_msc = read10_write10_data_xfer env1 port p_msc) ∧
    xferred_block env port p_msc.cbw ≤ cbw_block_count p_msc.cbw := by
  refine ⟨fun hgt h1 => ?_, ?_⟩
  · have hxb : xferred_block env port p_msc.cbw = cbw_block_count p_msc.cbw := by
      unfold xferred_block
      simp only [min16_of]
      rw [if_neg (by omega)]
    have hxb1 : xferred_block env1 port p_msc.cbw = cbw_block_count p_msc.cbw := by
      unfold xferred_block
      rw [h1]
      exact min16_of_self _
    by_cases hn : cbw_block_count p_msc.cbw = 0
    · rw [read10_write10_zero_divisor env port p_msc hn,
        read10_write10_zero_divisor env1 port p_msc hn]
    · rw [read10_write10_done env port p_msc hn (by rw [hxb]),
        read10_write10_done env1 port p_msc hn (by rw [hxb1])]
      have hreq : final_request env port p_msc = final_request env1 port p_msc := by
        unfold final_request xferred_byte
        rw [hxb, hxb1, h1]
      rw [hreq]
  · unfold xferred_block min16_of
    split_ifs <;> omega

/-- C15, witness: 4 blocks remaining; a callback answering 9 blocks and one answering 4
blocks lead to the same result. -/
theorem callback_result_clamped_witness :
    read10_write10_data_xfer (Env.sample 4096 9 scsi_no_data accept_every) 0
        (mscd_example SCSI_CMD_WRITE_10 0x00 2048 16 4)
      = read10_write10_data_xfer (Env.sample 4096 4 scsi_no_data accept_every) 0
        (mscd_example SCSI_CMD_WRITE_10 0x00 2048 16 4) ∧
    xferred_block (Env.sample 4096 9 scsi_no_data accept_every) 0
        (mscd_example SCSI_CMD_WRITE_10 0x00 2048 16 4).cbw
      ≤ cbw_block_count (mscd_example SCSI_CMD_WRITE_10 0x00 2048 16 4).cbw :=
  ⟨(callback_result_clamped (Env.sample 4096 9 scsi_no_data accept_every)
      (Env.sample 4096 4 scsi_no_data accept_every) 0
      (mscd_example SCSI_CMD_WRITE_10 0x00 2048 16 4)).1 (by decide) (by decide),
    (callback_result_clamped (Env.sample 4096 9 scsi_no_data accept_every)
      (Env.sample 4096 4 scsi_no_data accept_every) 0
      (mscd_example SCSI_CMD_WRITE_10 0x00 2048 16 4)).2⟩

/-! ## The copy into the scratch buffer -/

theorem memcpy_take (dst src : List Nat) (n : Nat) (h : n ≤ src.length) :
    (memcpy dst src n).take n = src.take n := by
  unfold memcpy
  rw [List.take_append_of_le_length (by simp [h])]
  simp [List.take_take]

theorem memcpy_drop (dst src : List Nat) (n : Nat) (h : n ≤ src.length) :
    (memcpy dst src n).drop n = dst.drop n := by
  unfold memcpy
  have hl : (src.take n).length = n := by simp [h]
  rw [List.drop_append_eq_append_drop, hl]
  simp [List.drop_eq_nil_of_le, hl]

theorem status_phase_trace_shape (env : Env) (port : Nat) (s : mscd_state) (tr : List Event) :
    ∃ rest, (status_phase env port s tr).trace = tr ++ rest ∧
      ∀ e ∈ rest, e = csw_request port s.mscd_data ∨ e = cbw_request port s.mscd_data := by
  simp only [status_phase]
  unfold csw_request cbw_request
  split_ifs
  · exact ⟨_, rfl, by simp⟩
  · exact ⟨_, rfl, by simp⟩
  · exact ⟨_, rfl, by simp⟩
  · exact ⟨[], by simp, by simp⟩

/-- C17: in every execution of `mscd_xfer_cb` for an accepted generic command with a
nonzero declared transfer length, the scratch buffer is written only when the direction
is device-to-host, the application buffer is not `NULL` and its length satisfies
`1 <= actual_length <= min(declared length, 64)`; then the first `actual_length` bytes of
`scsi_data` are the bytes of the application, the rest is untouched, and the calls made
are the SCSI callback, one queued transfer of `actual_length` bytes from `scsi_data` on
the data-phase endpoint, and nothing else than the CSW and CBW requests.  A length above
the declared one returns `TUSB_ERROR_INVALID_PARA`, a length within the declared one but
above 64 returns `TUSB_ERROR_NOT_ENOUGH_MEMORY`, both with nothing copied and nothing
requested; without data, and for the host-to-device direction, nothing is copied
either. -/
theorem scratch_copy_bounded (env : Env) (s : mscd_state) (port edpt_addr : Nat)
    (event : tusb_event_t) (xferred_bytes : Nat)
    (hcbw : cbw_accepted s edpt_addr event xferred_bytes)
    (hrw : ¬ is_read10_write10 s.mscd_data.cbw)
    (hlen : s.mscd_data.cbw.xfer_bytes ≠ 0) :
    (BIT_TEST_ s.mscd_data.cbw.dir 7 = false →
      mscd_xfer_cb env s port edpt_addr event xferred_bytes
        = some ⟨TUSB_ERROR_NOT_SUPPORTED_YET, csw_initialised s, []⟩) ∧
    (BIT_TEST_ s.mscd_data.cbw.dir 7 = true →
      s.mscd_data.cbw.xfer_bytes < (scsi_result env port s.mscd_data.cbw).actual_length →
      mscd_xfer_cb env s port edpt_addr event xferred_bytes
        = some ⟨TUSB_ERROR_INVALID_PARA,
            scsi_answered s (scsi_result env port s.mscd_data.cbw).status,
            [scsi_call port s.mscd_data.cbw]⟩) ∧
    (BIT_TEST_ s.mscd_data.cbw.dir 7 = true →
      (scsi_result env port s.mscd_data.cbw).actual_length ≤ s.mscd_data.cbw.xfer_bytes →
      sizeof_scsi_data < (scsi_result env port s.mscd_data.cbw).actual_length →
      mscd_xfer_cb env s port edpt_addr event xferred_bytes
        = some ⟨TUSB_ERROR_NOT_ENOUGH_MEMORY,
            scsi_answered s (scsi_result env port s.mscd_data.cbw).status,
            [scsi_call port s.mscd_data.cbw]⟩) ∧
    (BIT_TEST_ s.mscd_data.cbw.dir 7 = true →
      (scsi_result env port s.mscd_data.cbw).actual_length ≤ s.mscd_data.cbw.xfer_bytes →
      (scsi_result env port s.mscd_data.cbw).actual_length ≤ sizeof_scsi_data →
      ((scsi_result env port s.mscd_data.cbw).p_buffer = none ∨
        (scsi_result env port s.mscd_data.cbw).actual_length = 0) →
      ∃ o, mscd_xfer_cb env s port edpt_addr event xferred_bytes = some o ∧
        o.st.mscd_data.scsi_data = s.mscd_data.scsi_data ∧
        ∃ rest, o.trace = [scsi_call port s.mscd_data.cbw,
            Event.tusb_dcd_edpt_stall port (data_edpt s.mscd_data)] ++ rest ∧
          ∀ e ∈ rest, e = csw_request port s.mscd_data ∨ e = cbw_request port s.mscd_data) ∧
    (∀ bytes, BIT_TEST_ s.mscd_data.cbw.dir 7 = true →
      (scsi_result env port s.mscd_data.cbw).actual_length ≤ s.mscd_data.cbw.xfer_bytes →
      (scsi_result env port s.mscd_data.cbw).actual_length ≤ sizeof_scsi_data →
      (scsi_result env port s.mscd_data.cbw).p_buffer = some bytes →
      1 ≤ (scsi_result env port s.mscd_data.cbw).actual_length →
      (scsi_result env port s.mscd_data.cbw).actual_length ≤ bytes.length →
      ∃ o, mscd_xfer_cb env s port edpt_addr event xferred_bytes = some o ∧
        o.st.mscd_data.scsi_data.take (scsi_result env port s.mscd_data.cbw).actual_length
          = bytes.take (scsi_result env port s.mscd_data.cbw).actual_length ∧
        o.st.mscd_data.scsi_data.drop (scsi_result env port s.mscd_data.cbw).actual_length
          = s.mscd_data.scsi_data.drop (scsi_result env port s.mscd_data.cbw).actual_length ∧
        ∃ rest, o.trace = [scsi_call port s.mscd_data.cbw,
            Event.tusb_dcd_edpt_queue_xfer port (data_edpt s.mscd_data) Buffer.scsi_data
              (scsi_result env port s.mscd_data.cbw).actual_length] ++ rest ∧
          ∀ e ∈ rest, e = csw_request port s.mscd_data ∨ e = cbw_request port s.mscd_data) := by
  refine ⟨fun hout => ?_, fun hin hgt => ?_, fun hin hle hgt => ?_, fun hin hle h64 hnone => ?_,
    fun bytes hin hle h64 hsome hpos hsrc => ?_⟩
  · exact generic_data_out_unsupported env s port edpt_addr event xferred_bytes hcbw hrw
      ⟨Nat.pos_of_ne_zero hlen, hout⟩
  · rw [generic_length_rejected env s port edpt_addr event xferred_bytes hcbw hrw hlen hin
      (Or.inl hgt), if_pos hgt]
  · rw [generic_length_rejected env s port edpt_addr event xferred_bytes hcbw hrw hlen hin
      (Or.inr hgt), if_neg (Nat.not_lt.mpr hle)]
  · rw [generic_no_data_provided env s port edpt_addr event xferred_bytes hcbw hrw hlen hin
      hle h64 hnone]
    refine ⟨_, rfl, ?_, ?_⟩
    · rw [status_phase_st]
      rfl
    · exact status_phase_trace_shape env port (scsi_answered s MSC_CSW_STATUS_FAILED) _
  · have hne : (scsi_result env port s.mscd_data.cbw).actual_length ≠ 0 := by omega
    rw [generic_data_provided env s port edpt_addr event xferred_bytes bytes hcbw hrw hlen hin
      hle h64 hsome hne]
    split_ifs
    · exact ⟨_, rfl, memcpy_take _ _ _ hsrc, memcpy_drop _ _ _ hsrc, [], rfl, by simp⟩
    · refine ⟨_, rfl, ?_, ?_, ?_⟩
      · rw [status_phase_st]
        exact memcpy_take _ _ _ hsrc
      · rw [status_phase_st]
        exact memcpy_drop _ _ _ hsrc
      · exact status_phase_trace_shape env port
          (scsi_staged s (scsi_result env port s.mscd_data.cbw) bytes) _

/-- C17, witness: an INQUIRY declaring 36 bytes answered with 8 bytes. -/
theorem scratch_copy_bounded_witness :
    cbw_accepted ⟨mscd_example 0x12 0x80 36 0 0, false⟩ 0x01 TUSB_EVENT_XFER_COMPLETE 31 ∧
    ∃ o, mscd_xfer_cb
          (Env.sample 0 0 ⟨MSC_CSW_STATUS_PASSED, some [0, 0x80, 2, 2, 31, 0, 0, 0], 8⟩
            accept_every)
          ⟨mscd_example 0x12 0x80 36 0 0, false⟩ 0 0x01 TUSB_EVENT_XFER_COMPLETE 31 = some o ∧
      o.st.mscd_data.scsi_data.take 8 = [0, 0x80, 2, 2, 31, 0, 0, 0] ∧
      o.st.mscd_data.scsi_data.drop 8 = List.replicate 56 0 ∧
      ∃ rest, o.trace =
          [ Event.tud_msc_scsi_cb 0 0 (mscd_example 0x12 0x80 36 0 0).cbw.command 36,
            Event.tusb_dcd_edpt_queue_xfer 0 0x81 Buffer.scsi_data 8 ] ++ rest ∧
        ∀ e ∈ rest, e = Event.tusb_dcd_edpt_xfer 0 0x81 Buffer.csw 13 false ∨
          e = Event.tusb_dcd_edpt_xfer 0 0x01 Buffer.cbw 31 true :=
  ⟨by decide,
    (scratch_copy_bounded
      (Env.sample 0 0 ⟨MSC_CSW_STATUS_PASSED, some [0, 0x80, 2, 2, 31, 0, 0, 0], 8⟩ accept_every)
      ⟨mscd_example 0x12 0x80 36 0 0, false⟩ 0 0x01 TUSB_EVENT_XFER_COMPLETE 31
      (by decide) (by decide) (by decide)).2.2.2.2 [0, 0x80, 2, 2, 31, 0, 0, 0]
      (by decide) (by decide) (by decide) rfl (by decide) (by decide)⟩

/-! ## One invocation in the data phase of READ(10) / WRITE(10) -/

theorem mscd_xfer_cb_of_starts (i : Invocation) (s : mscd_state)
    (hstart : i.starts s) (hrw : is_read10_write10 s.mscd_data.cbw) :
    ∃ s1, (s1 = s ∨ s1 = csw_initialised s) ∧
      mscd_xfer_cb i.env s i.port i.edpt_addr i.event i.xferred_bytes
        = (read10_write10_data_xfer i.env i.port s1.mscd_data).map (fun r =>
            status_phase i.env i.port
              { mscd_data := r.2.1, is_waiting_read10_write10 := !r.1 } r.2.2) := by
  rcases hstart with hcbw | ⟨hflag, hep⟩
  · refine ⟨csw_initialised s, Or.inr rfl, ?_⟩
    rw [mscd_xfer_cb_new_read10_write10 i.env s i.port i.edpt_addr i.event i.xferred_bytes hcbw
      hrw, data_phase_of_read10_write10 i.env i.port (csw_initialised s) [] hrw]
    simp only [List.nil_append]
  · refine ⟨s, Or.inl rfl, ?_⟩
    rw [mscd_xfer_cb_waiting i.env s i.port i.edpt_addr i.event i.xferred_bytes hep hflag,
      data_phase_of_read10_write10 i.env i.port s [] hrw]
    simp only [List.nil_append]

theorem rw_step_cases (i : Invocation) (s : mscd_state)
    (hstart : i.starts s) (hrw : is_read10_write10 s.mscd_data.cbw) :
    ∃ s1, (s1 = s ∨ s1 = csw_initialised s) ∧
      ((cbw_block_count s.mscd_data.cbw = 0 ∧
          mscd_xfer_cb i.env s i.port i.edpt_addr i.event i.xferred_bytes = none) ∨
        (cbw_block_count s.mscd_data.cbw ≠ 0 ∧ xferred_block i.env i.port s.mscd_data.cbw = 0 ∧
          mscd_xfer_cb i.env s i.port i.edpt_addr i.event i.xferred_bytes
            = some (status_phase i.env i.port ⟨rw_failed s1.mscd_data, false⟩
                [current_call i.port s.mscd_data.cbw,
                  Event.tusb_dcd_edpt_stall i.port (data_edpt s.mscd_data)])) ∨
        (0 < xferred_block i.env i.port s.mscd_data.cbw ∧
          xferred_block i.env i.port s.mscd_data.cbw < cbw_block_count s.mscd_data.cbw ∧
          i.env.dcd_accepts (continue_request i.env i.port s.mscd_data) = true ∧
          mscd_xfer_cb i.env s i.port i.edpt_addr i.event i.xferred_bytes
            = some ⟨TUSB_ERROR_NONE,
                ⟨rw_continue s1.mscd_data (xferred_block i.env i.port s.mscd_data.cbw)
                  (xferred_byte i.env i.port s.mscd_data.cbw), true⟩,
                [current_call i.port s.mscd_data.cbw,
                  continue_request i.env i.port s.mscd_data]⟩) ∨
        (0 < xferred_block i.env i.port s.mscd_data.cbw ∧
          xferred_block i.env i.port s.mscd_data.cbw < cbw_block_count s.mscd_data.cbw ∧
          i.env.dcd_accepts (continue_request i.env i.port s.mscd_data) = false ∧
          mscd_xfer_cb i.env s i.port i.edpt_addr i.event i.xferred_bytes
            = some (status_phase i.env i.port ⟨s1.mscd_data, false⟩
                [current_call i.port s.mscd_data.cbw,
                  continue_request i.env i.port s.mscd_data])) ∨
        (cbw_block_count s.mscd_data.cbw ≠ 0 ∧
          cbw_block_count s.mscd_data.cbw ≤ xferred_block i.env i.port s.mscd_data.cbw ∧
          mscd_xfer_cb i.env s i.port i.edpt_addr i.event i.xferred_bytes
            = some (status_phase i.env i.port ⟨rw_done s1.mscd_data, false⟩
                [current_call i.port s.mscd_data.cbw,
                  final_request i.env i.port s.mscd_data]))) := by
  obtain ⟨s1, hs1, heq⟩ := mscd_xfer_cb_of_starts i s hstart hrw
  refine ⟨s1, hs1, ?_⟩
  have hcbw : s1.mscd_data.cbw = s.mscd_data.cbw := by
    rcases hs1 with h | h <;> subst h <;> rfl
  have hcont : continue_request i.env i.port s1.mscd_data
      = continue_request i.env i.port s.mscd_data := by
    rcases hs1 with h | h <;> subst h <;> rfl
  have hfin : final_request i.env i.port s1.mscd_data
      = final_request i.env i.port s.mscd_data := by
    rcases hs1 with h | h <;> subst h <;> rfl
  have hedpt : data_edpt s1.mscd_data = data_edpt s.mscd_data := by
    rcases hs1 with h | h <;> subst h <;> rfl
  rw [heq]
  have hc := read10_write10_cases i.env i.port s1.mscd_data
  rw [hcbw, hcont, hfin, hedpt] at hc
  rcases hc with ⟨h0, h⟩ | ⟨h0, hz, h⟩ | ⟨hp, hl, ha, h⟩ | ⟨hp, hl, ha, h⟩ | ⟨h0, hg, h⟩
  · exact Or.inl ⟨h0, by rw [h]; rfl⟩
  · exact Or.inr (Or.inl ⟨h0, hz, by rw [h]; rfl⟩)
  · refine Or.inr (Or.inr (Or.inl ⟨hp, hl, ha, ?_⟩))
    rw [h]
    simp only [Option.map_some', Bool.not_false]
    rw [status_phase_waiting i.env i.port _ _ rfl]
  · exact Or.inr (Or.inr (Or.inr (Or.inl ⟨hp, hl, ha, by rw [h]; rfl⟩)))
  · exact Or.inr (Or.inr (Or.inr (Or.inr ⟨h0, hg, by rw [h]; rfl⟩)))

/-! ## Runs of one command -/

theorem command_run_cons_waiting (s : mscd_state) (i : Invocation) (rest : List Invocation)
    (o : Outcome)
    (h : mscd_xfer_cb i.env s i.port i.edpt_addr i.event i.xferred_bytes = some o)
    (hw : o.st.is_waiting_read10_write10 = true) :
    command_run s (i :: rest) = (command_run o.st rest).map (List.cons o) := by
  simp only [command_run, h, hw, if_true]

theorem command_run_cons_final (s : mscd_state) (i : Invocation) (rest : List Invocation)
    (o : Outcome)
    (h : mscd_xfer_cb i.env s i.port i.edpt_addr i.event i.xferred_bytes = some o)
    (hw : o.st.is_waiting_read10_write10 = false) :
    command_run s (i :: rest) = some [o] := by
  simp [command_run, h, hw]

theorem is_read10_write10_rw_continue (p_msc : mscd_interface_t) (b bytes : Nat)
    (h : is_read10_write10 p_msc.cbw) : is_read10_write10 (rw_continue p_msc b bytes).cbw := h

/-! ## The divisor of the per-block byte count -/

theorem divisor_guard_step (i : Invocation) (s : mscd_state)
    (hrw : is_read10_write10 s.mscd_data.cbw) (hn : 1 ≤ cbw_block_count s.mscd_data.cbw)
    (hs : cbw_accepted s i.edpt_addr i.event i.xferred_bytes ∨
      s.is_waiting_read10_write10 = true) :
    ∃ o, mscd_xfer_cb i.env s i.port i.edpt_addr i.event i.xferred_bytes = some o ∧
      (o.st.is_waiting_read10_write10 = true →
        is_read10_write10 o.st.mscd_data.cbw ∧ 1 ≤ cbw_block_count o.st.mscd_data.cbw) := by
  have main : i.starts s →
      ∃ o, mscd_xfer_cb i.env s i.port i.edpt_addr i.event i.xferred_bytes = some o ∧
        (o.st.is_waiting_read10_write10 = true →
          is_read10_write10 o.st.mscd_data.cbw ∧ 1 ≤ cbw_block_count o.st.mscd_data.cbw) := by
    intro hstart
    obtain ⟨s1, hs1, hc⟩ := rw_step_cases i s hstart hrw
    have hcbw : s1.mscd_data.cbw = s.mscd_data.cbw := by
      rcases hs1 with h | h <;> subst h <;> rfl
    rcases hc with ⟨h0, _⟩ | ⟨_, _, h⟩ | ⟨hp, hl, _, h⟩ | ⟨_, _, _, h⟩ | ⟨_, _, h⟩
    · omega
    · refine ⟨_, h, fun hw => ?_⟩
      rw [status_phase_st] at hw
      exact absurd hw (by simp)
    · refine ⟨_, h, fun _ => ⟨?_, ?_⟩⟩
      · exact is_read10_write10_rw_continue _ _ _ (by rw [hcbw]; exact hrw)
      · show 1 ≤ cbw_block_count (rw_continue s1.mscd_data _ _).cbw
        rw [cbw_block_count_rw_continue, hcbw]
        omega
    · refine ⟨_, h, fun hw => ?_⟩
      rw [status_phase_st] at hw
      exact absurd hw (by simp)
    · refine ⟨_, h, fun hw => ?_⟩
      rw [status_phase_st] at hw
      exact absurd hw (by simp)
  rcases hs with hcbw | hflag
  · exact main (Or.inl hcbw)
  · by_cases hep : i.edpt_addr = s.mscd_data.edpt_out ∨ i.edpt_addr = s.mscd_data.edpt_in
    · exact main (Or.inr ⟨hflag, hep⟩)
    · refine ⟨⟨TUSB_ERROR_INVALID_PARA, s, []⟩, ?_, fun _ => ⟨hrw, hn⟩⟩
      simp only [mscd_xfer_cb, hep, not_false_eq_true, if_true]

theorem command_run_divisor_guard :
    ∀ (invs : List Invocation) (s : mscd_state),
      is_read10_write10 s.mscd_data.cbw → 1 ≤ cbw_block_count s.mscd_data.cbw →
      (s.is_waiting_read10_write10 = true ∨
        ∃ i rest, invs = i :: rest ∧ cbw_accepted s i.edpt_addr i.event i.xferred_bytes) →
      ∃ os, command_run s invs = some os ∧
        ∀ o ∈ os, o.st.is_waiting_read10_write10 = true →
          is_read10_write10 o.st.mscd_data.cbw ∧ 1 ≤ cbw_block_count o.st.mscd_data.cbw := by
  intro invs
  induction invs with
  | nil =>
    intro s _ _ _
    exact ⟨[], rfl, by simp⟩
  | cons i rest ih =>
    intro s hrw hn hs
    have hs' : cbw_accepted s i.edpt_addr i.event i.xferred_bytes ∨
        s.is_waiting_read10_write10 = true := by
      rcases hs with h | ⟨i', rest', he, h⟩
      · exact Or.inr h
      · simp only [List.cons.injEq] at he
        obtain ⟨rfl, _⟩ := he
        exact Or.inl h
    obtain ⟨o, ho, hg⟩ := divisor_guard_step i s hrw hn hs'
    cases hw : o.st.is_waiting_read10_write10 with
    | false =>
      refine ⟨[o], command_run_cons_final s i rest o ho hw, ?_⟩
      intro o' ho' hw'
      simp only [List.mem_singleton] at ho'
      subst ho'
      exact hg hw'
    | true =>
      obtain ⟨hrw1, hn1⟩ := hg hw
      obtain ⟨os, hos, hall⟩ := ih o.st hrw1 hn1 (Or.inl hw)
      refine ⟨o :: os, ?_, ?_⟩
      · rw [command_run_cons_waiting s i rest o ho hw, hos]
        rfl
      · intro o' ho' hw'
        simp only [List.mem_cons] at ho'
        rcases ho' with rfl | h
        · exact hg hw'
        · exact hall o' h hw'

/-- C19: for every READ(10)/WRITE(10) CBW accepted in the idle phase with a block count
of at least one, and every sequence of invocations of `mscd_xfer_cb` for that command
(any callback results, any driver answers, any events), no invocation divides by zero:
every invocation produces an outcome, and whenever the continuation flag is set
afterwards the opcode of the CBW is READ(10) or WRITE(10) and the stored remaining block
count is at least one.  For an accepted READ(10)/WRITE(10) CBW whose block count is 0
the division is reached with divisor 0 whatever the callback returns. -/
theorem divisor_guard (i : Invocation) (rest : List Invocation) (s : mscd_state)
    (hcbw : cbw_accepted s i.edpt_addr i.event i.xferred_bytes)
    (hrw : is_read10_write10 s.mscd_data.cbw) :
    (1 ≤ cbw_block_count s.mscd_data.cbw →
      ∃ os, command_run s (i :: rest) = some os ∧
        ∀ o ∈ os, o.st.is_waiting_read10_write10 = true →
          is_read10_write10 o.st.mscd_data.cbw ∧ 1 ≤ cbw_block_count o.st.mscd_data.cbw) ∧
    (cbw_block_count s.mscd_data.cbw = 0 →
      mscd_xfer_cb i.env s i.port i.edpt_addr i.event i.xferred_bytes = none) := by
  refine ⟨fun hn => ?_, fun h0 => ?_⟩
  · exact command_run_divisor_guard (i :: rest) s hrw hn (Or.inr ⟨i, rest, rfl, hcbw⟩)
  · rw [mscd_xfer_cb_new_read10_write10 i.env s i.port i.edpt_addr i.event i.xferred_bytes hcbw
      hrw, data_phase_of_read10_write10 i.env i.port (csw_initialised s) [] hrw,
      read10_write10_zero_divisor i.env i.port (csw_initialised s).mscd_data h0]
    rfl

/-- C19, witness: READ(10) of 3 blocks answered one block at a time, and the same CBW
with a block count of 0. -/
theorem divisor_guard_witness :
    (∃ os, command_run ⟨mscd_example SCSI_CMD_READ_10 0x80 1536 0 3, false⟩
        [ ⟨Env.sample 4096 1 scsi_no_data accept_every, 0, 0x01, TUSB_EVENT_XFER_COMPLETE, 31⟩,
          ⟨Env.sample 4096 1 scsi_no_data accept_every, 0, 0x81, TUSB_EVENT_XFER_COMPLETE, 512⟩,
          ⟨Env.sample 4096 1 scsi_no_data accept_every, 0, 0x81, TUSB_EVENT_XFER_COMPLETE, 512⟩ ]
        = some os ∧
      ∀ o ∈ os, o.st.is_waiting_read10_write10 = true →
        is_read10_write10 o.st.mscd_data.cbw ∧ 1 ≤ cbw_block_count o.st.mscd_data.cbw) ∧
    mscd_xfer_cb (Env.sample 4096 1 scsi_no_data accept_every)
        ⟨mscd_example SCSI_CMD_READ_10 0x80 1536 0 0, false⟩ 0 0x01 TUSB_EVENT_XFER_COMPLETE 31
      = none :=
  ⟨(divisor_guard
      ⟨Env.sample 4096 1 scsi_no_data accept_every, 0, 0x01, TUSB_EVENT_XFER_COMPLETE, 31⟩
      [ ⟨Env.sample 4096 1 scsi_no_data accept_every, 0, 0x81, TUSB_EVENT_XFER_COMPLETE, 512⟩,
        ⟨Env.sample 4096 1 scsi_no_data accept_every, 0, 0x81, TUSB_EVENT_XFER_COMPLETE, 512⟩ ]
      ⟨mscd_example SCSI_CMD_READ_10 0x80 1536 0 3, false⟩ (by decide) (by decide)).1
      (by decide),
    (divisor_guard
      ⟨Env.sample 4096 1 scsi_no_data accept_every, 0, 0x01, TUSB_EVENT_XFER_COMPLETE, 31⟩ []
      ⟨mscd_example SCSI_CMD_READ_10 0x80 1536 0 0, false⟩ (by decide) (by decide)).2
      (by decide)⟩

/-! ## Termination of a chunked command -/

theorem terminating_step (i : Invocation) (s : mscd_state)
    (hstart : i.starts s) (hrw : is_read10_write10 s.mscd_data.cbw)
    (hn : 1 ≤ cbw_block_count s.mscd_data.cbw) (hdrv : accepts_all i.env) :
    ∃ o, mscd_xfer_cb i.env s i.port i.edpt_addr i.event i.xferred_bytes = some o ∧
      o.err = TUSB_ERROR_NONE ∧
      o.st.mscd_data.edpt_in = s.mscd_data.edpt_in ∧
      o.st.mscd_data.edpt_out = s.mscd_data.edpt_out ∧
      ((o.st.is_waiting_read10_write10 = false ∧
          csw_request i.port s.mscd_data ∈ o.trace ∧
          cbw_request i.port s.mscd_data ∈ o.trace) ∨
        (o.st.is_waiting_read10_write10 = true ∧
          is_read10_write10 o.st.mscd_data.cbw ∧
          1 ≤ cbw_block_count o.st.mscd_data.cbw ∧
          cbw_block_count o.st.mscd_data.cbw < cbw_block_count s.mscd_data.cbw)) := by
  obtain ⟨s1, hs1, hc⟩ := rw_step_cases i s hstart hrw
  have hcbw : s1.mscd_data.cbw = s.mscd_data.cbw := by
    rcases hs1 with h | h <;> subst h <;> rfl
  have hin : s1.mscd_data.edpt_in = s.mscd_data.edpt_in := by
    rcases hs1 with h | h <;> subst h <;> rfl
  have hout : s1.mscd_data.edpt_out = s.mscd_data.edpt_out := by
    rcases hs1 with h | h <;> subst h <;> rfl
  have final : ∀ (p_msc : mscd_interface_t) (tr : List Event),
      p_msc.edpt_in = s.mscd_data.edpt_in → p_msc.edpt_out = s.mscd_data.edpt_out →
      mscd_xfer_cb i.env s i.port i.edpt_addr i.event i.xferred_bytes
        = some (status_phase i.env i.port ⟨p_msc, false⟩ tr) →
      ∃ o, mscd_xfer_cb i.env s i.port i.edpt_addr i.event i.xferred_bytes = some o ∧
        o.err = TUSB_ERROR_NONE ∧
        o.st.mscd_data.edpt_in = s.mscd_data.edpt_in ∧
        o.st.mscd_data.edpt_out = s.mscd_data.edpt_out ∧
        ((o.st.is_waiting_read10_write10 = false ∧
            csw_request i.port s.mscd_data ∈ o.trace ∧
            cbw_request i.port s.mscd_data ∈ o.trace) ∨
          (o.st.is_waiting_read10_write10 = true ∧
            is_read10_write10 o.st.mscd_data.cbw ∧
            1 ≤ cbw_block_count o.st.mscd_data.cbw ∧
            cbw_block_count o.st.mscd_data.cbw < cbw_block_count s.mscd_data.cbw)) := by
    intro p_msc tr h1 h2 h
    rw [status_phase_accepting i.env i.port ⟨p_msc, false⟩ tr hdrv rfl] at h
    obtain ⟨e1, e2⟩ := status_gate_requests_eq i.port p_msc s.mscd_data h1 h2
    refine ⟨_, h, rfl, h1, h2, Or.inl ⟨rfl, ?_, ?_⟩⟩
    · show csw_request i.port s.mscd_data ∈ tr ++ [csw_request i.port p_msc,
        cbw_request i.port p_msc]
      rw [e1]
      simp
    · show cbw_request i.port s.mscd_data ∈ tr ++ [csw_request i.port p_msc,
        cbw_request i.port p_msc]
      rw [e2]
      simp
  rcases hc with ⟨h0, _⟩ | ⟨_, _, h⟩ | ⟨hp, hl, _, h⟩ | ⟨_, _, ha, _⟩ | ⟨_, _, h⟩
  · omega
  · exact final (rw_failed s1.mscd_data) _ hin hout h
  · refine ⟨_, h, rfl, hin, hout, Or.inr ⟨rfl, ?_, ?_, ?_⟩⟩
    · exact is_read10_write10_rw_continue _ _ _ (by rw [hcbw]; exact hrw)
    · show 1 ≤ cbw_block_count (rw_continue s1.mscd_data _ _).cbw
      rw [cbw_block_count_rw_continue, hcbw]
      omega
    · show cbw_block_count (rw_continue s1.mscd_data _ _).cbw < _
      rw [cbw_block_count_rw_continue, hcbw]
      omega
  · rw [hdrv _] at ha
    exact absurd ha (by simp)
  · exact final (rw_done s1.mscd_data) _ hin hout h

theorem command_run_terminates :
    ∀ (rest : List Invocation) (i : Invocation) (s : mscd_state),
      i.starts s → is_read10_write10 s.mscd_data.cbw →
      1 ≤ cbw_block_count s.mscd_data.cbw →
      (∀ j ∈ i :: rest, accepts_all j.env) →
      (∀ j ∈ rest, j.on_endpoint_of s.mscd_data) →
      cbw_block_count s.mscd_data.cbw ≤ (i :: rest).length →
      ∃ os o j, command_run s (i :: rest) = some (os ++ [o]) ∧
        (os ++ [o]).length ≤ cbw_block_count s.mscd_data.cbw ∧
        o.err = TUSB_ERROR_NONE ∧
        o.st.is_waiting_read10_write10 = false ∧
        j ∈ i :: rest ∧ csw_request j.port s.mscd_data ∈ o.trace ∧
        (∀ o1 ∈ os, o1.st.is_waiting_read10_write10 = true) ∧
        List.Chain (fun a b => b < a) (cbw_block_count s.mscd_data.cbw)
          (os.map (fun o1 => cbw_block_count o1.st.mscd_data.cbw)) := by
  intro rest
  induction rest with
  | nil =>
    intro i s hstart hrw hn hdrv _ hfuel
    obtain ⟨o, ho, herr, _, _, hcase⟩ := terminating_step i s hstart hrw hn
      (hdrv i (List.mem_cons_self _ _))
    rcases hcase with ⟨hw, hcsw, _⟩ | ⟨_, _, h1, h2⟩
    · refine ⟨[], o, i, ?_, ?_, herr, hw, List.mem_cons_self _ _, hcsw, by simp, ?_⟩
      · rw [command_run_cons_final s i [] o ho hw]
        rfl
      · simpa using hn
      · simp
    · simp only [List.length_singleton] at hfuel
      omega
  | cons i2 rest2 ih =>
    intro i s hstart hrw hn hdrv hep hfuel
    obtain ⟨o1, ho1, herr, hin, hout, hcase⟩ := terminating_step i s hstart hrw hn
      (hdrv i (List.mem_cons_self _ _))
    rcases hcase with ⟨hw, hcsw, _⟩ | ⟨hw, hrw1, hn1, hlt⟩
    · refine ⟨[], o1, i, ?_, ?_, herr, hw, List.mem_cons_self _ _, hcsw, by simp, ?_⟩
      · rw [command_run_cons_final s i (i2 :: rest2) o1 ho1 hw]
        rfl
      · simpa using hn
      · simp
    · have hstart2 : i2.starts o1.st := by
        refine Or.inr ⟨hw, ?_⟩
        have := hep i2 (List.mem_cons_self _ _)
        unfold Invocation.on_endpoint_of at this ⊢
        rw [hin, hout]
        exact this
      have hdrv2 : ∀ j ∈ i2 :: rest2, accepts_all j.env :=
        fun j hj => hdrv j (List.mem_cons_of_mem _ hj)
      have hep2 : ∀ j ∈ rest2, j.on_endpoint_of o1.st.mscd_data := by
        intro j hj
        have := hep j (List.mem_cons_of_mem _ hj)
        unfold Invocation.on_endpoint_of at this ⊢
        rw [hin, hout]
        exact this
      have hfuel2 : cbw_block_count o1.st.mscd_data.cbw ≤ (i2 :: rest2).length := by
        simp only [List.length_cons] at hfuel ⊢
        omega
      obtain ⟨os, o, j, hrun, hlen, herr2, hfin, hj, hcsw, hall, hchain⟩ :=
        ih i2 o1.st hstart2 hrw1 hn1 hdrv2 hep2 hfuel2
      refine ⟨o1 :: os, o, j, ?_, ?_, herr2, hfin, List.mem_cons_of_mem _ hj, ?_, ?_, ?_⟩
      · rw [command_run_cons_waiting s i (i2 :: rest2) o1 ho1 hw, hrun]
        rfl
      · simp only [List.cons_append, List.length_cons] at hlen ⊢
        omega
      · have e := (status_gate_requests_eq j.port o1.st.mscd_data s.mscd_data hin hout).1
        rw [← e]
        exact hcsw
      · intro o' ho'
        simp only [List.mem_cons] at ho'
        rcases ho' with rfl | h
        · exact hw
        · exact hall o' h
      · simp only [List.map_cons]
        exact List.Chain.cons hlt hchain

/-- C20: for every READ(10)/WRITE(10) CBW accepted in the idle phase with an initial
block count `N >= 1`, every sequence of application callback results and completion
events on the endpoints of the interface, the driver accepting every request: the
remaining block count strictly decreases with each invocation that leaves the
continuation flag set, and given `N` invocations in all, the command reaches the status
phase (continuation flag cleared, CSW requested) after at most `N` invocations of
`mscd_xfer_cb`, the one that accepted the CBW included; each invocation makes one call
of `read10_write10_data_xfer`. -/
theorem command_terminates (i : Invocation) (rest : List Invocation) (s : mscd_state)
    (hcbw : cbw_accepted s i.edpt_addr i.event i.xferred_bytes)
    (hrw : is_read10_write10 s.mscd_data.cbw)
    (hn : 1 ≤ cbw_block_count s.mscd_data.cbw)
    (hdrv : ∀ j ∈ i :: rest, accepts_all j.env)
    (hep : ∀ j ∈ rest, j.on_endpoint_of s.mscd_data)
    (hfuel : cbw_block_count s.mscd_data.cbw ≤ (i :: rest).length) :
    ∃ os o j, command_run s (i :: rest) = some (os ++ [o]) ∧
      (os ++ [o]).length ≤ cbw_block_count s.mscd_data.cbw ∧
      o.err = TUSB_ERROR_NONE ∧
      o.st.is_waiting_read10_write10 = false ∧
      j ∈ i :: rest ∧ csw_request j.port s.mscd_data ∈ o.trace ∧
      (∀ o1 ∈ os, o1.st.is_waiting_read10_write10 = true) ∧
      List.Chain (fun a b => b < a) (cbw_block_count s.mscd_data.cbw)
        (os.map (fun o1 => cbw_block_count o1.st.mscd_data.cbw)) :=
  command_run_terminates rest i s (Or.inl hcbw) hrw hn hdrv hep hfuel

/-! ## Byte accounting of a chunked command -/

theorem xferred_block_le (env : Env) (port : Nat) (cbw : msc_cmd_block_wrapper_t) :
    xferred_block env port cbw ≤ cbw_block_count cbw := by
  unfold xferred_block min16_of
  split_ifs <;> omega

theorem per_call_bytes_le (env : Env) (port : Nat) (cbw : msc_cmd_block_wrapper_t) :
    xferred_block env port cbw * (cbw.xfer_bytes / cbw_block_count cbw) ≤ cbw.xfer_bytes :=
  Nat.le_trans (Nat.mul_le_mul_right _ (xferred_block_le env port cbw)) (Nat.mul_div_le _ _)

theorem current_call_no_bytes (port : Nat) (cbw : msc_cmd_block_wrapper_t) :
    (current_call port cbw).data_bytes = 0 := by
  unfold current_call block_cb_call
  split <;> rfl

theorem queued_bytes_failed (port : Nat) (cbw : msc_cmd_block_wrapper_t) (edpt : Nat)
    (p q : mscd_interface_t) :
    queued_bytes ([current_call port cbw, Event.tusb_dcd_edpt_stall port edpt]
      ++ [csw_request port p, cbw_request port q]) = 0 := by
  have h0 := current_call_no_bytes port cbw
  have h1 : (Event.tusb_dcd_edpt_stall port edpt).data_bytes = 0 := rfl
  have h2 : (csw_request port p).data_bytes = 0 := rfl
  have h3 : (cbw_request port q).data_bytes = 0 := rfl
  simp only [queued_bytes, List.cons_append, List.nil_append, List.map_cons, List.map_nil,
    List.sum_cons, List.sum_nil, h0, h1, h2, h3, Nat.add_zero]

theorem queued_bytes_continue (env : Env) (port : Nat) (p_msc : mscd_interface_t) :
    queued_bytes [current_call port p_msc.cbw, continue_request env port p_msc]
      = xferred_byte env port p_msc.cbw := by
  have h0 := current_call_no_bytes port p_msc.cbw
  have h1 : (continue_request env port p_msc).data_bytes = xferred_byte env port p_msc.cbw := rfl
  simp only [queued_bytes, List.map_cons, List.map_nil, List.sum_cons, List.sum_nil, h0, h1]
  omega

theorem queued_bytes_done (env : Env) (port : Nat) (p_msc p q : mscd_interface_t) :
    queued_bytes ([current_call port p_msc.cbw, final_request env port p_msc]
      ++ [csw_request port p, cbw_request port q]) = xferred_byte env port p_msc.cbw := by
  have h0 := current_call_no_bytes port p_msc.cbw
  have h1 : (final_request env port p_msc).data_bytes = xferred_byte env port p_msc.cbw := rfl
  have h2 : (csw_request port p).data_bytes = 0 := rfl
  have h3 : (cbw_request port q).data_bytes = 0 := rfl
  simp only [queued_bytes, List.cons_append, List.nil_append, List.map_cons, List.map_nil,
    List.sum_cons, List.sum_nil, h0, h1, h2, h3]
  omega

theorem total_queued_cons (o : Outcome) (os : List Outcome) :
    total_queued (o :: os) = queued_bytes o.trace + total_queued os := by
  simp [total_queued]

theorem conserving_step (k : Nat) (i : Invocation) (s : mscd_state)
    (hstart : i.starts s) (hrw : is_read10_write10 s.mscd_data.cbw)
    (hn : 1 ≤ cbw_block_count s.mscd_data.cbw) (hdrv : accepts_all i.env)
    (hk : s.mscd_data.cbw.xfer_bytes = cbw_block_count s.mscd_data.cbw * k)
    (hX : s.mscd_data.cbw.xfer_bytes < 2 ^ 16) :
    ∃ o, mscd_xfer_cb i.env s i.port i.edpt_addr i.event i.xferred_bytes = some o ∧
      o.st.mscd_data.edpt_in = s.mscd_data.edpt_in ∧
      o.st.mscd_data.edpt_out = s.mscd_data.edpt_out ∧
      ((o.st.is_waiting_read10_write10 = true ∧
          is_read10_write10 o.st.mscd_data.cbw ∧
          1 ≤ cbw_block_count o.st.mscd_data.cbw ∧
          o.st.mscd_data.cbw.xfer_bytes = cbw_block_count o.st.mscd_data.cbw * k ∧
          queued_bytes o.trace + o.st.mscd_data.cbw.xfer_bytes = s.mscd_data.cbw.xfer_bytes) ∨
        (o.st.is_waiting_read10_write10 = false ∧
          o.st.mscd_data.csw.status = MSC_CSW_STATUS_FAILED ∧
          queued_bytes o.trace = 0 ∧
          o.st.mscd_data.cbw.xfer_bytes = s.mscd_data.cbw.xfer_bytes ∧
          o.st.mscd_data.csw.data_residue = s.mscd_data.cbw.xfer_bytes) ∨
        (o.st.is_waiting_read10_write10 = false ∧
          o.st.mscd_data.csw.status = MSC_CSW_STATUS_PASSED ∧
          queued_bytes o.trace = s.mscd_data.cbw.xfer_bytes)) := by
  obtain ⟨s1, hs1, hc⟩ := rw_step_cases i s hstart hrw
  have hcbw : s1.mscd_data.cbw = s.mscd_data.cbw := by
    rcases hs1 with h | h <;> subst h <;> rfl
  have hin : s1.mscd_data.edpt_in = s.mscd_data.edpt_in := by
    rcases hs1 with h | h <;> subst h <;> rfl
  have hout : s1.mscd_data.edpt_out = s.mscd_data.edpt_out := by
    rcases hs1 with h | h <;> subst h <;> rfl
  have hq : s.mscd_data.cbw.xfer_bytes / cbw_block_count s.mscd_data.cbw = k := by
    rw [hk]
    exact Nat.mul_div_cancel_left k (by omega)
  have hbyte : xferred_byte i.env i.port s.mscd_data.cbw
      = xferred_block i.env i.port s.mscd_data.cbw * k := by
    have hle := per_call_bytes_le i.env i.port s.mscd_data.cbw
    unfold xferred_byte
    rw [hq] at hle ⊢
    omega
  have hxle := xferred_block_le i.env i.port s.mscd_data.cbw
  rcases hc with ⟨h0, _⟩ | ⟨_, _, h⟩ | ⟨hp, hl, _, h⟩ | ⟨_, _, ha, _⟩ | ⟨_, hge, h⟩
  · omega
  · rw [status_phase_accepting i.env i.port _ _ hdrv rfl] at h
    refine ⟨_, h, hin, hout, Or.inr (Or.inl ⟨rfl, rfl, ?_, ?_, ?_⟩)⟩
    · exact queued_bytes_failed _ _ _ _ _
    · show s1.mscd_data.cbw.xfer_bytes = _
      rw [hcbw]
    · show s1.mscd_data.cbw.xfer_bytes = _
      rw [hcbw]
  · have hsub : (cbw_block_count s.mscd_data.cbw - xferred_block i.env i.port s.mscd_data.cbw) * k
        = cbw_block_count s.mscd_data.cbw * k - xferred_block i.env i.port s.mscd_data.cbw * k :=
      Nat.sub_mul _ _ _
    have hmul : xferred_block i.env i.port s.mscd_data.cbw * k
        ≤ cbw_block_count s.mscd_data.cbw * k := Nat.mul_le_mul_right k hxle
    have hX1 : (rw_continue s1.mscd_data (xferred_block i.env i.port s.mscd_data.cbw)
          (xferred_byte i.env i.port s.mscd_data.cbw)).cbw.xfer_bytes
        = s.mscd_data.cbw.xfer_bytes - xferred_block i.env i.port s.mscd_data.cbw * k := by
      show (s1.mscd_data.cbw.xfer_bytes + 2 ^ 32 - _) % 2 ^ 32 = _
      rw [hcbw, hbyte]
      omega
    have hn1 : cbw_block_count (rw_continue s1.mscd_data
          (xferred_block i.env i.port s.mscd_data.cbw)
          (xferred_byte i.env i.port s.mscd_data.cbw)).cbw
        = cbw_block_count s.mscd_data.cbw - xferred_block i.env i.port s.mscd_data.cbw := by
      rw [cbw_block_count_rw_continue, hcbw]
    refine ⟨_, h, hin, hout, Or.inl ⟨rfl, ?_, ?_, ?_, ?_⟩⟩
    · exact is_read10_write10_rw_continue _ _ _ (by rw [hcbw]; exact hrw)
    · show 1 ≤ cbw_block_count (rw_continue s1.mscd_data _ _).cbw
      rw [hn1]
      omega
    · show (rw_continue s1.mscd_data _ _).cbw.xfer_bytes
        = cbw_block_count (rw_continue s1.mscd_data _ _).cbw * k
      rw [hX1, hn1, hsub, hk]
    · show queued_bytes [_, _] + (rw_continue s1.mscd_data _ _).cbw.xfer_bytes = _
      rw [queued_bytes_continue, hX1, hbyte]
      omega
  · rw [hdrv _] at ha
    exact absurd ha (by simp)
  · rw [status_phase_accepting i.env i.port _ _ hdrv rfl] at h
    refine ⟨_, h, hin, hout, Or.inr (Or.inr ⟨rfl, rfl, ?_⟩)⟩
    show queued_bytes ([_, _] ++ [_, _]) = _
    rw [queued_bytes_done, hbyte, hk]
    have : xferred_block i.env i.port s.mscd_data.cbw = cbw_block_count s.mscd_data.cbw := by
      omega
    rw [this]

theorem command_run_conserved (k X0 : Nat) (hX0 : X0 < 2 ^ 16) :
    ∀ (invs : List Invocation) (s : mscd_state) (q : Nat),
      (s.is_waiting_read10_write10 = true ∨
        ∃ i rest, invs = i :: rest ∧ cbw_accepted s i.edpt_addr i.event i.xferred_bytes) →
      is_read10_write10 s.mscd_data.cbw →
      1 ≤ cbw_block_count s.mscd_data.cbw →
      (∀ j ∈ invs, accepts_all j.env ∧ j.on_endpoint_of s.mscd_data) →
      s.mscd_data.cbw.xfer_bytes = cbw_block_count s.mscd_data.cbw * k →
      q + s.mscd_data.cbw.xfer_bytes = X0 →
      ∃ os, command_run s invs = some os ∧
        ∀ pre o post, os = pre ++ o :: post →
          (o.st.is_waiting_read10_write10 = true ∧
            1 ≤ cbw_block_count o.st.mscd_data.cbw ∧
            o.st.mscd_data.cbw.xfer_bytes = cbw_block_count o.st.mscd_data.cbw * k ∧
            q + total_queued (pre ++ [o]) + o.st.mscd_data.cbw.xfer_bytes = X0) ∨
          (o.st.is_waiting_read10_write10 = false ∧
            o.st.mscd_data.csw.status = MSC_CSW_STATUS_FAILED ∧
            q + total_queued (pre ++ [o]) + o.st.mscd_data.cbw.xfer_bytes = X0 ∧
            o.st.mscd_data.csw.data_residue = o.st.mscd_data.cbw.xfer_bytes) ∨
          (o.st.is_waiting_read10_write10 = false ∧
            o.st.mscd_data.csw.status = MSC_CSW_STATUS_PASSED ∧
            q + total_queued (pre ++ [o]) = X0) := by
  intro invs
  induction invs with
  | nil =>
    intro s q _ _ _ _ _ _
    refine ⟨[], rfl, ?_⟩
    intro pre o post h
    exact absurd h (by simp)
  | cons i rest ih =>
    intro s q hs hrw hn hall hk hq
    have hi := hall i (List.mem_cons_self _ _)
    have hstart : i.starts s := by
      rcases hs with h | ⟨i', rest', he, h⟩
      · exact Or.inr ⟨h, hi.2⟩
      · simp only [List.cons.injEq] at he
        obtain ⟨rfl, _⟩ := he
        exact Or.inl h
    obtain ⟨o1, ho1, hin, hout, hcase⟩ := conserving_step k i s hstart hrw hn hi.1 hk (by omega)
    have single : ∀ (pre : List Outcome) (o : Outcome) (post : List Outcome),
        [o1] = pre ++ o :: post → pre = [] ∧ o = o1 ∧ post = [] := by
      intro pre o post h
      cases pre with
      | nil =>
        simp only [List.nil_append, List.cons.injEq] at h
        exact ⟨rfl, h.1.symm, h.2.symm⟩
      | cons a l =>
        simp only [List.cons_append, List.cons.injEq] at h
        exact absurd h.2 (by simp)
    have hone : total_queued [o1] = queued_bytes o1.trace := by
      simp [total_queued]
    rcases hcase with ⟨hw, hrw1, hn1, hk1, hsum⟩ | ⟨hw, hst, hzero, hsame, hres⟩ | ⟨hw, hst, hall1⟩
    · have hall2 : ∀ j ∈ rest, accepts_all j.env ∧ j.on_endpoint_of o1.st.mscd_data := by
        intro j hj
        have := hall j (List.mem_cons_of_mem _ hj)
        refine ⟨this.1, ?_⟩
        have h2 := this.2
        unfold Invocation.on_endpoint_of at h2 ⊢
        rw [hin, hout]
        exact h2
      obtain ⟨os, hos, hprop⟩ := ih o1.st (q + queued_bytes o1.trace) (Or.inl hw) hrw1 hn1 hall2
        hk1 (by omega)
      refine ⟨o1 :: os, ?_, ?_⟩
      · rw [command_run_cons_waiting s i rest o1 ho1 hw, hos]
        rfl
      · intro pre o post h
        cases pre with
        | nil =>
          simp only [List.nil_append, List.cons.injEq] at h
          obtain ⟨rfl, _⟩ := h
          refine Or.inl ⟨hw, hn1, hk1, ?_⟩
          rw [List.nil_append, hone]
          omega
        | cons a l =>
          simp only [List.cons_append, List.cons.injEq] at h
          obtain ⟨rfl, h2⟩ := h
          have := hprop l o post h2
          rw [List.cons_append, total_queued_cons]
          rcases this with ⟨a1, a2, a3, a4⟩ | ⟨a1, a2, a3, a4⟩ | ⟨a1, a2, a3⟩
          · exact Or.inl ⟨a1, a2, a3, by omega⟩
          · exact Or.inr (Or.inl ⟨a1, a2, by omega, a4⟩)
          · exact Or.inr (Or.inr ⟨a1, a2, by omega⟩)
    · refine ⟨[o1], command_run_cons_final s i rest o1 ho1 hw, ?_⟩
      intro pre o post h
      obtain ⟨rfl, rfl, rfl⟩ := single pre o post h
      refine Or.inr (Or.inl ⟨hw, hst, ?_, ?_⟩)
      · rw [List.nil_append, hone]
        omega
      · rw [hres, hsame]
    · refine ⟨[o1], command_run_cons_final s i rest o1 ho1 hw, ?_⟩
      intro pre o post h
      obtain ⟨rfl, rfl, rfl⟩ := single pre o post h
      refine Or.inr (Or.inr ⟨hw, hst, ?_⟩)
      rw [List.nil_append, hone]
      omega

/-- C18 (as amended): for every READ(10)/WRITE(10) command accepted in the idle phase
whose declared transfer length `X` is at most 65535 and an exact multiple of its block
count `N >= 1`, every sequence of application callback results and completion events on
the endpoints of the interface, the driver accepting every request: no per-call byte
count wraps in 16 bits; after each invocation that leaves the command in continuation,
and after one that ends it Failed, the bytes of the data transfers requested so far plus
the `xfer_bytes` stored in the CBW equal `X`; a command ending Failed reports
`data_residue = X` minus the bytes already requested; a command ending Done (Passed) has
requested exactly `X` bytes. -/
theorem bytes_conserved (i : Invocation) (rest : List Invocation) (s : mscd_state)
    (hcbw : cbw_accepted s i.edpt_addr i.event i.xferred_bytes)
    (hrw : is_read10_write10 s.mscd_data.cbw)
    (hn : 1 ≤ cbw_block_count s.mscd_data.cbw)
    (hX : s.mscd_data.cbw.xfer_bytes ≤ 65535)
    (hdvd : cbw_block_count s.mscd_data.cbw ∣ s.mscd_data.cbw.xfer_bytes)
    (hdrv : ∀ j ∈ i :: rest, accepts_all j.env)
    (hep : ∀ j ∈ rest, j.on_endpoint_of s.mscd_data) :
    (∀ env1 port1, xferred_block env1 port1 s.mscd_data.cbw
        * (s.mscd_data.cbw.xfer_bytes / cbw_block_count s.mscd_data.cbw) < 2 ^ 16) ∧
    ∃ os, command_run s (i :: rest) = some os ∧
      ∀ pre o post, os = pre ++ o :: post →
        (o.st.is_waiting_read10_write10 = true ∧
          total_queued (pre ++ [o]) + o.st.mscd_data.cbw.xfer_bytes
            = s.mscd_data.cbw.xfer_bytes ∧
          ∀ env1 port1, xferred_block env1 port1 o.st.mscd_data.cbw
            * (o.st.mscd_data.cbw.xfer_bytes / cbw_block_count o.st.mscd_data.cbw) < 2 ^ 16) ∨
        (o.st.is_waiting_read10_write10 = false ∧
          o.st.mscd_data.csw.status = MSC_CSW_STATUS_FAILED ∧
          total_queued (pre ++ [o]) + o.st.mscd_data.cbw.xfer_bytes
            = s.mscd_data.cbw.xfer_bytes ∧
          o.st.mscd_data.csw.data_residue
            = s.mscd_data.cbw.xfer_bytes - total_queued (pre ++ [o])) ∨
        (o.st.is_waiting_read10_write10 = false ∧
          o.st.mscd_data.csw.status = MSC_CSW_STATUS_PASSED ∧
          total_queued (pre ++ [o]) = s.mscd_data.cbw.xfer_bytes) := by
  obtain ⟨k, hk⟩ := hdvd
  have hall : ∀ j ∈ i :: rest, accepts_all j.env ∧ j.on_endpoint_of s.mscd_data := by
    intro j hj
    refine ⟨hdrv j hj, ?_⟩
    simp only [List.mem_cons] at hj
    rcases hj with rfl | h
    · exact Or.inl hcbw.2.1
    · exact hep j h
  obtain ⟨os, hos, hprop⟩ := command_run_conserved k s.mscd_data.cbw.xfer_bytes (by omega)
    (i :: rest) s 0 (Or.inr ⟨i, rest, rfl, hcbw⟩) hrw hn hall hk (by omega)
  refine ⟨fun env1 port1 => ?_, os, hos, fun pre o post h => ?_⟩
  · have := per_call_bytes_le env1 port1 s.mscd_data.cbw
    omega
  · rcases hprop pre o post h with ⟨a1, _, _, a4⟩ | ⟨a1, a2, a3, a4⟩ | ⟨a1, a2, a3⟩
    · refine Or.inl ⟨a1, by omega, fun env1 port1 => ?_⟩
      have := per_call_bytes_le env1 port1 o.st.mscd_data.cbw
      omega
    · exact Or.inr (Or.inl ⟨a1, a2, by omega, by omega⟩)
    · exact Or.inr (Or.inr ⟨a1, a2, by omega⟩)

/-- C18, witness: READ(10) of 3 blocks (1536 bytes) answered with 1 block and then with
the 2 remaining blocks. -/
theorem bytes_conserved_witness :
    cbw_accepted ⟨mscd_example SCSI_CMD_READ_10 0x80 1536 0 3, false⟩ 0x01
      TUSB_EVENT_XFER_COMPLETE 31 ∧
    ∃ os, command_run ⟨mscd_example SCSI_CMD_READ_10 0x80 1536 0 3, false⟩
        [ ⟨Env.sample 4096 1 scsi_no_data accept_every, 0, 0x01, TUSB_EVENT_XFER_COMPLETE, 31⟩,
          ⟨Env.sample 4096 2 scsi_no_data accept_every, 0, 0x81, TUSB_EVENT_XFER_COMPLETE, 512⟩ ]
        = some os ∧
      ∀ pre o post, os = pre ++ o :: post →
        (o.st.is_waiting_read10_write10 = true ∧
          total_queued (pre ++ [o]) + o.st.mscd_data.cbw.xfer_bytes = 1536 ∧
          ∀ env1 port1, xferred_block env1 port1 o.st.mscd_data.cbw
            * (o.st.mscd_data.cbw.xfer_bytes / cbw_block_count o.st.mscd_data.cbw) < 2 ^ 16) ∨
        (o.st.is_waiting_read10_write10 = false ∧
          o.st.mscd_data.csw.status = MSC_CSW_STATUS_FAILED ∧
          total_queued (pre ++ [o]) + o.st.mscd_data.cbw.xfer_bytes = 1536 ∧
          o.st.mscd_data.csw.data_residue = 1536 - total_queued (pre ++ [o])) ∨
        (o.st.is_waiting_read10_write10 = false ∧
          o.st.mscd_data.csw.status = MSC_CSW_STATUS_PASSED ∧
          total_queued (pre ++ [o]) = 1536) :=
  ⟨by decide,
    (bytes_conserved
      ⟨Env.sample 4096 1 scsi_no_data accept_every, 0, 0x01, TUSB_EVENT_XFER_COMPLETE, 31⟩
      [⟨Env.sample 4096 2 scsi_no_data accept_every, 0, 0x81, TUSB_EVENT_XFER_COMPLETE, 512⟩]
      ⟨mscd_example SCSI_CMD_READ_10 0x80 1536 0 3, false⟩
      (by decide) (by decide) (by decide) (by decide) (by decide)
      (by
        intro j hj
        simp only [List.mem_cons, List.mem_singleton, List.not_mem_nil, or_false] at hj
        rcases hj with rfl | rfl <;> exact fun _ => rfl)
      (by
        intro j hj
        simp only [List.mem_singleton] at hj
        subst hj
        exact Or.inr rfl)).2⟩

/-- C18, counterexample to the claim as stated: READ(10) of one block of 512 bytes
answered in full.  After the only call of `read10_write10_data_xfer` 512 bytes have been
requested and the CBW still stores `xfer_bytes = 512` (a final step does not rewrite the
CBW): the sum is 1024, not the declared 512. -/
theorem bytes_conserved_not_after_done :
    (mscd_example SCSI_CMD_READ_10 0x80 512 0 1).cbw.xfer_bytes = 512 ∧
    cbw_block_count (mscd_example SCSI_CMD_READ_10 0x80 512 0 1).cbw = 1 ∧
    Option.map (List.map Outcome.trace)
        (command_run ⟨mscd_example SCSI_CMD_READ_10 0x80 512 0 1, false⟩
          [⟨Env.sample 4096 1 scsi_no_data accept_every, 0, 0x01, TUSB_EVENT_XFER_COMPLETE, 31⟩])
      = some
        [ [ Event.tud_msc_read10_cb 0 0 0 1,
            Event.tusb_dcd_edpt_queue_xfer 0 0x81 (Buffer.app 4096) 512,
            Event.tusb_dcd_edpt_xfer 0 0x81 Buffer.csw 13 false,
            Event.tusb_dcd_edpt_xfer 0 0x01 Buffer.cbw 31 true ] ] ∧
    Option.map total_queued
        (command_run ⟨mscd_example SCSI_CMD_READ_10 0x80 512 0 1, false⟩
          [⟨Env.sample 4096 1 scsi_no_data accept_every, 0, 0x01, TUSB_EVENT_XFER_COMPLETE, 31⟩])
      = some 512 ∧
    Option.map (List.map Outcome.xfer_bytes)
        (command_run ⟨mscd_example SCSI_CMD_READ_10 0x80 512 0 1, false⟩
          [⟨Env.sample 4096 1 scsi_no_data accept_every, 0, 0x01, TUSB_EVENT_XFER_COMPLETE, 31⟩])
      = some [512] ∧
    512 + 512 ≠ 512 :=
  ⟨by decide, by decide, by decide, by decide, by decide, by decide⟩

/-! ## The per-block byte count -/

theorem ratio_step (k : Nat) (i : Invocation) (s : mscd_state)
    (hrw : is_read10_write10 s.mscd_data.cbw)
    (hn : 1 ≤ cbw_block_count s.mscd_data.cbw)
    (hs : cbw_accepted s i.edpt_addr i.event i.xferred_bytes ∨
      s.is_waiting_read10_write10 = true)
    (hk : s.mscd_data.cbw.xfer_bytes = cbw_block_count s.mscd_data.cbw * k)
    (hX : s.mscd_data.cbw.xfer_bytes < 2 ^ 32)
    (hfit : i.chunk_fits k) :
    ∃ o, mscd_xfer_cb i.env s i.port i.edpt_addr i.event i.xferred_bytes = some o ∧
      (o.st.is_waiting_read10_write10 = true →
        is_read10_write10 o.st.mscd_data.cbw ∧
        1 ≤ cbw_block_count o.st.mscd_data.cbw ∧
        o.st.mscd_data.cbw.xfer_bytes = cbw_block_count o.st.mscd_data.cbw * k ∧
        o.st.mscd_data.cbw.xfer_bytes < 2 ^ 32) := by
  have main : i.starts s →
      ∃ o, mscd_xfer_cb i.env s i.port i.edpt_addr i.event i.xferred_bytes = some o ∧
        (o.st.is_waiting_read10_write10 = true →
          is_read10_write10 o.st.mscd_data.cbw ∧
          1 ≤ cbw_block_count o.st.mscd_data.cbw ∧
          o.st.mscd_data.cbw.xfer_bytes = cbw_block_count o.st.mscd_data.cbw * k ∧
          o.st.mscd_data.cbw.xfer_bytes < 2 ^ 32) := by
    intro hstart
    obtain ⟨s1, hs1, hc⟩ := rw_step_cases i s hstart hrw
    have hcbw : s1.mscd_data.cbw = s.mscd_data.cbw := by
      rcases hs1 with h | h <;> subst h <;> rfl
    rcases hc with ⟨h0, _⟩ | ⟨_, _, h⟩ | ⟨hp, hl, _, h⟩ | ⟨_, _, _, h⟩ | ⟨_, _, h⟩
    · omega
    · refine ⟨_, h, fun hw => ?_⟩
      rw [status_phase_st] at hw
      exact absurd hw (by simp)
    · have hq : s.mscd_data.cbw.xfer_bytes / cbw_block_count s.mscd_data.cbw = k := by
        rw [hk]
        exact Nat.mul_div_cancel_left k (by omega)
      have hb := hfit s.mscd_data.cbw hl
      have hbyte : xferred_byte i.env i.port s.mscd_data.cbw
          = xferred_block i.env i.port s.mscd_data.cbw * k := by
        unfold xferred_byte
        rw [hq]
        omega
      have hsub : (cbw_block_count s.mscd_data.cbw
            - xferred_block i.env i.port s.mscd_data.cbw) * k
          = cbw_block_count s.mscd_data.cbw * k
            - xferred_block i.env i.port s.mscd_data.cbw * k := Nat.sub_mul _ _ _
      have hmul : xferred_block i.env i.port s.mscd_data.cbw * k
          ≤ cbw_block_count s.mscd_data.cbw * k := Nat.mul_le_mul_right k (Nat.le_of_lt hl)
      have hX1 : (rw_continue s1.mscd_data (xferred_block i.env i.port s.mscd_data.cbw)
            (xferred_byte i.env i.port s.mscd_data.cbw)).cbw.xfer_bytes
          = s.mscd_data.cbw.xfer_bytes - xferred_block i.env i.port s.mscd_data.cbw * k := by
        show (s1.mscd_data.cbw.xfer_bytes + 2 ^ 32 - _) % 2 ^ 32 = _
        rw [hcbw, hbyte]
        omega
      have hn1 : cbw_block_count (rw_continue s1.mscd_data
            (xferred_block i.env i.port s.mscd_data.cbw)
            (xferred_byte i.env i.port s.mscd_data.cbw)).cbw
          = cbw_block_count s.mscd_data.cbw - xferred_block i.env i.port s.mscd_data.cbw := by
        rw [cbw_block_count_rw_continue, hcbw]
      refine ⟨_, h, fun _ => ⟨?_, ?_, ?_, ?_⟩⟩
      · exact is_read10_write10_rw_continue _ _ _ (by rw [hcbw]; exact hrw)
      · show 1 ≤ cbw_block_count (rw_continue s1.mscd_data _ _).cbw
        rw [hn1]
        omega
      · show (rw_continue s1.mscd_data _ _).cbw.xfer_bytes
          = cbw_block_count (rw_continue s1.mscd_data _ _).cbw * k
        rw [hX1, hn1, hsub, hk]
      · show (rw_continue s1.mscd_data _ _).cbw.xfer_bytes < 2 ^ 32
        rw [hX1]
        omega
    · refine ⟨_, h, fun hw => ?_⟩
      rw [status_phase_st] at hw
      exact absurd hw (by simp)
    · refine ⟨_, h, fun hw => ?_⟩
      rw [status_phase_st] at hw
      exact absurd hw (by simp)
  rcases hs with hcbw | hflag
  · exact main (Or.inl hcbw)
  · by_cases hep : i.edpt_addr = s.mscd_data.edpt_out ∨ i.edpt_addr = s.mscd_data.edpt_in
    · exact main (Or.inr ⟨hflag, hep⟩)
    · refine ⟨⟨TUSB_ERROR_INVALID_PARA, s, []⟩, ?_, fun _ => ⟨hrw, hn, hk, hX⟩⟩
      simp only [mscd_xfer_cb, hep, not_false_eq_true, if_true]

theorem command_run_ratio (k : Nat) :
    ∀ (invs : List Invocation) (s : mscd_state),
      is_read10_write10 s.mscd_data.cbw → 1 ≤ cbw_block_count s.mscd_data.cbw →
      (s.is_waiting_read10_write10 = true ∨
        ∃ i rest, invs = i :: rest ∧ cbw_accepted s i.edpt_addr i.event i.xferred_bytes) →
      s.mscd_data.cbw.xfer_bytes = cbw_block_count s.mscd_data.cbw * k →
      s.mscd_data.cbw.xfer_bytes < 2 ^ 32 →
      (∀ j ∈ invs, j.chunk_fits k) →
      ∃ os, command_run s invs = some os ∧
        ∀ o ∈ os, o.st.is_waiting_read10_write10 = true →
          1 ≤ cbw_block_count o.st.mscd_data.cbw ∧
          o.st.mscd_data.cbw.xfer_bytes = cbw_block_count o.st.mscd_data.cbw * k := by
  intro invs
  induction invs with
  | nil =>
    intro s _ _ _ _ _ _
    exact ⟨[], rfl, by simp⟩
  | cons i rest ih =>
    intro s hrw hn hs hk hX hfit
    have hs' : cbw_accepted s i.edpt_addr i.event i.xferred_bytes ∨
        s.is_waiting_read10_write10 = true := by
      rcases hs with h | ⟨i', rest', he, h⟩
      · exact Or.inr h
      · simp only [List.cons.injEq] at he
        obtain ⟨rfl, _⟩ := he
        exact Or.inl h
    obtain ⟨o, ho, hg⟩ := ratio_step k i s hrw hn hs' hk hX (hfit i (List.mem_cons_self _ _))
    cases hw : o.st.is_waiting_read10_write10 with
    | false =>
      refine ⟨[o], command_run_cons_final s i rest o ho hw, ?_⟩
      intro o' ho' hw'
      simp only [List.mem_singleton] at ho'
      subst ho'
      rw [hw] at hw'
      exact absurd hw' (by simp)
    | true =>
      obtain ⟨hrw1, hn1, hk1, hX1⟩ := hg hw
      obtain ⟨os, hos, hall⟩ := ih o.st hrw1 hn1 (Or.inl hw) hk1 hX1
        (fun j hj => hfit j (List.mem_cons_of_mem _ hj))
      refine ⟨o :: os, ?_, ?_⟩
      · rw [command_run_cons_waiting s i rest o ho hw, hos]
        rfl
      · intro o' ho' hw'
        simp only [List.mem_cons] at ho'
        rcases ho' with rfl | h
        · exact ⟨hn1, hk1⟩
        · exact hall o' h hw'

/-- C16 (as amended): for every READ(10)/WRITE(10) command accepted in the idle phase
whose 32-bit declared transfer length is an exact multiple of its block count `N >= 1`,
and every sequence of invocations in which no partial callback result amounts to 2^16
bytes or more: whenever an invocation leaves the command in continuation, the
`xfer_bytes / block_count` that the next call of `read10_write10_data_xfer` computes
from the rewritten CBW equals the declared transfer length divided by the original block
count. -/
theorem per_block_bytes_fixed (i : Invocation) (rest : List Invocation) (s : mscd_state)
    (hcbw : cbw_accepted s i.edpt_addr i.event i.xferred_bytes)
    (hrw : is_read10_write10 s.mscd_data.cbw)
    (hn : 1 ≤ cbw_block_count s.mscd_data.cbw)
    (hX : s.mscd_data.cbw.xfer_bytes < 2 ^ 32)
    (hdvd : cbw_block_count s.mscd_data.cbw ∣ s.mscd_data.cbw.xfer_bytes)
    (hfit : ∀ j ∈ i :: rest,
      j.chunk_fits (s.mscd_data.cbw.xfer_bytes / cbw_block_count s.mscd_data.cbw)) :
    ∃ os, command_run s (i :: rest) = some os ∧
      ∀ o ∈ os, o.st.is_waiting_read10_write10 = true →
        o.st.mscd_data.cbw.xfer_bytes / cbw_block_count o.st.mscd_data.cbw
          = s.mscd_data.cbw.xfer_bytes / cbw_block_count s.mscd_data.cbw := by
  obtain ⟨k, hk⟩ := hdvd
  have hq : s.mscd_data.cbw.xfer_bytes / cbw_block_count s.mscd_data.cbw = k := by
    rw [hk]
    exact Nat.mul_div_cancel_left k (by omega)
  rw [hq] at hfit ⊢
  obtain ⟨os, hos, hprop⟩ := command_run_ratio k (i :: rest) s hrw hn
    (Or.inr ⟨i, rest, rfl, hcbw⟩) hk hX hfit
  refine ⟨os, hos, fun o ho hw => ?_⟩
  obtain ⟨h1, h2⟩ := hprop o ho hw
  rw [h2]
  exact Nat.mul_div_cancel_left k (by omega)

theorem chunk_fits_sample (p_buffer blocks : Nat) (scsi : scsi_cb_result)
    (accepts : Event → Bool) (port edpt_addr : Nat) (event : tusb_event_t)
    (xferred_bytes k : Nat) (h : blocks * k < 2 ^ 16) :
    (⟨Env.sample p_buffer blocks scsi accepts, port, edpt_addr, event, xferred_bytes⟩ :
      Invocation).chunk_fits k := by
  intro cbw _
  have hle : xferred_block (Env.sample p_buffer blocks scsi accepts) port cbw ≤ blocks := by
    unfold xferred_block min16_of block_cb Env.sample
    split_ifs <;> simp_all
  exact Nat.lt_of_le_of_lt (Nat.mul_le_mul_right k hle) h

/-- C16, witness: READ(10) of 3 blocks (1536 bytes) answered one block at a time; every
call uses 512 bytes per block. -/
theorem per_block_bytes_fixed_witness :
    cbw_accepted ⟨mscd_example SCSI_CMD_READ_10 0x80 1536 0 3, false⟩ 0x01
      TUSB_EVENT_XFER_COMPLETE 31 ∧
    ∃ os, command_run ⟨mscd_example SCSI_CMD_READ_10 0x80 1536 0 3, false⟩
        [ ⟨Env.sample 4096 1 scsi_no_data accept_every, 0, 0x01, TUSB_EVENT_XFER_COMPLETE, 31⟩,
          ⟨Env.sample 4096 1 scsi_no_data accept_every, 0, 0x81, TUSB_EVENT_XFER_COMPLETE, 512⟩,
          ⟨Env.sample 4096 1 scsi_no_data accept_every, 0, 0x81, TUSB_EVENT_XFER_COMPLETE, 512⟩ ]
        = some os ∧
      ∀ o ∈ os, o.st.is_waiting_read10_write10 = true →
        o.st.mscd_data.cbw.xfer_bytes / cbw_block_count o.st.mscd_data.cbw = 1536 / 3 :=
  ⟨by decide,
    per_block_bytes_fixed
      ⟨Env.sample 4096 1 scsi_no_data accept_every, 0, 0x01, TUSB_EVENT_XFER_COMPLETE, 31⟩
      [ ⟨Env.sample 4096 1 scsi_no_data accept_every, 0, 0x81, TUSB_EVENT_XFER_COMPLETE, 512⟩,
        ⟨Env.sample 4096 1 scsi_no_data accept_every, 0, 0x81, TUSB_EVENT_XFER_COMPLETE, 512⟩ ]
      ⟨mscd_example SCSI_CMD_READ_10 0x80 1536 0 3, false⟩
      (by decide) (by decide) (by decide) (by decide) (by decide)
      (by
        intro j hj
        simp only [List.mem_cons, List.mem_singleton, List.not_mem_nil, or_false] at hj
        rcases hj with rfl | rfl | rfl <;>
          exact chunk_fits_sample _ _ _ _ _ _ _ _ _ (by decide))⟩

/-- C16, counterexample to the claim as stated, at two inputs.  First: READ(10) of 3
blocks declaring 1000 bytes (333 per block), answered with 2 blocks: the CBW then holds
334 bytes for 1 block, and the next call transfers its block as 334 bytes.  Second:
READ(10) of 256 blocks of 512 bytes, answered with 128 blocks: the byte count wraps to
0, the CBW then holds 131072 bytes for 128 blocks, and the next call transfers one block
as 1024 bytes. -/
theorem per_block_bytes_drift :
    (Option.map (List.map Outcome.xfer_bytes)
        (mscd_run ⟨mscd_example SCSI_CMD_READ_10 0x80 1000 0 3, false⟩
          [ ⟨Env.sample 4096 2 scsi_no_data accept_every, 0, 0x01, TUSB_EVENT_XFER_COMPLETE, 31⟩ ])
      = some [334] ∧
      Option.map (List.map Outcome.block_count)
        (mscd_run ⟨mscd_example SCSI_CMD_READ_10 0x80 1000 0 3, false⟩
          [ ⟨Env.sample 4096 2 scsi_no_data accept_every, 0, 0x01, TUSB_EVENT_XFER_COMPLETE, 31⟩ ])
      = some [1] ∧
      Option.map (List.map Outcome.trace)
        (mscd_run ⟨mscd_example SCSI_CMD_READ_10 0x80 1000 0 3, false⟩
          [ ⟨Env.sample 4096 2 scsi_no_data accept_every, 0, 0x01, TUSB_EVENT_XFER_COMPLETE, 31⟩,
            ⟨Env.sample 8192 1 scsi_no_data accept_every, 0, 0x81, TUSB_EVENT_XFER_COMPLETE, 666⟩ ])
      = some
        [ [ Event.tud_msc_read10_cb 0 0 0 3,
            Event.tusb_dcd_edpt_xfer 0 0x81 (Buffer.app 4096) 666 true ],
          [ Event.tud_msc_read10_cb 0 0 2 1,
            Event.tusb_dcd_edpt_queue_xfer 0 0x81 (Buffer.app 8192) 334,
            Event.tusb_dcd_edpt_xfer 0 0x81 Buffer.csw 13 false,
            Event.tusb_dcd_edpt_xfer 0 0x01 Buffer.cbw 31 true ] ] ∧
      334 / 1 ≠ 1000 / 3) ∧
    (Option.map (List.map Outcome.xfer_bytes)
        (mscd_run ⟨mscd_example SCSI_CMD_READ_10 0x80 131072 0 256, false⟩
          [ ⟨Env.sample 4096 128 scsi_no_data accept_every, 0, 0x01, TUSB_EVENT_XFER_COMPLETE,
              31⟩ ])
      = some [131072] ∧
      Option.map (List.map Outcome.block_count)
        (mscd_run ⟨mscd_example SCSI_CMD_READ_10 0x80 131072 0 256, false⟩
          [ ⟨Env.sample 4096 128 scsi_no_data accept_every, 0, 0x01, TUSB_EVENT_XFER_COMPLETE,
              31⟩ ])
      = some [128] ∧
      Option.map (List.map Outcome.trace)
        (mscd_run ⟨mscd_example SCSI_CMD_READ_10 0x80 131072 0 256, false⟩
          [ ⟨Env.sample 4096 128 scsi_no_data accept_every, 0, 0x01, TUSB_EVENT_XFER_COMPLETE,
              31⟩,
            ⟨Env.sample 8192 1 scsi_no_data accept_every, 0, 0x81, TUSB_EVENT_XFER_COMPLETE, 0⟩ ])
      = some
        [ [ Event.tud_msc_read10_cb 0 0 0 256,
            Event.tusb_dcd_edpt_xfer 0 0x81 (Buffer.app 4096) 0 true ],
          [ Event.tud_msc_read10_cb 0 0 128 128,
            Event.tusb_dcd_edpt_xfer 0 0x81 (Buffer.app 8192) 1024 true ] ] ∧
      131072 / 128 ≠ 131072 / 256) :=
  ⟨⟨by decide, by decide, by decide, by decide⟩, ⟨by decide, by decide, by decide, by decide⟩⟩

/-- C20, witness: READ(10) of 3 blocks answered one block at a time reaches the status
phase with its third invocation. -/
theorem command_terminates_witness :
    cbw_accepted ⟨mscd_example SCSI_CMD_READ_10 0x80 1536 0 3, false⟩ 0x01
      TUSB_EVENT_XFER_COMPLETE 31 ∧
    ∃ os o j, command_run ⟨mscd_example SCSI_CMD_READ_10 0x80 1536 0 3, false⟩
        [ ⟨Env.sample 4096 1 scsi_no_data accept_every, 0, 0x01, TUSB_EVENT_XFER_COMPLETE, 31⟩,
          ⟨Env.sample 4096 1 scsi_no_data accept_every, 0, 0x81, TUSB_EVENT_XFER_COMPLETE, 512⟩,
          ⟨Env.sample 4096 1 scsi_no_data accept_every, 0, 0x81, TUSB_EVENT_XFER_COMPLETE, 512⟩ ]
        = some (os ++ [o]) ∧
      (os ++ [o]).length ≤ 3 ∧
      o.err = TUSB_ERROR_NONE ∧
      o.st.is_waiting_read10_write10 = false ∧
      j ∈ [ (⟨Env.sample 4096 1 scsi_no_data accept_every, 0, 0x01, TUSB_EVENT_XFER_COMPLETE,
              31⟩ : Invocation),
            ⟨Env.sample 4096 1 scsi_no_data accept_every, 0, 0x81, TUSB_EVENT_XFER_COMPLETE, 512⟩,
            ⟨Env.sample 4096 1 scsi_no_data accept_every, 0, 0x81, TUSB_EVENT_XFER_COMPLETE,
              512⟩ ] ∧
      csw_request j.port (mscd_example SCSI_CMD_READ_10 0x80 1536 0 3) ∈ o.trace ∧
      (∀ o1 ∈ os, o1.st.is_waiting_read10_write10 = true) ∧
      List.Chain (fun a b => b < a) 3
        (os.map (fun o1 => cbw_block_count o1.st.mscd_data.cbw)) :=
  ⟨by decide,
    command_terminates
      ⟨Env.sample 4096 1 scsi_no_data accept_every, 0, 0x01, TUSB_EVENT_XFER_COMPLETE, 31⟩
      [ ⟨Env.sample 4096 1 scsi_no_data accept_every, 0, 0x81, TUSB_EVENT_XFER_COMPLETE, 512⟩,
        ⟨Env.sample 4096 1 scsi_no_data accept_every, 0, 0x81, TUSB_EVENT_XFER_COMPLETE, 512⟩ ]
      ⟨mscd_example SCSI_CMD_READ_10 0x80 1536 0 3, false⟩
      (by decide) (by decide) (by decide)
      (by
        intro j hj
        simp only [List.mem_cons, List.mem_singleton, List.not_mem_nil, or_false] at hj
        rcases hj with rfl | rfl | rfl <;> exact fun _ => rfl)
      (by
        intro j hj
        simp only [List.mem_cons, List.mem_singleton, List.not_mem_nil, or_false] at hj
        rcases hj with rfl | rfl <;> exact Or.inr rfl)
      (by decide)⟩

end MscDevice
